import Mathlib

/-! Ilitek ILI9881C / ILI9881D panel drivers

A shallow embedding of `drivers/gpu/drm/panel/panel-ilitek-ili9881c.c` and
`drivers/gpu/drm/panel/panel-ilitek-ili9881d.c`.

The drivers talk to four external collaborators: the power regulator, the
reset GPIO, the optional backlight and the MIPI-DSI command channel.  Every
call into one of them (and every `msleep`) is recorded, in program order, in
the `trace` of a `World`; the value each call returns is supplied by an
environment `Env`, a function of the calls made so far and the call being made.
Driver functions are written in explicit state-passing style: they take the
world and return the C return value together with the new world.  `printk`
logging is not modelled.
-/

namespace Ili9881

set_option maxRecDepth 100000

/-- The C enum `mipi_dsi_dcs_tear_mode` of `drm_mipi_dsi.h`. -/
inductive mipi_dsi_dcs_tear_mode where
  | MIPI_DSI_DCS_TEAR_MODE_VBLANK
  | MIPI_DSI_DCS_TEAR_MODE_VHBLANK
  deriving DecidableEq, Repr

/-- One call from a driver into an external collaborator, named after the
kernel function called, with the arguments that matter to the panel. -/
inductive Action where
  | regulator_enable
  | regulator_disable
  | msleep (msecs : Nat)
  | gpiod_set_value (value : Nat)
  | mipi_dsi_dcs_write_buffer (buf : List Nat)
  | mipi_dsi_dcs_set_tear_on (mode : mipi_dsi_dcs_tear_mode)
  | mipi_dsi_dcs_exit_sleep_mode
  | mipi_dsi_dcs_enter_sleep_mode
  | mipi_dsi_dcs_set_display_on
  | mipi_dsi_dcs_set_display_off
  | backlight_enable
  | backlight_disable
  deriving DecidableEq, Repr

/-- The calls that write on the MIPI-DSI command channel. -/
def Action.isChannel : Action → Bool
  | .mipi_dsi_dcs_write_buffer _ => true
  | .mipi_dsi_dcs_set_tear_on _ => true
  | .mipi_dsi_dcs_exit_sleep_mode => true
  | .mipi_dsi_dcs_enter_sleep_mode => true
  | .mipi_dsi_dcs_set_display_on => true
  | .mipi_dsi_dcs_set_display_off => true
  | _ => false

/-- A page-select frame: a buffer write of the four bytes `ff 98 81 page`. -/
def Action.isPageSelect : Action → Bool
  | .mipi_dsi_dcs_write_buffer [b0, b1, b2, _] => b0 == 0xff && b1 == 0x98 && b2 == 0x81
  | _ => false

/-- The environment: the value a call returns, given the calls made before it
(oldest first) and the call itself.  For the calls that return `void`
(`msleep`, `gpiod_set_value`) the value is never looked at.  Channel results
are the values as the drivers hold them in `int ret`: a negative errno, or a
byte count (`mipi_dsi_dcs_write_buffer`) or `0` on success. -/
abbrev Env := List Action → Action → Int

/-- Modelled from the spec: the state of the external collaborators, which the
drivers only reach through kernel calls whose code is not part of the panel
drivers.  `trace` lists the calls made so far, oldest first; `power` is the
number of enables the driver holds on its power supply (the supply is
enabled when it is positive); `reset` is the logical value last driven on the
reset line (`1` asserted, `0` deasserted); `backlight` tells whether the
backlight is lit. -/
structure World where
  trace : List Action
  power : Nat
  reset : Nat
  backlight : Bool
  deriving DecidableEq, Repr

/-- Modelled from the spec: what a call does to the collaborators, given the
value `r` it returned.  `power.enable()/disable()` count up and down when they
succeed, `gpiod_set_value` drives the reset line, the backlight calls light
and darken the backlight when they succeed; sleeps and channel writes change
nothing the driver can observe. -/
def World.effect (a : Action) (r : Int) (w : World) : World :=
  match a with
  | .regulator_enable => if r = 0 then { w with power := w.power + 1 } else w
  | .regulator_disable => if r = 0 then { w with power := w.power - 1 } else w
  | .gpiod_set_value value => { w with reset := value }
  | .backlight_enable => if r = 0 then { w with backlight := true } else w
  | .backlight_disable => if r = 0 then { w with backlight := false } else w
  | _ => w

/-- Make one call: ask the environment for its result, apply its effect and
append it to the trace. -/
def call (env : Env) (a : Action) (w : World) : Int × World :=
  (env w.trace a, { World.effect a (env w.trace a) w with trace := w.trace ++ [a] })

/-- The power supply is enabled. -/
def World.powerEnabled (w : World) : Prop := 0 < w.power

/-- The reset line is asserted. -/
def World.resetAsserted (w : World) : Prop := w.reset ≠ 0

/-- A call result counts as success: a buffer write returns a byte count
(`ret < 0` is its only failure), every other call returns `0`. -/
def succeeded (a : Action) (r : Int) : Prop :=
  match a with
  | .mipi_dsi_dcs_write_buffer _ => 0 ≤ r
  | _ => r = 0

/-- Every call the environment can be asked succeeds. -/
def AllSucceed (env : Env) : Prop := ∀ h a, succeeded a (env h a)

/-! ## Kernel calls used by the drivers -/

def regulator_enable (env : Env) (w : World) : Int × World :=
  call env .regulator_enable w

def regulator_disable (env : Env) (w : World) : Int × World :=
  call env .regulator_disable w

def msleep (env : Env) (msecs : Nat) (w : World) : World :=
  (call env (.msleep msecs) w).2

def gpiod_set_value (env : Env) (value : Nat) (w : World) : World :=
  (call env (.gpiod_set_value value) w).2

def mipi_dsi_dcs_write_buffer (env : Env) (buf : List Nat) (w : World) : Int × World :=
  call env (.mipi_dsi_dcs_write_buffer buf) w

def mipi_dsi_dcs_set_tear_on (env : Env) (mode : mipi_dsi_dcs_tear_mode) (w : World) :
    Int × World :=
  call env (.mipi_dsi_dcs_set_tear_on mode) w

def mipi_dsi_dcs_exit_sleep_mode (env : Env) (w : World) : Int × World :=
  call env .mipi_dsi_dcs_exit_sleep_mode w

def mipi_dsi_dcs_enter_sleep_mode (env : Env) (w : World) : Int × World :=
  call env .mipi_dsi_dcs_enter_sleep_mode w

def mipi_dsi_dcs_set_display_on (env : Env) (w : World) : Int × World :=
  call env .mipi_dsi_dcs_set_display_on w

def mipi_dsi_dcs_set_display_off (env : Env) (w : World) : Int × World :=
  call env .mipi_dsi_dcs_set_display_off w

/-- Modelled from the spec: `backlight_enable` of `linux/backlight.h`, whose
code is not part of the drivers.  The backlight is optional: with no handle
(`bd = false`, a NULL pointer) the step is skipped and is not an error. -/
def backlight_enable (env : Env) (bd : Bool) (w : World) : Int × World :=
  if bd then call env .backlight_enable w else (0, w)

/-- Modelled from the spec: `backlight_disable` of `linux/backlight.h`; with
no handle the step is skipped and is not an error. -/
def backlight_disable (env : Env) (bd : Bool) (w : World) : Int × World :=
  if bd then call env .backlight_disable w else (0, w)

/-! ## panel-ilitek-ili9881c.c -/

/-- The driver context `struct ili9881c`.  The `dsi`, `power` and `reset`
handles name the one channel, supply and reset line of the `World`;
`backlight` is `true` when `ctx->backlight` is a non-NULL handle. -/
structure ili9881c where
  backlight : Bool
  deriving DecidableEq, Repr

/-- The C `struct ili9881c_instr`: the `op` tag with the member of `arg` it
selects.  The `u8` fields are held as naturals. -/
inductive ili9881c_instr where
  | ILI9881C_SWITCH_PAGE (page : Nat)
  | ILI9881C_COMMAND (cmd data : Nat)
  deriving DecidableEq, Repr

/-- The C macro `ILI9881C_SWITCH_PAGE_INSTR`. -/
@[reducible, simp]
def ILI9881C_SWITCH_PAGE_INSTR (page : Nat) : ili9881c_instr :=
  ili9881c_instr.ILI9881C_SWITCH_PAGE page

/-- The C macro `ILI9881C_COMMAND_INSTR`. -/
@[reducible, simp]
def ILI9881C_COMMAND_INSTR (cmd data : Nat) : ili9881c_instr :=
  ili9881c_instr.ILI9881C_COMMAND cmd data

/-- The table `ili9881c_init` (the one that is compiled; the second table in
the file is commented out). -/
def ili9881c_init : List ili9881c_instr := [
  ILI9881C_SWITCH_PAGE_INSTR 3, ILI9881C_COMMAND_INSTR 0x01 0x00,
  ILI9881C_COMMAND_INSTR 0x01 0x00, ILI9881C_COMMAND_INSTR 0x02 0x00,
  ILI9881C_COMMAND_INSTR 0x03 0x73, ILI9881C_COMMAND_INSTR 0x04 0x00,
  ILI9881C_COMMAND_INSTR 0x05 0x00, ILI9881C_COMMAND_INSTR 0x06 0x0E,
  ILI9881C_COMMAND_INSTR 0x07 0x00, ILI9881C_COMMAND_INSTR 0x08 0x00,
  ILI9881C_COMMAND_INSTR 0x09 0x01, ILI9881C_COMMAND_INSTR 0x0A 0x01,
  ILI9881C_COMMAND_INSTR 0x0B 0x01, ILI9881C_COMMAND_INSTR 0x0C 0x01,
  ILI9881C_COMMAND_INSTR 0x0D 0x01, ILI9881C_COMMAND_INSTR 0x0E 0x01,
  ILI9881C_COMMAND_INSTR 0x0F 0x00, ILI9881C_COMMAND_INSTR 0x10 0x00,
  ILI9881C_COMMAND_INSTR 0x11 0x00, ILI9881C_COMMAND_INSTR 0x12 0x00,
  ILI9881C_COMMAND_INSTR 0x13 0x00, ILI9881C_COMMAND_INSTR 0x14 0x00,
  ILI9881C_COMMAND_INSTR 0x15 0x00, ILI9881C_COMMAND_INSTR 0x16 0x00,
  ILI9881C_COMMAND_INSTR 0x17 0x00, ILI9881C_COMMAND_INSTR 0x18 0x00,
  ILI9881C_COMMAND_INSTR 0x19 0x00, ILI9881C_COMMAND_INSTR 0x1A 0x00,
  ILI9881C_COMMAND_INSTR 0x1B 0x00, ILI9881C_COMMAND_INSTR 0x1C 0x00,
  ILI9881C_COMMAND_INSTR 0x1D 0x00, ILI9881C_COMMAND_INSTR 0x1E 0x40,
  ILI9881C_COMMAND_INSTR 0x1F 0xC0, ILI9881C_COMMAND_INSTR 0x20 0x0A,
  ILI9881C_COMMAND_INSTR 0x21 0x05, ILI9881C_COMMAND_INSTR 0x22 0x00,
  ILI9881C_COMMAND_INSTR 0x23 0x00, ILI9881C_COMMAND_INSTR 0x24 0x00,
  ILI9881C_COMMAND_INSTR 0x25 0x00, ILI9881C_COMMAND_INSTR 0x26 0x00,
  ILI9881C_COMMAND_INSTR 0x27 0x00, ILI9881C_COMMAND_INSTR 0x28 0x33,
  ILI9881C_COMMAND_INSTR 0x29 0x03, ILI9881C_COMMAND_INSTR 0x2A 0x00,
  ILI9881C_COMMAND_INSTR 0x2B 0x00, ILI9881C_COMMAND_INSTR 0x2C 0x00,
  ILI9881C_COMMAND_INSTR 0x2D 0x00, ILI9881C_COMMAND_INSTR 0x2E 0x00,
  ILI9881C_COMMAND_INSTR 0x2F 0x00, ILI9881C_COMMAND_INSTR 0x30 0x00,
  ILI9881C_COMMAND_INSTR 0x31 0x00, ILI9881C_COMMAND_INSTR 0x32 0x00,
  ILI9881C_COMMAND_INSTR 0x33 0x00, ILI9881C_COMMAND_INSTR 0x34 0x00,
  ILI9881C_COMMAND_INSTR 0x35 0x00, ILI9881C_COMMAND_INSTR 0x36 0x00,
  ILI9881C_COMMAND_INSTR 0x37 0x00, ILI9881C_COMMAND_INSTR 0x38 0x00,
  ILI9881C_COMMAND_INSTR 0x39 0x35, ILI9881C_COMMAND_INSTR 0x3A 0x01,
  ILI9881C_COMMAND_INSTR 0x3B 0x40, ILI9881C_COMMAND_INSTR 0x3C 0x00,
  ILI9881C_COMMAND_INSTR 0x3D 0x01, ILI9881C_COMMAND_INSTR 0x3E 0x00,
  ILI9881C_COMMAND_INSTR 0x3F 0x00, ILI9881C_COMMAND_INSTR 0x40 0x35,
  ILI9881C_COMMAND_INSTR 0x41 0x88, ILI9881C_COMMAND_INSTR 0x42 0x00,
  ILI9881C_COMMAND_INSTR 0x43 0x40, ILI9881C_COMMAND_INSTR 0x44 0x3F,
  ILI9881C_COMMAND_INSTR 0x45 0x20, ILI9881C_COMMAND_INSTR 0x46 0x00,
  ILI9881C_COMMAND_INSTR 0x50 0x01, ILI9881C_COMMAND_INSTR 0x51 0x23,
  ILI9881C_COMMAND_INSTR 0x52 0x45, ILI9881C_COMMAND_INSTR 0x53 0x67,
  ILI9881C_COMMAND_INSTR 0x54 0x89, ILI9881C_COMMAND_INSTR 0x55 0xAB,
  ILI9881C_COMMAND_INSTR 0x56 0x01, ILI9881C_COMMAND_INSTR 0x57 0x23,
  ILI9881C_COMMAND_INSTR 0x58 0x45, ILI9881C_COMMAND_INSTR 0x59 0x67,
  ILI9881C_COMMAND_INSTR 0x5A 0x89, ILI9881C_COMMAND_INSTR 0x5B 0xAB,
  ILI9881C_COMMAND_INSTR 0x5C 0xCD, ILI9881C_COMMAND_INSTR 0x5D 0xEF,
  ILI9881C_COMMAND_INSTR 0x5E 0x11, ILI9881C_COMMAND_INSTR 0x5F 0x0C,
  ILI9881C_COMMAND_INSTR 0x60 0x0D, ILI9881C_COMMAND_INSTR 0x61 0x0E,
  ILI9881C_COMMAND_INSTR 0x62 0x0F, ILI9881C_COMMAND_INSTR 0x63 0x06,
  ILI9881C_COMMAND_INSTR 0x64 0x07, ILI9881C_COMMAND_INSTR 0x65 0x02,
  ILI9881C_COMMAND_INSTR 0x66 0x02, ILI9881C_COMMAND_INSTR 0x67 0x02,
  ILI9881C_COMMAND_INSTR 0x68 0x02, ILI9881C_COMMAND_INSTR 0x69 0x02,
  ILI9881C_COMMAND_INSTR 0x6A 0x02, ILI9881C_COMMAND_INSTR 0x6B 0x02,
  ILI9881C_COMMAND_INSTR 0x6C 0x02, ILI9881C_COMMAND_INSTR 0x6D 0x02,
  ILI9881C_COMMAND_INSTR 0x6E 0x02, ILI9881C_COMMAND_INSTR 0x6F 0x02,
  ILI9881C_COMMAND_INSTR 0x70 0x02, ILI9881C_COMMAND_INSTR 0x71 0x02,
  ILI9881C_COMMAND_INSTR 0x72 0x02, ILI9881C_COMMAND_INSTR 0x73 0x01,
  ILI9881C_COMMAND_INSTR 0x74 0x00, ILI9881C_COMMAND_INSTR 0x75 0x0C,
  ILI9881C_COMMAND_INSTR 0x76 0x0D, ILI9881C_COMMAND_INSTR 0x77 0x0E,
  ILI9881C_COMMAND_INSTR 0x78 0x0F, ILI9881C_COMMAND_INSTR 0x79 0x06,
  ILI9881C_COMMAND_INSTR 0x7A 0x07, ILI9881C_COMMAND_INSTR 0x7B 0x02,
  ILI9881C_COMMAND_INSTR 0x7C 0x02, ILI9881C_COMMAND_INSTR 0x7D 0x02,
  ILI9881C_COMMAND_INSTR 0x7E 0x02, ILI9881C_COMMAND_INSTR 0x7F 0x02,
  ILI9881C_COMMAND_INSTR 0x80 0x02, ILI9881C_COMMAND_INSTR 0x81 0x02,
  ILI9881C_COMMAND_INSTR 0x82 0x02, ILI9881C_COMMAND_INSTR 0x83 0x02,
  ILI9881C_COMMAND_INSTR 0x84 0x02, ILI9881C_COMMAND_INSTR 0x85 0x02,
  ILI9881C_COMMAND_INSTR 0x86 0x02, ILI9881C_COMMAND_INSTR 0x87 0x02,
  ILI9881C_COMMAND_INSTR 0x88 0x02, ILI9881C_COMMAND_INSTR 0x89 0x01,
  ILI9881C_COMMAND_INSTR 0x8A 0x00, ILI9881C_SWITCH_PAGE_INSTR 4,
  ILI9881C_COMMAND_INSTR 0x68 0xDB, ILI9881C_COMMAND_INSTR 0x6D 0x08,
  ILI9881C_COMMAND_INSTR 0x70 0x00, ILI9881C_COMMAND_INSTR 0x71 0x00,
  ILI9881C_COMMAND_INSTR 0x66 0x1E, ILI9881C_COMMAND_INSTR 0x3A 0x24,
  ILI9881C_COMMAND_INSTR 0x82 0x0A, ILI9881C_COMMAND_INSTR 0x84 0x0A,
  ILI9881C_COMMAND_INSTR 0x85 0x1D, ILI9881C_COMMAND_INSTR 0x32 0xAC,
  ILI9881C_COMMAND_INSTR 0x8C 0x80, ILI9881C_COMMAND_INSTR 0x3C 0xF5,
  ILI9881C_COMMAND_INSTR 0x3A 0x24, ILI9881C_COMMAND_INSTR 0xB5 0x02,
  ILI9881C_COMMAND_INSTR 0x31 0x25, ILI9881C_COMMAND_INSTR 0x88 0x33,
  ILI9881C_COMMAND_INSTR 0x38 0x01, ILI9881C_COMMAND_INSTR 0x39 0x00,
  ILI9881C_SWITCH_PAGE_INSTR 1, ILI9881C_COMMAND_INSTR 0x22 0x0A,
  ILI9881C_COMMAND_INSTR 0x31 0x00, ILI9881C_COMMAND_INSTR 0x50 0x5C,
  ILI9881C_COMMAND_INSTR 0x51 0x5C, ILI9881C_COMMAND_INSTR 0x53 0x65,
  ILI9881C_COMMAND_INSTR 0x55 0x68, ILI9881C_COMMAND_INSTR 0x60 0x2B,
  ILI9881C_COMMAND_INSTR 0x61 0x00, ILI9881C_COMMAND_INSTR 0x62 0x19,
  ILI9881C_COMMAND_INSTR 0x63 0x00, ILI9881C_COMMAND_INSTR 0xA0 0x00,
  ILI9881C_COMMAND_INSTR 0xA1 0x09, ILI9881C_COMMAND_INSTR 0xA2 0x11,
  ILI9881C_COMMAND_INSTR 0xA3 0x0E, ILI9881C_COMMAND_INSTR 0xA4 0x16,
  ILI9881C_COMMAND_INSTR 0xA5 0x1F, ILI9881C_COMMAND_INSTR 0xA6 0x14,
  ILI9881C_COMMAND_INSTR 0xA7 0x18, ILI9881C_COMMAND_INSTR 0xA8 0x46,
  ILI9881C_COMMAND_INSTR 0xA9 0x1C, ILI9881C_COMMAND_INSTR 0xAA 0x28,
  ILI9881C_COMMAND_INSTR 0xAB 0x3E, ILI9881C_COMMAND_INSTR 0xAC 0x18,
  ILI9881C_COMMAND_INSTR 0xAD 0x17, ILI9881C_COMMAND_INSTR 0xAE 0x4C,
  ILI9881C_COMMAND_INSTR 0xAF 0x22, ILI9881C_COMMAND_INSTR 0xB0 0x28,
  ILI9881C_COMMAND_INSTR 0xB1 0x43, ILI9881C_COMMAND_INSTR 0xB2 0x64,
  ILI9881C_COMMAND_INSTR 0xB3 0x39, ILI9881C_COMMAND_INSTR 0xC0 0x00,
  ILI9881C_COMMAND_INSTR 0xC1 0x09, ILI9881C_COMMAND_INSTR 0xC2 0x11,
  ILI9881C_COMMAND_INSTR 0xC3 0x0E, ILI9881C_COMMAND_INSTR 0xC4 0x16,
  ILI9881C_COMMAND_INSTR 0xC5 0x1F, ILI9881C_COMMAND_INSTR 0xC6 0x14,
  ILI9881C_COMMAND_INSTR 0xC7 0x18, ILI9881C_COMMAND_INSTR 0xC8 0x46,
  ILI9881C_COMMAND_INSTR 0xC9 0x1C, ILI9881C_COMMAND_INSTR 0xCA 0x28,
  ILI9881C_COMMAND_INSTR 0xCB 0x3E, ILI9881C_COMMAND_INSTR 0xCC 0x18,
  ILI9881C_COMMAND_INSTR 0xCD 0x17, ILI9881C_COMMAND_INSTR 0xCE 0x4C,
  ILI9881C_COMMAND_INSTR 0xCF 0x22, ILI9881C_COMMAND_INSTR 0xD0 0x28,
  ILI9881C_COMMAND_INSTR 0xD1 0x43, ILI9881C_COMMAND_INSTR 0xD2 0x64,
  ILI9881C_COMMAND_INSTR 0xD3 0x39
]

def ili9881c_switch_page (env : Env) (_ctx : ili9881c) (page : Nat) (w : World) :
    Int × World :=
  let buf := [0xff, 0x98, 0x81, page % 256]
  let r := mipi_dsi_dcs_write_buffer env buf w
  if r.1 < 0 then (r.1, r.2) else (0, r.2)

def ili9881c_send_cmd_data (env : Env) (_ctx : ili9881c) (cmd data : Nat) (w : World) :
    Int × World :=
  let buf := [cmd % 256, data % 256]
  let r := mipi_dsi_dcs_write_buffer env buf w
  if r.1 < 0 then (r.1, r.2) else (0, r.2)

/-- The `for` loop of `ili9881c_prepare` over a table: a non-zero result is
the `ret` with which `prepare` returns from inside the loop, `0` means the loop
ran to its end. -/
def ili9881c_prepare_loop (env : Env) (ctx : ili9881c) :
    List ili9881c_instr → World → Int × World
  | [], w => (0, w)
  | instr :: rest, w =>
    let r : Int × World := match instr with
      | .ILI9881C_SWITCH_PAGE page => ili9881c_switch_page env ctx page w
      | .ILI9881C_COMMAND cmd data => ili9881c_send_cmd_data env ctx cmd data w
    if r.1 ≠ 0 then (r.1, r.2) else ili9881c_prepare_loop env ctx rest r.2

/-- The body of `ili9881c_prepare`, with the table it walks as a parameter. -/
def ili9881c_prepare_table (env : Env) (ctx : ili9881c) (table : List ili9881c_instr)
    (w : World) : Int × World :=
  /- Power the panel -/
  let r := regulator_enable env w
  if r.1 ≠ 0 then (r.1, r.2) else
  let w := msleep env 5 r.2
  /- And reset it -/
  let w := gpiod_set_value env 1 w
  let w := msleep env 20 w
  let w := gpiod_set_value env 0 w
  let w := msleep env 20 w
  let r := ili9881c_prepare_loop env ctx table w
  if r.1 ≠ 0 then (r.1, r.2) else
  let r := ili9881c_switch_page env ctx 0 r.2
  if r.1 ≠ 0 then (r.1, r.2) else
  let r := mipi_dsi_dcs_set_tear_on env .MIPI_DSI_DCS_TEAR_MODE_VBLANK r.2
  if r.1 ≠ 0 then (r.1, r.2) else
  let r := mipi_dsi_dcs_exit_sleep_mode env r.2
  if r.1 ≠ 0 then (r.1, r.2) else
  (0, r.2)

def ili9881c_prepare (env : Env) (ctx : ili9881c) (w : World) : Int × World :=
  ili9881c_prepare_table env ctx ili9881c_init w

def ili9881c_enable (env : Env) (ctx : ili9881c) (w : World) : Int × World :=
  let w := msleep env 120 w
  let w := (mipi_dsi_dcs_set_display_on env w).2
  let w := (backlight_enable env ctx.backlight w).2
  (0, w)

def ili9881c_disable (env : Env) (ctx : ili9881c) (w : World) : Int × World :=
  let w := (backlight_disable env ctx.backlight w).2
  mipi_dsi_dcs_set_display_off env w

def ili9881c_unprepare (env : Env) (_ctx : ili9881c) (w : World) : Int × World :=
  let w := (mipi_dsi_dcs_enter_sleep_mode env w).2
  let w := (regulator_disable env w).2
  let w := gpiod_set_value env 1 w
  (0, w)

/-- The kernel errno `ENOMEM`. -/
def ENOMEM : Int := 12

/-- The kernel errno `EPROBE_DEFER`. -/
def EPROBE_DEFER : Int := 517

/-- Outcomes of the look-ups a probe makes, one field per kernel call:
an `Except.error e` stands for the error pointer `ERR_PTR(e)`, a `Bool` tells
whether the call returned a non-NULL pointer. -/
structure ProbeEnv where
  devm_kzalloc : Bool
  devm_regulator_get : Except Int Unit
  devm_gpiod_get : Except Int Unit
  of_parse_phandle : Bool
  of_find_backlight_by_node : Bool
  drm_panel_add : Int
  mipi_dsi_attach : Int

/-- The function `ili9881c_dsi_probe`: the return value, the context it
built (when it got that far) and the collaborators after it.  A regulator
handle fresh from `devm_regulator_get` holds no enable; `devm_gpiod_get` with
`GPIOD_OUT_LOW` makes the reset line an output driven to logical `0`. -/
def ili9881c_dsi_probe (p : ProbeEnv) (w : World) : Int × Option ili9881c × World :=
  if !p.devm_kzalloc then (-ENOMEM, none, w) else
  match p.devm_regulator_get with
  | .error e => (e, none, w)
  | .ok _ =>
    let w := { w with power := 0 }
    match p.devm_gpiod_get with
    | .error e => (e, none, w)
    | .ok _ =>
      let w := { w with reset := 0 }
      if p.of_parse_phandle && !p.of_find_backlight_by_node then (-EPROBE_DEFER, none, w) else
      let ctx : ili9881c := { backlight := p.of_parse_phandle && p.of_find_backlight_by_node }
      if p.drm_panel_add < 0 then (p.drm_panel_add, none, w) else
      (p.mipi_dsi_attach, some ctx, w)
/-! ## panel-ilitek-ili9881d.c -/

/-- The driver context `struct ili9881d`.  The `dsi`, `power` and `reset`
handles name the one channel, supply and reset line of the `World`;
`backlight` is `true` when `ctx->backlight` is a non-NULL handle. -/
structure ili9881d where
  backlight : Bool
  deriving DecidableEq, Repr

/-- The C `struct ili9881d_instr`: the `op` tag with the member of `arg` it
selects.  The `u8` fields are held as naturals. -/
inductive ili9881d_instr where
  | ILI9881D_SWITCH_PAGE (page : Nat)
  | ILI9881D_COMMAND (cmd data : Nat)
  deriving DecidableEq, Repr

/-- The C macro `ILI9881D_SWITCH_PAGE_INSTR`. -/
@[reducible, simp]
def ILI9881D_SWITCH_PAGE_INSTR (page : Nat) : ili9881d_instr :=
  ili9881d_instr.ILI9881D_SWITCH_PAGE page

/-- The C macro `ILI9881D_COMMAND_INSTR`. -/
@[reducible, simp]
def ILI9881D_COMMAND_INSTR (cmd data : Nat) : ili9881d_instr :=
  ili9881d_instr.ILI9881D_COMMAND cmd data

/-- The table `ili9881d_init`; its closing `ILI9881D_SWITCH_PAGE_INSTR(0)` is
commented out in the source. -/
def ili9881d_init : List ili9881d_instr := [
  ILI9881D_SWITCH_PAGE_INSTR 3, ILI9881D_COMMAND_INSTR 0x01 0x00,
  ILI9881D_COMMAND_INSTR 0x02 0x00, ILI9881D_COMMAND_INSTR 0x03 0x53,
  ILI9881D_COMMAND_INSTR 0x04 0x13, ILI9881D_COMMAND_INSTR 0x05 0x13,
  ILI9881D_COMMAND_INSTR 0x06 0x06, ILI9881D_COMMAND_INSTR 0x07 0x00,
  ILI9881D_COMMAND_INSTR 0x08 0x04, ILI9881D_COMMAND_INSTR 0x09 0x00,
  ILI9881D_COMMAND_INSTR 0x0A 0x00, ILI9881D_COMMAND_INSTR 0x0B 0x00,
  ILI9881D_COMMAND_INSTR 0x0C 0x00, ILI9881D_COMMAND_INSTR 0x0D 0x00,
  ILI9881D_COMMAND_INSTR 0x0E 0x00, ILI9881D_COMMAND_INSTR 0x0F 0x00,
  ILI9881D_COMMAND_INSTR 0x10 0x00, ILI9881D_COMMAND_INSTR 0x11 0x00,
  ILI9881D_COMMAND_INSTR 0x12 0x00, ILI9881D_COMMAND_INSTR 0x13 0x00,
  ILI9881D_COMMAND_INSTR 0x14 0x00, ILI9881D_COMMAND_INSTR 0x15 0x00,
  ILI9881D_COMMAND_INSTR 0x16 0x00, ILI9881D_COMMAND_INSTR 0x17 0x00,
  ILI9881D_COMMAND_INSTR 0x18 0x08, ILI9881D_COMMAND_INSTR 0x19 0x00,
  ILI9881D_COMMAND_INSTR 0x1A 0x00, ILI9881D_COMMAND_INSTR 0x1B 0x00,
  ILI9881D_COMMAND_INSTR 0x1C 0x00, ILI9881D_COMMAND_INSTR 0x1D 0x00,
  ILI9881D_COMMAND_INSTR 0x1E 0xC0, ILI9881D_COMMAND_INSTR 0x1F 0x80,
  ILI9881D_COMMAND_INSTR 0x20 0x04, ILI9881D_COMMAND_INSTR 0x21 0x0B,
  ILI9881D_COMMAND_INSTR 0x22 0x00, ILI9881D_COMMAND_INSTR 0x23 0x00,
  ILI9881D_COMMAND_INSTR 0x24 0x00, ILI9881D_COMMAND_INSTR 0x25 0x00,
  ILI9881D_COMMAND_INSTR 0x26 0x00, ILI9881D_COMMAND_INSTR 0x27 0x00,
  ILI9881D_COMMAND_INSTR 0x28 0x55, ILI9881D_COMMAND_INSTR 0x29 0x03,
  ILI9881D_COMMAND_INSTR 0x2A 0x00, ILI9881D_COMMAND_INSTR 0x2B 0x00,
  ILI9881D_COMMAND_INSTR 0x2C 0x00, ILI9881D_COMMAND_INSTR 0x2D 0x00,
  ILI9881D_COMMAND_INSTR 0x2E 0x00, ILI9881D_COMMAND_INSTR 0x2F 0x00,
  ILI9881D_COMMAND_INSTR 0x30 0x00, ILI9881D_COMMAND_INSTR 0x31 0x00,
  ILI9881D_COMMAND_INSTR 0x32 0x00, ILI9881D_COMMAND_INSTR 0x33 0x00,
  ILI9881D_COMMAND_INSTR 0x34 0x04, ILI9881D_COMMAND_INSTR 0x35 0x05,
  ILI9881D_COMMAND_INSTR 0x36 0x05, ILI9881D_COMMAND_INSTR 0x37 0x00,
  ILI9881D_COMMAND_INSTR 0x38 0x3C, ILI9881D_COMMAND_INSTR 0x39 0x50,
  ILI9881D_COMMAND_INSTR 0x3A 0x01, ILI9881D_COMMAND_INSTR 0x3B 0x40,
  ILI9881D_COMMAND_INSTR 0x3C 0x00, ILI9881D_COMMAND_INSTR 0x3D 0x01,
  ILI9881D_COMMAND_INSTR 0x3E 0x00, ILI9881D_COMMAND_INSTR 0x3F 0x00,
  ILI9881D_COMMAND_INSTR 0x40 0x50, ILI9881D_COMMAND_INSTR 0x41 0x88,
  ILI9881D_COMMAND_INSTR 0x42 0x00, ILI9881D_COMMAND_INSTR 0x43 0x00,
  ILI9881D_COMMAND_INSTR 0x44 0x1F, ILI9881D_COMMAND_INSTR 0x50 0x01,
  ILI9881D_COMMAND_INSTR 0x51 0x23, ILI9881D_COMMAND_INSTR 0x52 0x45,
  ILI9881D_COMMAND_INSTR 0x53 0x67, ILI9881D_COMMAND_INSTR 0x54 0x89,
  ILI9881D_COMMAND_INSTR 0x55 0xAB, ILI9881D_COMMAND_INSTR 0x56 0x01,
  ILI9881D_COMMAND_INSTR 0x57 0x23, ILI9881D_COMMAND_INSTR 0x58 0x45,
  ILI9881D_COMMAND_INSTR 0x59 0x67, ILI9881D_COMMAND_INSTR 0x5A 0x89,
  ILI9881D_COMMAND_INSTR 0x5B 0xAB, ILI9881D_COMMAND_INSTR 0x5C 0xCD,
  ILI9881D_COMMAND_INSTR 0x5D 0xEF, ILI9881D_COMMAND_INSTR 0x5E 0x03,
  ILI9881D_COMMAND_INSTR 0x5F 0x14, ILI9881D_COMMAND_INSTR 0x60 0x15,
  ILI9881D_COMMAND_INSTR 0x61 0x0C, ILI9881D_COMMAND_INSTR 0x62 0x0D,
  ILI9881D_COMMAND_INSTR 0x63 0x0E, ILI9881D_COMMAND_INSTR 0x64 0x0F,
  ILI9881D_COMMAND_INSTR 0x65 0x10, ILI9881D_COMMAND_INSTR 0x66 0x11,
  ILI9881D_COMMAND_INSTR 0x67 0x08, ILI9881D_COMMAND_INSTR 0x68 0x02,
  ILI9881D_COMMAND_INSTR 0x69 0x0A, ILI9881D_COMMAND_INSTR 0x6A 0x02,
  ILI9881D_COMMAND_INSTR 0x6B 0x02, ILI9881D_COMMAND_INSTR 0x6C 0x02,
  ILI9881D_COMMAND_INSTR 0x6D 0x02, ILI9881D_COMMAND_INSTR 0x6E 0x02,
  ILI9881D_COMMAND_INSTR 0x6F 0x02, ILI9881D_COMMAND_INSTR 0x70 0x02,
  ILI9881D_COMMAND_INSTR 0x71 0x02, ILI9881D_COMMAND_INSTR 0x72 0x06,
  ILI9881D_COMMAND_INSTR 0x73 0x02, ILI9881D_COMMAND_INSTR 0x74 0x02,
  ILI9881D_COMMAND_INSTR 0x75 0x14, ILI9881D_COMMAND_INSTR 0x76 0x15,
  ILI9881D_COMMAND_INSTR 0x77 0x11, ILI9881D_COMMAND_INSTR 0x78 0x10,
  ILI9881D_COMMAND_INSTR 0x79 0x0F, ILI9881D_COMMAND_INSTR 0x7A 0x0E,
  ILI9881D_COMMAND_INSTR 0x7B 0x0D, ILI9881D_COMMAND_INSTR 0x7C 0x0C,
  ILI9881D_COMMAND_INSTR 0x7D 0x06, ILI9881D_COMMAND_INSTR 0x7E 0x02,
  ILI9881D_COMMAND_INSTR 0x7F 0x0A, ILI9881D_COMMAND_INSTR 0x80 0x02,
  ILI9881D_COMMAND_INSTR 0x81 0x02, ILI9881D_COMMAND_INSTR 0x82 0x02,
  ILI9881D_COMMAND_INSTR 0x83 0x02, ILI9881D_COMMAND_INSTR 0x84 0x02,
  ILI9881D_COMMAND_INSTR 0x85 0x02, ILI9881D_COMMAND_INSTR 0x86 0x02,
  ILI9881D_COMMAND_INSTR 0x87 0x02, ILI9881D_COMMAND_INSTR 0x88 0x08,
  ILI9881D_COMMAND_INSTR 0x89 0x02, ILI9881D_COMMAND_INSTR 0x8A 0x02,
  ILI9881D_SWITCH_PAGE_INSTR 4, ILI9881D_COMMAND_INSTR 0x70 0x00,
  ILI9881D_COMMAND_INSTR 0x71 0x00, ILI9881D_COMMAND_INSTR 0x66 0xFE,
  ILI9881D_COMMAND_INSTR 0x6F 0x05, ILI9881D_COMMAND_INSTR 0x82 0x1F,
  ILI9881D_COMMAND_INSTR 0x84 0x1F, ILI9881D_COMMAND_INSTR 0x85 0x0C,
  ILI9881D_COMMAND_INSTR 0x32 0xAC, ILI9881D_COMMAND_INSTR 0x8C 0x80,
  ILI9881D_COMMAND_INSTR 0x3C 0xF5, ILI9881D_COMMAND_INSTR 0x3A 0x24,
  ILI9881D_COMMAND_INSTR 0xB5 0x02, ILI9881D_COMMAND_INSTR 0x31 0x25,
  ILI9881D_COMMAND_INSTR 0x88 0x33, ILI9881D_SWITCH_PAGE_INSTR 1,
  ILI9881D_COMMAND_INSTR 0x22 0x0A, ILI9881D_COMMAND_INSTR 0x31 0x00,
  ILI9881D_COMMAND_INSTR 0x53 0x6E, ILI9881D_COMMAND_INSTR 0x55 0x78,
  ILI9881D_COMMAND_INSTR 0x50 0x6B, ILI9881D_COMMAND_INSTR 0x51 0x6B,
  ILI9881D_COMMAND_INSTR 0x60 0x20, ILI9881D_COMMAND_INSTR 0x61 0x00,
  ILI9881D_COMMAND_INSTR 0x62 0x0D, ILI9881D_COMMAND_INSTR 0x63 0x00,
  ILI9881D_COMMAND_INSTR 0xA0 0x00, ILI9881D_COMMAND_INSTR 0xA1 0x11,
  ILI9881D_COMMAND_INSTR 0xA2 0x1D, ILI9881D_COMMAND_INSTR 0xA3 0x13,
  ILI9881D_COMMAND_INSTR 0xA4 0x15, ILI9881D_COMMAND_INSTR 0xA5 0x27,
  ILI9881D_COMMAND_INSTR 0xA6 0x1C, ILI9881D_COMMAND_INSTR 0xA7 0x1E,
  ILI9881D_COMMAND_INSTR 0xA8 0x7E, ILI9881D_COMMAND_INSTR 0xA9 0x1E,
  ILI9881D_COMMAND_INSTR 0xAA 0x2A, ILI9881D_COMMAND_INSTR 0xAB 0x72,
  ILI9881D_COMMAND_INSTR 0xAC 0x1A, ILI9881D_COMMAND_INSTR 0xAD 0x1A,
  ILI9881D_COMMAND_INSTR 0xAE 0x4D, ILI9881D_COMMAND_INSTR 0xAF 0x23,
  ILI9881D_COMMAND_INSTR 0xB0 0x29, ILI9881D_COMMAND_INSTR 0xB1 0x4A,
  ILI9881D_COMMAND_INSTR 0xB2 0x59, ILI9881D_COMMAND_INSTR 0xB3 0x3C,
  ILI9881D_COMMAND_INSTR 0xC0 0x00, ILI9881D_COMMAND_INSTR 0xC1 0x10,
  ILI9881D_COMMAND_INSTR 0xC2 0x1D, ILI9881D_COMMAND_INSTR 0xC3 0x12,
  ILI9881D_COMMAND_INSTR 0xC4 0x16, ILI9881D_COMMAND_INSTR 0xC5 0x28,
  ILI9881D_COMMAND_INSTR 0xC6 0x1B, ILI9881D_COMMAND_INSTR 0xC7 0x1D,
  ILI9881D_COMMAND_INSTR 0xC8 0x7C, ILI9881D_COMMAND_INSTR 0xC9 0x1E,
  ILI9881D_COMMAND_INSTR 0xCA 0x29, ILI9881D_COMMAND_INSTR 0xCB 0x71,
  ILI9881D_COMMAND_INSTR 0xCC 0x1A, ILI9881D_COMMAND_INSTR 0xCD 0x19,
  ILI9881D_COMMAND_INSTR 0xCE 0x4E, ILI9881D_COMMAND_INSTR 0xCF 0x22,
  ILI9881D_COMMAND_INSTR 0xD0 0x28, ILI9881D_COMMAND_INSTR 0xD1 0x49,
  ILI9881D_COMMAND_INSTR 0xD2 0x59, ILI9881D_COMMAND_INSTR 0xD3 0x3C
]

def ili9881d_switch_page (env : Env) (_ctx : ili9881d) (page : Nat) (w : World) :
    Int × World :=
  let buf := [0xff, 0x98, 0x81, page % 256]
  let r := mipi_dsi_dcs_write_buffer env buf w
  if r.1 < 0 then (r.1, r.2) else (0, r.2)

def ili9881d_send_cmd_data (env : Env) (_ctx : ili9881d) (cmd data : Nat) (w : World) :
    Int × World :=
  let buf := [cmd % 256, data % 256]
  let r := mipi_dsi_dcs_write_buffer env buf w
  if r.1 < 0 then (r.1, r.2) else (0, r.2)

/-- The `for` loop of `ili9881d_prepare` over a table: a non-zero result is
the `ret` with which `prepare` returns from inside the loop, `0` means the loop
ran to its end. -/
def ili9881d_prepare_loop (env : Env) (ctx : ili9881d) :
    List ili9881d_instr → World → Int × World
  | [], w => (0, w)
  | instr :: rest, w =>
    let r : Int × World := match instr with
      | .ILI9881D_SWITCH_PAGE page => ili9881d_switch_page env ctx page w
      | .ILI9881D_COMMAND cmd data => ili9881d_send_cmd_data env ctx cmd data w
    if r.1 ≠ 0 then (r.1, r.2) else ili9881d_prepare_loop env ctx rest r.2

/-- The body of `ili9881d_prepare`, with the table it walks as a parameter. -/
def ili9881d_prepare_table (env : Env) (ctx : ili9881d) (table : List ili9881d_instr)
    (w : World) : Int × World :=
  /- Power the panel -/
  let r := regulator_enable env w
  if r.1 ≠ 0 then (r.1, r.2) else
  let w := msleep env 5 r.2
  /- And reset it -/
  let w := gpiod_set_value env 1 w
  let w := msleep env 20 w
  let w := gpiod_set_value env 0 w
  let w := msleep env 20 w
  let r := ili9881d_prepare_loop env ctx table w
  if r.1 ≠ 0 then (r.1, r.2) else
  let r := ili9881d_switch_page env ctx 0 r.2
  if r.1 ≠ 0 then (r.1, r.2) else
  let r := mipi_dsi_dcs_set_tear_on env .MIPI_DSI_DCS_TEAR_MODE_VBLANK r.2
  if r.1 ≠ 0 then (r.1, r.2) else
  let r := mipi_dsi_dcs_exit_sleep_mode env r.2
  if r.1 ≠ 0 then (r.1, r.2) else
  (0, r.2)

def ili9881d_prepare (env : Env) (ctx : ili9881d) (w : World) : Int × World :=
  ili9881d_prepare_table env ctx ili9881d_init w

def ili9881d_enable (env : Env) (ctx : ili9881d) (w : World) : Int × World :=
  let w := msleep env 120 w
  let w := (mipi_dsi_dcs_set_display_on env w).2
  let w := (backlight_enable env ctx.backlight w).2
  (0, w)

def ili9881d_disable (env : Env) (ctx : ili9881d) (w : World) : Int × World :=
  let w := (backlight_disable env ctx.backlight w).2
  mipi_dsi_dcs_set_display_off env w

def ili9881d_unprepare (env : Env) (_ctx : ili9881d) (w : World) : Int × World :=
  let w := (mipi_dsi_dcs_enter_sleep_mode env w).2
  let w := (regulator_disable env w).2
  let w := gpiod_set_value env 1 w
  (0, w)

/-- The function `ili9881d_dsi_probe`, line for line the probe of the other
driver. -/
def ili9881d_dsi_probe (p : ProbeEnv) (w : World) : Int × Option ili9881d × World :=
  if !p.devm_kzalloc then (-ENOMEM, none, w) else
  match p.devm_regulator_get with
  | .error e => (e, none, w)
  | .ok _ =>
    let w := { w with power := 0 }
    match p.devm_gpiod_get with
    | .error e => (e, none, w)
    | .ok _ =>
      let w := { w with reset := 0 }
      if p.of_parse_phandle && !p.of_find_backlight_by_node then (-EPROBE_DEFER, none, w) else
      let ctx : ili9881d := { backlight := p.of_parse_phandle && p.of_find_backlight_by_node }
      if p.drm_panel_add < 0 then (p.drm_panel_add, none, w) else
      (p.mipi_dsi_attach, some ctx, w)

/-! ## Vocabulary of the specification -/

/-- The frame the specification gives an instruction of the ili9881c table:
`ff 98 81 page` for `SwitchPage`, `register value` for `WriteRegister`. -/
def ili9881c_frame : ili9881c_instr → List Nat
  | .ILI9881C_SWITCH_PAGE page => [0xff, 0x98, 0x81, page]
  | .ILI9881C_COMMAND cmd data => [cmd, data]

/-- The frame the specification gives an instruction of the ili9881d table. -/
def ili9881d_frame : ili9881d_instr → List Nat
  | .ILI9881D_SWITCH_PAGE page => [0xff, 0x98, 0x81, page]
  | .ILI9881D_COMMAND cmd data => [cmd, data]

/-- The fields of an instruction are bytes, as the `u8` members of
`struct ili9881c_instr` are. -/
def ili9881c_instr.isU8 : ili9881c_instr → Prop
  | .ILI9881C_SWITCH_PAGE page => page < 256
  | .ILI9881C_COMMAND cmd data => cmd < 256 ∧ data < 256

/-- The fields of an instruction are bytes, as the `u8` members of
`struct ili9881d_instr` are. -/
def ili9881d_instr.isU8 : ili9881d_instr → Prop
  | .ILI9881D_SWITCH_PAGE page => page < 256
  | .ILI9881D_COMMAND cmd data => cmd < 256 ∧ data < 256

instance (i : ili9881c_instr) : Decidable i.isU8 := by
  cases i <;> unfold ili9881c_instr.isU8 <;> infer_instance

instance (i : ili9881d_instr) : Decidable i.isU8 := by
  cases i <;> unfold ili9881d_instr.isU8 <;> infer_instance

/-- The channel writes that replay a list of frames. -/
def writes (frames : List (List Nat)) : List Action :=
  frames.map Action.mipi_dsi_dcs_write_buffer

/-- What `prepare` does before it touches the channel: power, settle, reset
pulse. -/
def prepare_preamble : List Action :=
  [.regulator_enable, .msleep 5, .gpiod_set_value 1, .msleep 20, .gpiod_set_value 0, .msleep 20]

/-- What `prepare` does after the table: page 0, tear on, sleep out. -/
def prepare_epilogue : List Action :=
  [.mipi_dsi_dcs_write_buffer [0xff, 0x98, 0x81, 0x00],
   .mipi_dsi_dcs_set_tear_on .MIPI_DSI_DCS_TEAR_MODE_VBLANK,
   .mipi_dsi_dcs_exit_sleep_mode]

/-- An environment in which every call returns `0`. -/
def envOk : Env := fun _ _ => 0

/-- An environment in which the channel call made after `n` earlier channel
calls returns `e` and every other call returns `0`. -/
def envFailAt (n : Nat) (e : Int) : Env := fun h a =>
  if a.isChannel && (h.filter Action.isChannel).length == n then e else 0

/-- The collaborators before anything was done to them. -/
def world0 : World := { trace := [], power := 0, reset := 0, backlight := false }

/-- A probe in which every look-up succeeds and a backlight is found. -/
def probeOk : ProbeEnv :=
  { devm_kzalloc := true, devm_regulator_get := .ok (), devm_gpiod_get := .ok (),
    of_parse_phandle := true, of_find_backlight_by_node := true,
    drm_panel_add := 0, mipi_dsi_attach := 0 }

/-- The world with further calls appended to its trace and nothing else
changed. -/
def World.logged (w : World) (calls : List Action) : World :=
  { w with trace := w.trace ++ calls }

/-- The world in which `prepare` enters its loop when the power supply came
up: the preamble is on the trace, one more enable is held, and the reset line
is deasserted. -/
def World.afterReset (w : World) : World :=
  { trace := w.trace ++ prepare_preamble, power := w.power + 1, reset := 0,
    backlight := w.backlight }

/-- The canonical call order of the orchestrator on the ili9881c driver:
`prepare`, `enable`, `disable`, `unprepare`, each on the world the one before
left; the four return values and the final world. -/
def ili9881c_round_trip (env : Env) (ctx : ili9881c) (w : World) : List Int × World :=
  let r1 := ili9881c_prepare env ctx w
  let r2 := ili9881c_enable env ctx r1.2
  let r3 := ili9881c_disable env ctx r2.2
  let r4 := ili9881c_unprepare env ctx r3.2
  ([r1.1, r2.1, r3.1, r4.1], r4.2)

/-- The canonical call order of the orchestrator on the ili9881d driver. -/
def ili9881d_round_trip (env : Env) (ctx : ili9881d) (w : World) : List Int × World :=
  let r1 := ili9881d_prepare env ctx w
  let r2 := ili9881d_enable env ctx r1.2
  let r3 := ili9881d_disable env ctx r2.2
  let r4 := ili9881d_unprepare env ctx r3.2
  ([r1.1, r2.1, r3.1, r4.1], r4.2)

/-- A table of 50 instructions: the first 50 of `ili9881c_init`. -/
def table50 : List ili9881c_instr := ili9881c_init.take 50

/-! ## Display modes: `get_modes` of both drivers -/

/-- The fields of the kernel's `struct drm_display_mode` that the drivers
set or that `get_modes` touches.  A static mode that does not name `type` or
`name` has them zero and empty. -/
structure drm_display_mode where
  clock : Nat
  vrefresh : Nat
  hdisplay : Nat
  hsync_start : Nat
  hsync_end : Nat
  htotal : Nat
  vdisplay : Nat
  vsync_start : Nat
  vsync_end : Nat
  vtotal : Nat
  type : Nat
  name : String
  deriving DecidableEq, Repr

/-- The part of `struct drm_connector` that `get_modes` writes: the list of
probed modes (oldest first) and the physical size in `display_info`. -/
structure drm_connector where
  probed_modes : List drm_display_mode
  width_mm : Nat
  height_mm : Nat
  deriving DecidableEq, Repr

/-- The kernel flag `DRM_MODE_TYPE_PREFERRED`, `1 << 3`. -/
def DRM_MODE_TYPE_PREFERRED : Nat := 1 <<< 3

/-- The kernel flag `DRM_MODE_TYPE_DRIVER`, `1 << 6`. -/
def DRM_MODE_TYPE_DRIVER : Nat := 1 <<< 6

/-- The kernel call `drm_mode_duplicate`: a copy of the mode, or NULL
(`none`) when the allocation fails (`alloc = false`). -/
def drm_mode_duplicate (alloc : Bool) (mode : drm_display_mode) : Option drm_display_mode :=
  if alloc then some mode else none

/-- The kernel call `drm_mode_set_name`: the name becomes
`<hdisplay>x<vdisplay>` (the modes here are not interlaced). -/
def drm_mode_set_name (mode : drm_display_mode) : drm_display_mode :=
  { mode with name := toString mode.hdisplay ++ "x" ++ toString mode.vdisplay }

/-- The kernel call `drm_mode_probed_add`: the mode goes to the tail of the
connector's probed modes. -/
def drm_mode_probed_add (connector : drm_connector) (mode : drm_display_mode) :
    drm_connector :=
  { connector with probed_modes := connector.probed_modes ++ [mode] }

/-- The mode `bananapi_default_mode` of `panel-ilitek-ili9881c.c` (the one
that is compiled). -/
def ili9881c_bananapi_default_mode : drm_display_mode :=
  { clock := 62469
    vrefresh := 60
    hdisplay := 720
    hsync_start := 720 + 24
    hsync_end := 720 + 24 + 4
    htotal := 720 + 24 + 4 + 36
    vdisplay := 1280
    vsync_start := 1280 + 32
    vsync_end := 1280 + 32 + 4
    vtotal := 1280 + 32 + 4 + 12
    type := 0
    name := "" }

/-- The mode `bananapi_default_mode` of `panel-ilitek-ili9881d.c`. -/
def ili9881d_bananapi_default_mode : drm_display_mode :=
  { clock := 62000
    vrefresh := 60
    hdisplay := 720
    hsync_start := 720 + 10
    hsync_end := 720 + 10 + 20
    htotal := 720 + 10 + 20 + 30
    vdisplay := 1280
    vsync_start := 1280 + 10
    vsync_end := 1280 + 10 + 10
    vtotal := 1280 + 10 + 10 + 20
    type := 0
    name := "" }

/-- The function `ili9881c_get_modes`: the return value, the connector and
the collaborators after it.  `alloc` tells whether `drm_mode_duplicate` gets
its memory.  The function calls none of the collaborators, so the world comes
back as it went in. -/
def ili9881c_get_modes (alloc : Bool) (_ctx : ili9881c) (connector : drm_connector)
    (w : World) : Int × drm_connector × World :=
  match drm_mode_duplicate alloc ili9881c_bananapi_default_mode with
  | none => (-ENOMEM, connector, w)
  | some mode =>
    let mode := drm_mode_set_name mode
    let mode := { mode with type := DRM_MODE_TYPE_DRIVER ||| DRM_MODE_TYPE_PREFERRED }
    let connector := drm_mode_probed_add connector mode
    let connector := { connector with width_mm := 62 }
    let connector := { connector with height_mm := 110 }
    (1, connector, w)

/-- The function `ili9881d_get_modes`. -/
def ili9881d_get_modes (alloc : Bool) (_ctx : ili9881d) (connector : drm_connector)
    (w : World) : Int × drm_connector × World :=
  match drm_mode_duplicate alloc ili9881d_bananapi_default_mode with
  | none => (-ENOMEM, connector, w)
  | some mode =>
    let mode := drm_mode_set_name mode
    let mode := { mode with type := DRM_MODE_TYPE_DRIVER ||| DRM_MODE_TYPE_PREFERRED }
    let connector := drm_mode_probed_add connector mode
    let connector := { connector with width_mm := 62 }
    let connector := { connector with height_mm := 110 }
    (1, connector, w)

/-! ## Further vocabulary of the specification -/

/-- The ili9881d instruction with the same tag and bytes as an ili9881c
instruction. -/
def ili9881c_instr.toD : ili9881c_instr → ili9881d_instr
  | .ILI9881C_SWITCH_PAGE page => .ILI9881D_SWITCH_PAGE page
  | .ILI9881C_COMMAND cmd data => .ILI9881D_COMMAND cmd data

/-- The ili9881d context with the same handles as an ili9881c context. -/
def ili9881c.toD (ctx : ili9881c) : ili9881d := { backlight := ctx.backlight }

/-- The validation contract the specification states for a table
(`validate`): the table is non-empty and its first instruction is a
`SwitchPage`.  The drivers contain no such check; this is the property the
shipped tables are measured against. -/
def ili9881c_validate : List ili9881c_instr → Bool
  | .ILI9881C_SWITCH_PAGE _ :: _ => true
  | _ => false

/-- The validation contract of the specification, for an ili9881d table. -/
def ili9881d_validate : List ili9881d_instr → Bool
  | .ILI9881D_SWITCH_PAGE _ :: _ => true
  | _ => false

/-- The instruction is a page switch. -/
def ili9881c_instr.isSwitchPage : ili9881c_instr → Bool
  | .ILI9881C_SWITCH_PAGE _ => true
  | .ILI9881C_COMMAND _ _ => false

/-- The instruction is a page switch. -/
def ili9881d_instr.isSwitchPage : ili9881d_instr → Bool
  | .ILI9881D_SWITCH_PAGE _ => true
  | .ILI9881D_COMMAND _ _ => false

/-- A probe in which every look-up succeeds and the device tree names no
backlight. -/
def probeNoBacklight : ProbeEnv :=
  { devm_kzalloc := true, devm_regulator_get := .ok (), devm_gpiod_get := .ok (),
    of_parse_phandle := false, of_find_backlight_by_node := false,
    drm_panel_add := 0, mipi_dsi_attach := 0 }

/-- A connector with no probed mode and no size yet. -/
def connector0 : drm_connector := { probed_modes := [], width_mm := 0, height_mm := 0 }

/-- The channel calls made between two worlds of one run, in order: what was
appended to the trace, restricted to the calls that write on the channel. -/
def channelCalls (before after : World) : List Action :=
  (after.trace.drop before.trace.length).filter Action.isChannel

/-- The page-select frame for a page. -/
def pageFrame (page : Nat) : Action := .mipi_dsi_dcs_write_buffer [0xff, 0x98, 0x81, page]

/-- The quotient `n / d` rounded to the nearest integer (halves upwards), in
exact integer arithmetic. -/
def divRoundNearest (n d : Nat) : Nat := (2 * n + d) / (2 * d)

/-- The refresh rate of a mode in Hz as its timings give it: the pixel clock
(`clock` is in kHz) over the pixels of a whole frame, to the nearest integer. -/
def drm_display_mode.refreshFromTimings (m : drm_display_mode) : Nat :=
  divRoundNearest (m.clock * 1000) (m.htotal * m.vtotal)

/-- A call result counts as a failure: the negation of `succeeded`, as a
test.  A buffer write fails when its result is negative, every other call
when its result is not `0`. -/
def failedCall (a : Action) (r : Int) : Bool :=
  match a with
  | .mipi_dsi_dcs_write_buffer _ => decide (r < 0)
  | _ => decide (r ≠ 0)

/-- The reference run of a list of bus writes, against which `prepare` is
measured: the writes are made in order, the first one that fails ends the run
with its result, and a run to the end gives `0`.  A bus write changes nothing
of the world but the trace. -/
def runCalls (env : Env) : List Action → World → Int × World
  | [], w => (0, w)
  | a :: rest, w =>
    if failedCall a (env w.trace a) then (env w.trace a, w.logged [a])
    else runCalls env rest (w.logged [a])

/-! ## Basic facts about calls -/

@[simp] theorem call_fst (env : Env) (a : Action) (w : World) :
    (call env a w).1 = env w.trace a := rfl

@[simp] theorem call_trace (env : Env) (a : Action) (w : World) :
    (call env a w).2.trace = w.trace ++ [a] := rfl

theorem write_buffer_eq (env : Env) (buf : List Nat) (w : World) :
    mipi_dsi_dcs_write_buffer env buf w =
      (env w.trace (.mipi_dsi_dcs_write_buffer buf),
       { w with trace := w.trace ++ [.mipi_dsi_dcs_write_buffer buf] }) := rfl

theorem ili9881c_switch_page_eq (env : Env) (ctx : ili9881c) (page : Nat) (w : World) :
    ili9881c_switch_page env ctx page w =
      (if env w.trace (.mipi_dsi_dcs_write_buffer [0xff, 0x98, 0x81, page % 256]) < 0
        then env w.trace (.mipi_dsi_dcs_write_buffer [0xff, 0x98, 0x81, page % 256]) else 0,
       { w with trace := w.trace ++ [.mipi_dsi_dcs_write_buffer [0xff, 0x98, 0x81, page % 256]] }) := by
  unfold ili9881c_switch_page
  simp only [write_buffer_eq]
  split <;> rfl

theorem ili9881c_send_cmd_data_eq (env : Env) (ctx : ili9881c) (cmd data : Nat) (w : World) :
    ili9881c_send_cmd_data env ctx cmd data w =
      (if env w.trace (.mipi_dsi_dcs_write_buffer [cmd % 256, data % 256]) < 0
        then env w.trace (.mipi_dsi_dcs_write_buffer [cmd % 256, data % 256]) else 0,
       { w with trace := w.trace ++ [.mipi_dsi_dcs_write_buffer [cmd % 256, data % 256]] }) := by
  unfold ili9881c_send_cmd_data
  simp only [write_buffer_eq]
  split <;> rfl

theorem ili9881d_switch_page_eq (env : Env) (ctx : ili9881d) (page : Nat) (w : World) :
    ili9881d_switch_page env ctx page w =
      (if env w.trace (.mipi_dsi_dcs_write_buffer [0xff, 0x98, 0x81, page % 256]) < 0
        then env w.trace (.mipi_dsi_dcs_write_buffer [0xff, 0x98, 0x81, page % 256]) else 0,
       { w with trace := w.trace ++ [.mipi_dsi_dcs_write_buffer [0xff, 0x98, 0x81, page % 256]] }) := by
  unfold ili9881d_switch_page
  simp only [write_buffer_eq]
  split <;> rfl

theorem ili9881d_send_cmd_data_eq (env : Env) (ctx : ili9881d) (cmd data : Nat) (w : World) :
    ili9881d_send_cmd_data env ctx cmd data w =
      (if env w.trace (.mipi_dsi_dcs_write_buffer [cmd % 256, data % 256]) < 0
        then env w.trace (.mipi_dsi_dcs_write_buffer [cmd % 256, data % 256]) else 0,
       { w with trace := w.trace ++ [.mipi_dsi_dcs_write_buffer [cmd % 256, data % 256]] }) := by
  unfold ili9881d_send_cmd_data
  simp only [write_buffer_eq]
  split <;> rfl

/-! ## The protocol encoder -/

/-- C1: for every page in 0..255 and in both drivers, `switch_page` extends
the trace by exactly one channel write, whose payload is the four bytes
`ff 98 81 page` in that order. -/
theorem switch_page_emits_unlock_frame (env : Env) (w : World) (page : Nat)
    (hpage : page < 256) :
    (∀ ctx : ili9881c, (ili9881c_switch_page env ctx page w).2.trace =
        w.trace ++ [Action.mipi_dsi_dcs_write_buffer [0xFF, 0x98, 0x81, page]]) ∧
    (∀ ctx : ili9881d, (ili9881d_switch_page env ctx page w).2.trace =
        w.trace ++ [Action.mipi_dsi_dcs_write_buffer [0xFF, 0x98, 0x81, page]]) := by
  have h : page % 256 = page := Nat.mod_eq_of_lt hpage
  constructor
  · intro ctx; rw [ili9881c_switch_page_eq, h]
  · intro ctx; rw [ili9881d_switch_page_eq, h]

/-- Witness of C1: page 4 after one earlier call, on a channel that fails. -/
theorem switch_page_emits_unlock_frame_witness :
    (4 < 256) ∧
    (ili9881c_switch_page (envFailAt 0 (-5)) ⟨true⟩ 4
        { world0 with trace := [Action.msleep 20] }).2.trace =
      [Action.msleep 20, Action.mipi_dsi_dcs_write_buffer [0xFF, 0x98, 0x81, 4]] :=
  ⟨by decide,
   (switch_page_emits_unlock_frame (envFailAt 0 (-5))
      { world0 with trace := [Action.msleep 20] } 4 (by decide)).1 ⟨true⟩⟩

/-- C2: for every register byte and value byte and in both drivers,
`send_cmd_data` extends the trace by exactly one channel write, whose payload
is the two bytes `register value`; that write is not a page-select frame. -/
theorem send_cmd_data_emits_register_frame (env : Env) (w : World) (cmd data : Nat)
    (hcmd : cmd < 256) (hdata : data < 256) :
    (∀ ctx : ili9881c, (ili9881c_send_cmd_data env ctx cmd data w).2.trace =
        w.trace ++ [Action.mipi_dsi_dcs_write_buffer [cmd, data]]) ∧
    (∀ ctx : ili9881d, (ili9881d_send_cmd_data env ctx cmd data w).2.trace =
        w.trace ++ [Action.mipi_dsi_dcs_write_buffer [cmd, data]]) ∧
    (Action.mipi_dsi_dcs_write_buffer [cmd, data]).isPageSelect = false := by
  have h1 : cmd % 256 = cmd := Nat.mod_eq_of_lt hcmd
  have h2 : data % 256 = data := Nat.mod_eq_of_lt hdata
  refine ⟨?_, ?_, rfl⟩
  · intro ctx; rw [ili9881c_send_cmd_data_eq, h1, h2]
  · intro ctx; rw [ili9881d_send_cmd_data_eq, h1, h2]

/-- Witness of C2: register `ff`, value `98`, the bytes a page-select frame
starts with, still give a two-byte frame. -/
theorem send_cmd_data_emits_register_frame_witness :
    (ili9881d_send_cmd_data envOk ⟨false⟩ 0xFF 0x98 world0).2.trace =
      [Action.mipi_dsi_dcs_write_buffer [0xFF, 0x98]] :=
  (send_cmd_data_emits_register_frame envOk world0 0xFF 0x98 (by decide) (by decide)).2.1 ⟨false⟩

/-! ## The table loop of `ili9881c_prepare` -/

theorem ili9881c_loop_cons (env : Env) (ctx : ili9881c) (instr : ili9881c_instr)
    (rest : List ili9881c_instr) (w : World) (hu : instr.isU8) :
    ili9881c_prepare_loop env ctx (instr :: rest) w =
      if env w.trace (.mipi_dsi_dcs_write_buffer (ili9881c_frame instr)) < 0
      then (env w.trace (.mipi_dsi_dcs_write_buffer (ili9881c_frame instr)),
            w.logged [.mipi_dsi_dcs_write_buffer (ili9881c_frame instr)])
      else ili9881c_prepare_loop env ctx rest
            (w.logged [.mipi_dsi_dcs_write_buffer (ili9881c_frame instr)]) := by
  cases instr with
  | ILI9881C_SWITCH_PAGE page =>
    have hp : page % 256 = page := Nat.mod_eq_of_lt hu
    simp only [ili9881c_prepare_loop, ili9881c_switch_page_eq, hp, ili9881c_frame, World.logged]
    split
    · rename_i h
      simp [h, Int.ne_of_lt h]
    · simp
  | ILI9881C_COMMAND cmd data =>
    have hc : cmd % 256 = cmd := Nat.mod_eq_of_lt hu.1
    have hd : data % 256 = data := Nat.mod_eq_of_lt hu.2
    simp only [ili9881c_prepare_loop, ili9881c_send_cmd_data_eq, hc, hd, ili9881c_frame,
      World.logged]
    split
    · rename_i h
      simp [h, Int.ne_of_lt h]
    · simp

theorem ili9881c_loop_append (env : Env) (ctx : ili9881c) (xs ys : List ili9881c_instr)
    (w : World) :
    ili9881c_prepare_loop env ctx (xs ++ ys) w =
      if (ili9881c_prepare_loop env ctx xs w).1 ≠ 0 then ili9881c_prepare_loop env ctx xs w
      else ili9881c_prepare_loop env ctx ys (ili9881c_prepare_loop env ctx xs w).2 := by
  induction xs generalizing w with
  | nil => simp [ili9881c_prepare_loop]
  | cons x xs ih =>
    simp only [List.cons_append, ili9881c_prepare_loop]
    split
    · rfl
    · exact ih _

/-- The loop over a table whose writes are all accepted runs to its end and
leaves one frame per instruction, in table order. -/
theorem ili9881c_loop_accepts (env : Env) (ctx : ili9881c) (tbl : List ili9881c_instr)
    (w : World) (hu : ∀ i ∈ tbl, i.isU8)
    (hacc : ∀ pre a post, tbl = pre ++ a :: post →
      0 ≤ env (w.trace ++ writes (pre.map ili9881c_frame))
        (.mipi_dsi_dcs_write_buffer (ili9881c_frame a))) :
    ili9881c_prepare_loop env ctx tbl w = (0, w.logged (writes (tbl.map ili9881c_frame))) := by
  induction tbl generalizing w with
  | nil => simp [ili9881c_prepare_loop, World.logged, writes]
  | cons x xs ih =>
    have hx : x.isU8 := hu x (List.mem_cons_self _ _)
    have h0 : 0 ≤ env w.trace (.mipi_dsi_dcs_write_buffer (ili9881c_frame x)) := by
      have := hacc [] x xs rfl
      simpa [writes] using this
    rw [ili9881c_loop_cons env ctx x xs w hx, if_neg (not_lt.mpr h0)]
    rw [ih _ (fun i hi => hu i (List.mem_cons_of_mem _ hi))]
    · simp [World.logged, writes]
    · intro pre a post hsplit
      have := hacc (x :: pre) a post (by rw [hsplit]; rfl)
      simpa [World.logged, writes] using this

/-- The loop over a table whose first writes are accepted and whose next
write fails with `e` stops there with `e`: the accepted frames and the failed
one are on the trace, nothing of the rest is. -/
theorem ili9881c_loop_fails (env : Env) (ctx : ili9881c)
    (done : List ili9881c_instr) (bad : ili9881c_instr) (rest : List ili9881c_instr)
    (w : World) (e : Int) (hu : ∀ i ∈ done ++ [bad], i.isU8)
    (hacc : ∀ pre a post, done = pre ++ a :: post →
      0 ≤ env (w.trace ++ writes (pre.map ili9881c_frame))
        (.mipi_dsi_dcs_write_buffer (ili9881c_frame a)))
    (hbad : env (w.trace ++ writes (done.map ili9881c_frame))
        (.mipi_dsi_dcs_write_buffer (ili9881c_frame bad)) = e)
    (he : e < 0) :
    ili9881c_prepare_loop env ctx (done ++ bad :: rest) w =
      (e, w.logged (writes ((done ++ [bad]).map ili9881c_frame))) := by
  have hdone := ili9881c_loop_accepts env ctx done w
    (fun i hi => hu i (List.mem_append_left _ hi)) hacc
  have hb : bad.isU8 := hu bad (by simp)
  rw [ili9881c_loop_append, hdone]
  simp only [ne_eq, not_true_eq_false, if_false]
  rw [ili9881c_loop_cons env ctx bad rest _ hb]
  have htr : (w.logged (writes (done.map ili9881c_frame))).trace =
      w.trace ++ writes (done.map ili9881c_frame) := rfl
  rw [htr, hbad, if_pos he]
  simp [World.logged, writes]

/-- The function `ili9881c_prepare_table` once the power supply came up: the
loop runs in the world after the reset pulse, and the epilogue follows it. -/
theorem ili9881c_prepare_table_powered (env : Env) (ctx : ili9881c)
    (tbl : List ili9881c_instr) (w : World) (hp : env w.trace .regulator_enable = 0) :
    ili9881c_prepare_table env ctx tbl w =
      if (ili9881c_prepare_loop env ctx tbl w.afterReset).1 ≠ 0
      then ili9881c_prepare_loop env ctx tbl w.afterReset
      else
        if (ili9881c_switch_page env ctx 0
              (ili9881c_prepare_loop env ctx tbl w.afterReset).2).1 ≠ 0
        then ili9881c_switch_page env ctx 0 (ili9881c_prepare_loop env ctx tbl w.afterReset).2
        else
          if (mipi_dsi_dcs_set_tear_on env .MIPI_DSI_DCS_TEAR_MODE_VBLANK
                (ili9881c_switch_page env ctx 0
                  (ili9881c_prepare_loop env ctx tbl w.afterReset).2).2).1 ≠ 0
          then mipi_dsi_dcs_set_tear_on env .MIPI_DSI_DCS_TEAR_MODE_VBLANK
                (ili9881c_switch_page env ctx 0
                  (ili9881c_prepare_loop env ctx tbl w.afterReset).2).2
          else
            if (mipi_dsi_dcs_exit_sleep_mode env
                  (mipi_dsi_dcs_set_tear_on env .MIPI_DSI_DCS_TEAR_MODE_VBLANK
                    (ili9881c_switch_page env ctx 0
                      (ili9881c_prepare_loop env ctx tbl w.afterReset).2).2).2).1 ≠ 0
            then mipi_dsi_dcs_exit_sleep_mode env
                  (mipi_dsi_dcs_set_tear_on env .MIPI_DSI_DCS_TEAR_MODE_VBLANK
                    (ili9881c_switch_page env ctx 0
                      (ili9881c_prepare_loop env ctx tbl w.afterReset).2).2).2
            else (0, (mipi_dsi_dcs_exit_sleep_mode env
                  (mipi_dsi_dcs_set_tear_on env .MIPI_DSI_DCS_TEAR_MODE_VBLANK
                    (ili9881c_switch_page env ctx 0
                      (ili9881c_prepare_loop env ctx tbl w.afterReset).2).2).2).2) := by
  have hw : msleep env 20 (gpiod_set_value env 0 (msleep env 20 (gpiod_set_value env 1
      (msleep env 5 (regulator_enable env w).2)))) = w.afterReset := by
    simp [msleep, gpiod_set_value, regulator_enable, call, World.effect, hp, World.afterReset,
      prepare_preamble]
  have hr : (regulator_enable env w).1 = 0 := hp
  unfold ili9881c_prepare_table
  simp only [hr, ne_eq, not_true_eq_false, if_false, hw]

/-- A fully successful `ili9881c_prepare_table`: result and final world. -/
theorem ili9881c_prepare_table_ok (env : Env) (ctx : ili9881c) (tbl : List ili9881c_instr)
    (w : World) (hu : ∀ i ∈ tbl, i.isU8) (hok : AllSucceed env) :
    ili9881c_prepare_table env ctx tbl w =
      (0, w.afterReset.logged (writes (tbl.map ili9881c_frame) ++ prepare_epilogue)) := by
  have hp : env w.trace .regulator_enable = 0 := hok _ .regulator_enable
  have hloop := ili9881c_loop_accepts env ctx tbl w.afterReset hu
    (fun _ a _ _ => hok _ (.mipi_dsi_dcs_write_buffer (ili9881c_frame a)))
  have hsw : ∀ v : World, ili9881c_switch_page env ctx 0 v =
      (0, v.logged [.mipi_dsi_dcs_write_buffer [0xff, 0x98, 0x81, 0x00]]) := by
    intro v
    have h0 : 0 ≤ env v.trace (.mipi_dsi_dcs_write_buffer [0xff, 0x98, 0x81, 0 % 256]) :=
      hok _ (.mipi_dsi_dcs_write_buffer _)
    rw [ili9881c_switch_page_eq, if_neg (not_lt.mpr h0)]
    rfl
  have hte : ∀ v : World, mipi_dsi_dcs_set_tear_on env .MIPI_DSI_DCS_TEAR_MODE_VBLANK v =
      (0, v.logged [.mipi_dsi_dcs_set_tear_on .MIPI_DSI_DCS_TEAR_MODE_VBLANK]) := by
    intro v
    have h0 : env v.trace (.mipi_dsi_dcs_set_tear_on .MIPI_DSI_DCS_TEAR_MODE_VBLANK) = 0 :=
      hok _ (.mipi_dsi_dcs_set_tear_on _)
    simp [mipi_dsi_dcs_set_tear_on, call, World.effect, h0, World.logged]
  have hex : ∀ v : World, mipi_dsi_dcs_exit_sleep_mode env v =
      (0, v.logged [.mipi_dsi_dcs_exit_sleep_mode]) := by
    intro v
    have h0 : env v.trace .mipi_dsi_dcs_exit_sleep_mode = 0 :=
      hok _ .mipi_dsi_dcs_exit_sleep_mode
    simp [mipi_dsi_dcs_exit_sleep_mode, call, World.effect, h0, World.logged]
  rw [ili9881c_prepare_table_powered env ctx tbl w hp, hloop]
  simp [hsw, hte, hex, World.logged, prepare_epilogue]

/-! ## The table loop of `ili9881d_prepare` -/

theorem ili9881d_loop_cons (env : Env) (ctx : ili9881d) (instr : ili9881d_instr)
    (rest : List ili9881d_instr) (w : World) (hu : instr.isU8) :
    ili9881d_prepare_loop env ctx (instr :: rest) w =
      if env w.trace (.mipi_dsi_dcs_write_buffer (ili9881d_frame instr)) < 0
      then (env w.trace (.mipi_dsi_dcs_write_buffer (ili9881d_frame instr)),
            w.logged [.mipi_dsi_dcs_write_buffer (ili9881d_frame instr)])
      else ili9881d_prepare_loop env ctx rest
            (w.logged [.mipi_dsi_dcs_write_buffer (ili9881d_frame instr)]) := by
  cases instr with
  | ILI9881D_SWITCH_PAGE page =>
    have hp : page % 256 = page := Nat.mod_eq_of_lt hu
    simp only [ili9881d_prepare_loop, ili9881d_switch_page_eq, hp, ili9881d_frame, World.logged]
    split
    · rename_i h
      simp [h, Int.ne_of_lt h]
    · simp
  | ILI9881D_COMMAND cmd data =>
    have hc : cmd % 256 = cmd := Nat.mod_eq_of_lt hu.1
    have hd : data % 256 = data := Nat.mod_eq_of_lt hu.2
    simp only [ili9881d_prepare_loop, ili9881d_send_cmd_data_eq, hc, hd, ili9881d_frame,
      World.logged]
    split
    · rename_i h
      simp [h, Int.ne_of_lt h]
    · simp

theorem ili9881d_loop_append (env : Env) (ctx : ili9881d) (xs ys : List ili9881d_instr)
    (w : World) :
    ili9881d_prepare_loop env ctx (xs ++ ys) w =
      if (ili9881d_prepare_loop env ctx xs w).1 ≠ 0 then ili9881d_prepare_loop env ctx xs w
      else ili9881d_prepare_loop env ctx ys (ili9881d_prepare_loop env ctx xs w).2 := by
  induction xs generalizing w with
  | nil => simp [ili9881d_prepare_loop]
  | cons x xs ih =>
    simp only [List.cons_append, ili9881d_prepare_loop]
    split
    · rfl
    · exact ih _

/-- The loop over a table whose writes are all accepted runs to its end and
leaves one frame per instruction, in table order. -/
theorem ili9881d_loop_accepts (env : Env) (ctx : ili9881d) (tbl : List ili9881d_instr)
    (w : World) (hu : ∀ i ∈ tbl, i.isU8)
    (hacc : ∀ pre a post, tbl = pre ++ a :: post →
      0 ≤ env (w.trace ++ writes (pre.map ili9881d_frame))
        (.mipi_dsi_dcs_write_buffer (ili9881d_frame a))) :
    ili9881d_prepare_loop env ctx tbl w = (0, w.logged (writes (tbl.map ili9881d_frame))) := by
  induction tbl generalizing w with
  | nil => simp [ili9881d_prepare_loop, World.logged, writes]
  | cons x xs ih =>
    have hx : x.isU8 := hu x (List.mem_cons_self _ _)
    have h0 : 0 ≤ env w.trace (.mipi_dsi_dcs_write_buffer (ili9881d_frame x)) := by
      have := hacc [] x xs rfl
      simpa [writes] using this
    rw [ili9881d_loop_cons env ctx x xs w hx, if_neg (not_lt.mpr h0)]
    rw [ih _ (fun i hi => hu i (List.mem_cons_of_mem _ hi))]
    · simp [World.logged, writes]
    · intro pre a post hsplit
      have := hacc (x :: pre) a post (by rw [hsplit]; rfl)
      simpa [World.logged, writes] using this

/-- The loop over a table whose first writes are accepted and whose next
write fails with `e` stops there with `e`: the accepted frames and the failed
one are on the trace, nothing of the rest is. -/
theorem ili9881d_loop_fails (env : Env) (ctx : ili9881d)
    (done : List ili9881d_instr) (bad : ili9881d_instr) (rest : List ili9881d_instr)
    (w : World) (e : Int) (hu : ∀ i ∈ done ++ [bad], i.isU8)
    (hacc : ∀ pre a post, done = pre ++ a :: post →
      0 ≤ env (w.trace ++ writes (pre.map ili9881d_frame))
        (.mipi_dsi_dcs_write_buffer (ili9881d_frame a)))
    (hbad : env (w.trace ++ writes (done.map ili9881d_frame))
        (.mipi_dsi_dcs_write_buffer (ili9881d_frame bad)) = e)
    (he : e < 0) :
    ili9881d_prepare_loop env ctx (done ++ bad :: rest) w =
      (e, w.logged (writes ((done ++ [bad]).map ili9881d_frame))) := by
  have hdone := ili9881d_loop_accepts env ctx done w
    (fun i hi => hu i (List.mem_append_left _ hi)) hacc
  have hb : bad.isU8 := hu bad (by simp)
  rw [ili9881d_loop_append, hdone]
  simp only [ne_eq, not_true_eq_false, if_false]
  rw [ili9881d_loop_cons env ctx bad rest _ hb]
  have htr : (w.logged (writes (done.map ili9881d_frame))).trace =
      w.trace ++ writes (done.map ili9881d_frame) := rfl
  rw [htr, hbad, if_pos he]
  simp [World.logged, writes]

/-- The function `ili9881d_prepare_table` once the power supply came up: the
loop runs in the world after the reset pulse, and the epilogue follows it. -/
theorem ili9881d_prepare_table_powered (env : Env) (ctx : ili9881d)
    (tbl : List ili9881d_instr) (w : World) (hp : env w.trace .regulator_enable = 0) :
    ili9881d_prepare_table env ctx tbl w =
      if (ili9881d_prepare_loop env ctx tbl w.afterReset).1 ≠ 0
      then ili9881d_prepare_loop env ctx tbl w.afterReset
      else
        if (ili9881d_switch_page env ctx 0
              (ili9881d_prepare_loop env ctx tbl w.afterReset).2).1 ≠ 0
        then ili9881d_switch_page env ctx 0 (ili9881d_prepare_loop env ctx tbl w.afterReset).2
        else
          if (mipi_dsi_dcs_set_tear_on env .MIPI_DSI_DCS_TEAR_MODE_VBLANK
                (ili9881d_switch_page env ctx 0
                  (ili9881d_prepare_loop env ctx tbl w.afterReset).2).2).1 ≠ 0
          then mipi_dsi_dcs_set_tear_on env .MIPI_DSI_DCS_TEAR_MODE_VBLANK
                (ili9881d_switch_page env ctx 0
                  (ili9881d_prepare_loop env ctx tbl w.afterReset).2).2
          else
            if (mipi_dsi_dcs_exit_sleep_mode env
                  (mipi_dsi_dcs_set_tear_on env .MIPI_DSI_DCS_TEAR_MODE_VBLANK
                    (ili9881d_switch_page env ctx 0
                      (ili9881d_prepare_loop env ctx tbl w.afterReset).2).2).2).1 ≠ 0
            then mipi_dsi_dcs_exit_sleep_mode env
                  (mipi_dsi_dcs_set_tear_on env .MIPI_DSI_DCS_TEAR_MODE_VBLANK
                    (ili9881d_switch_page env ctx 0
                      (ili9881d_prepare_loop env ctx tbl w.afterReset).2).2).2
            else (0, (mipi_dsi_dcs_exit_sleep_mode env
                  (mipi_dsi_dcs_set_tear_on env .MIPI_DSI_DCS_TEAR_MODE_VBLANK
                    (ili9881d_switch_page env ctx 0
                      (ili9881d_prepare_loop env ctx tbl w.afterReset).2).2).2).2) := by
  have hw : msleep env 20 (gpiod_set_value env 0 (msleep env 20 (gpiod_set_value env 1
      (msleep env 5 (regulator_enable env w).2)))) = w.afterReset := by
    simp [msleep, gpiod_set_value, regulator_enable, call, World.effect, hp, World.afterReset,
      prepare_preamble]
  have hr : (regulator_enable env w).1 = 0 := hp
  unfold ili9881d_prepare_table
  simp only [hr, ne_eq, not_true_eq_false, if_false, hw]

/-- A fully successful `ili9881d_prepare_table`: result and final world. -/
theorem ili9881d_prepare_table_ok (env : Env) (ctx : ili9881d) (tbl : List ili9881d_instr)
    (w : World) (hu : ∀ i ∈ tbl, i.isU8) (hok : AllSucceed env) :
    ili9881d_prepare_table env ctx tbl w =
      (0, w.afterReset.logged (writes (tbl.map ili9881d_frame) ++ prepare_epilogue)) := by
  have hp : env w.trace .regulator_enable = 0 := hok _ .regulator_enable
  have hloop := ili9881d_loop_accepts env ctx tbl w.afterReset hu
    (fun _ a _ _ => hok _ (.mipi_dsi_dcs_write_buffer (ili9881d_frame a)))
  have hsw : ∀ v : World, ili9881d_switch_page env ctx 0 v =
      (0, v.logged [.mipi_dsi_dcs_write_buffer [0xff, 0x98, 0x81, 0x00]]) := by
    intro v
    have h0 : 0 ≤ env v.trace (.mipi_dsi_dcs_write_buffer [0xff, 0x98, 0x81, 0 % 256]) :=
      hok _ (.mipi_dsi_dcs_write_buffer _)
    rw [ili9881d_switch_page_eq, if_neg (not_lt.mpr h0)]
    rfl
  have hte : ∀ v : World, mipi_dsi_dcs_set_tear_on env .MIPI_DSI_DCS_TEAR_MODE_VBLANK v =
      (0, v.logged [.mipi_dsi_dcs_set_tear_on .MIPI_DSI_DCS_TEAR_MODE_VBLANK]) := by
    intro v
    have h0 : env v.trace (.mipi_dsi_dcs_set_tear_on .MIPI_DSI_DCS_TEAR_MODE_VBLANK) = 0 :=
      hok _ (.mipi_dsi_dcs_set_tear_on _)
    simp [mipi_dsi_dcs_set_tear_on, call, World.effect, h0, World.logged]
  have hex : ∀ v : World, mipi_dsi_dcs_exit_sleep_mode env v =
      (0, v.logged [.mipi_dsi_dcs_exit_sleep_mode]) := by
    intro v
    have h0 : env v.trace .mipi_dsi_dcs_exit_sleep_mode = 0 :=
      hok _ .mipi_dsi_dcs_exit_sleep_mode
    simp [mipi_dsi_dcs_exit_sleep_mode, call, World.effect, h0, World.logged]
  rw [ili9881d_prepare_table_powered env ctx tbl w hp, hloop]
  simp [hsw, hte, hex, World.logged, prepare_epilogue]

/-! ## The shipped tables hold bytes -/

theorem ili9881c_init_isU8 : ∀ i ∈ ili9881c_init, i.isU8 := by decide

theorem ili9881d_init_isU8 : ∀ i ∈ ili9881d_init, i.isU8 := by decide

theorem getElem?_trace_writes (tr : List Action) (fs : List (List Nat)) (i : Nat) :
    (tr ++ writes fs)[tr.length + i]? = (fs[i]?).map Action.mipi_dsi_dcs_write_buffer := by
  rw [List.getElem?_append_right (Nat.le_add_right _ _)]
  simp [writes]

/-- C3: when every channel write succeeds, the table loop of `prepare` runs
to its end and emits one frame per instruction, in table order: the new part
of the trace is the list of the instructions' frames, it is as long as the
table, and its i-th entry is the frame of the i-th instruction (`ff 98 81 page`
for a page switch, `register value` for a register write).  This holds for
every table, so for every non-empty one, in both drivers. -/
theorem prepare_loop_replays_table (env : Env) (w : World)
    (hok : ∀ h buf, 0 ≤ env h (Action.mipi_dsi_dcs_write_buffer buf)) :
    (∀ (ctx : ili9881c) (tbl : List ili9881c_instr), (∀ i ∈ tbl, i.isU8) →
      (ili9881c_prepare_loop env ctx tbl w).1 = 0 ∧
      (ili9881c_prepare_loop env ctx tbl w).2.trace =
        w.trace ++ writes (tbl.map ili9881c_frame) ∧
      (writes (tbl.map ili9881c_frame)).length = tbl.length ∧
      ∀ i instr, tbl[i]? = some instr →
        (ili9881c_prepare_loop env ctx tbl w).2.trace[w.trace.length + i]? =
          some (Action.mipi_dsi_dcs_write_buffer (ili9881c_frame instr))) ∧
    (∀ (ctx : ili9881d) (tbl : List ili9881d_instr), (∀ i ∈ tbl, i.isU8) →
      (ili9881d_prepare_loop env ctx tbl w).1 = 0 ∧
      (ili9881d_prepare_loop env ctx tbl w).2.trace =
        w.trace ++ writes (tbl.map ili9881d_frame) ∧
      (writes (tbl.map ili9881d_frame)).length = tbl.length ∧
      ∀ i instr, tbl[i]? = some instr →
        (ili9881d_prepare_loop env ctx tbl w).2.trace[w.trace.length + i]? =
          some (Action.mipi_dsi_dcs_write_buffer (ili9881d_frame instr))) := by
  constructor
  · intro ctx tbl hu
    have h := ili9881c_loop_accepts env ctx tbl w hu (fun _ _ _ _ => hok _ _)
    refine ⟨by rw [h], by rw [h]; rfl, by simp [writes], ?_⟩
    intro i instr hi
    rw [h]
    show (w.trace ++ writes (tbl.map ili9881c_frame))[w.trace.length + i]? = _
    rw [getElem?_trace_writes, List.getElem?_map, hi]
    rfl
  · intro ctx tbl hu
    have h := ili9881d_loop_accepts env ctx tbl w hu (fun _ _ _ _ => hok _ _)
    refine ⟨by rw [h], by rw [h]; rfl, by simp [writes], ?_⟩
    intro i instr hi
    rw [h]
    show (w.trace ++ writes (tbl.map ili9881d_frame))[w.trace.length + i]? = _
    rw [getElem?_trace_writes, List.getElem?_map, hi]
    rfl

/-- Witness of C3: the shipped ili9881c table, whose second and third
instructions are the same write `(0x01, 0x00)`, gives 201 frames of which the
first three are the page-3 frame and that write twice. -/
theorem prepare_loop_replays_table_witness :
    ((ili9881c_prepare_loop envOk ⟨true⟩ ili9881c_init world0).2.trace).length = 201 ∧
    ((ili9881c_prepare_loop envOk ⟨true⟩ ili9881c_init world0).2.trace).take 3 =
      [Action.mipi_dsi_dcs_write_buffer [0xFF, 0x98, 0x81, 3],
       Action.mipi_dsi_dcs_write_buffer [0x01, 0x00],
       Action.mipi_dsi_dcs_write_buffer [0x01, 0x00]] := by
  have h := ((prepare_loop_replays_table envOk world0 (fun _ _ => le_refl 0)).1
    ⟨true⟩ ili9881c_init ili9881c_init_isU8).2.1
  rw [h]
  exact ⟨rfl, rfl⟩

/-! ## The lifecycle: prepare -/

/-- C4: in every run of `prepare` in which all operations succeed, `prepare`
returns `0` and the calls it made are, in this order: enable the power
supply, sleep 5 ms, drive the reset line to 1, sleep 20 ms, drive the reset
line to 0, sleep 20 ms, the frames of the whole table, the page-0 frame, tear
on in vblank mode, exit sleep.  None of the six calls that come before the
table frames is a channel call, so no channel write precedes the release of
the reset line and the 20 ms after it. -/
theorem prepare_success_trace (env : Env) (w : World) (hok : AllSucceed env) :
    (∀ ctx : ili9881c,
      (ili9881c_prepare env ctx w).1 = 0 ∧
      (ili9881c_prepare env ctx w).2.trace =
        w.trace ++
          [Action.regulator_enable, Action.msleep 5, Action.gpiod_set_value 1,
           Action.msleep 20, Action.gpiod_set_value 0, Action.msleep 20] ++
          writes (ili9881c_init.map ili9881c_frame) ++
          [Action.mipi_dsi_dcs_write_buffer [0xFF, 0x98, 0x81, 0x00],
           Action.mipi_dsi_dcs_set_tear_on .MIPI_DSI_DCS_TEAR_MODE_VBLANK,
           Action.mipi_dsi_dcs_exit_sleep_mode]) ∧
    (∀ ctx : ili9881d,
      (ili9881d_prepare env ctx w).1 = 0 ∧
      (ili9881d_prepare env ctx w).2.trace =
        w.trace ++
          [Action.regulator_enable, Action.msleep 5, Action.gpiod_set_value 1,
           Action.msleep 20, Action.gpiod_set_value 0, Action.msleep 20] ++
          writes (ili9881d_init.map ili9881d_frame) ++
          [Action.mipi_dsi_dcs_write_buffer [0xFF, 0x98, 0x81, 0x00],
           Action.mipi_dsi_dcs_set_tear_on .MIPI_DSI_DCS_TEAR_MODE_VBLANK,
           Action.mipi_dsi_dcs_exit_sleep_mode]) ∧
    (∀ a ∈ [Action.regulator_enable, Action.msleep 5, Action.gpiod_set_value 1,
           Action.msleep 20, Action.gpiod_set_value 0, Action.msleep 20],
      a.isChannel = false) := by
  refine ⟨?_, ?_, by decide⟩
  · intro ctx
    have h := ili9881c_prepare_table_ok env ctx ili9881c_init w ili9881c_init_isU8 hok
    unfold ili9881c_prepare
    rw [h]
    refine ⟨rfl, ?_⟩
    simp [World.logged, World.afterReset, prepare_preamble, prepare_epilogue]
  · intro ctx
    have h := ili9881d_prepare_table_ok env ctx ili9881d_init w ili9881d_init_isU8 hok
    unfold ili9881d_prepare
    rw [h]
    refine ⟨rfl, ?_⟩
    simp [World.logged, World.afterReset, prepare_preamble, prepare_epilogue]

theorem envOk_allSucceed : AllSucceed envOk := by
  intro h a
  cases a <;> simp [succeeded, envOk]

/-- Witness of C4: `ili9881d_prepare` on a channel where everything returns
`0` makes 6 + 194 + 3 calls and returns `0`. -/
theorem prepare_success_trace_witness :
    (ili9881d_prepare envOk ⟨false⟩ world0).1 = 0 ∧
    ((ili9881d_prepare envOk ⟨false⟩ world0).2.trace).length = 203 := by
  have h := (prepare_success_trace envOk world0 envOk_allSucceed).2.1 ⟨false⟩
  refine ⟨h.1, ?_⟩
  rw [h.2]
  rfl

theorem take_map_frames_split_c (tbl : List ili9881c_instr) (k : Nat) (hk : 1 ≤ k)
    (hkn : k ≤ tbl.length) :
    ∃ bad, tbl[k - 1]? = some bad ∧ tbl = tbl.take (k - 1) ++ bad :: tbl.drop k ∧
      tbl.take k = tbl.take (k - 1) ++ [bad] := by
  have hlt : k - 1 < tbl.length := by omega
  refine ⟨tbl[k - 1], List.getElem?_eq_getElem hlt, ?_, ?_⟩
  · have h1 : tbl.drop (k - 1) = tbl[k - 1] :: tbl.drop (k - 1 + 1) :=
      List.drop_eq_getElem_cons hlt
    have h2 : k - 1 + 1 = k := by omega
    rw [h2] at h1
    rw [← h1, List.take_append_drop]
  · have h2 : k = (k - 1) + 1 := by omega
    conv_lhs => rw [h2]
    rw [List.take_succ, List.getElem?_eq_getElem hlt]
    rfl

theorem take_map_frames_split_d (tbl : List ili9881d_instr) (k : Nat) (hk : 1 ≤ k)
    (hkn : k ≤ tbl.length) :
    ∃ bad, tbl[k - 1]? = some bad ∧ tbl = tbl.take (k - 1) ++ bad :: tbl.drop k ∧
      tbl.take k = tbl.take (k - 1) ++ [bad] := by
  have hlt : k - 1 < tbl.length := by omega
  refine ⟨tbl[k - 1], List.getElem?_eq_getElem hlt, ?_, ?_⟩
  · have h1 : tbl.drop (k - 1) = tbl[k - 1] :: tbl.drop (k - 1 + 1) :=
      List.drop_eq_getElem_cons hlt
    have h2 : k - 1 + 1 = k := by omega
    rw [h2] at h1
    rw [← h1, List.take_append_drop]
  · have h2 : k = (k - 1) + 1 := by omega
    conv_lhs => rw [h2]
    rw [List.take_succ, List.getElem?_eq_getElem hlt]
    rfl

theorem countP_isChannel_writes (fs : List (List Nat)) :
    (writes fs).countP Action.isChannel = fs.length := by
  induction fs with
  | nil => rfl
  | cons f fs ih =>
    simp only [writes, List.map_cons, List.length_cons] at ih ⊢
    rw [List.countP_cons_of_pos _ _ (by rfl), ih]

/-- The prefix of a split table, seen from the table: position and `take`. -/
theorem split_prefix_facts {α : Type} (tbl pre post : List α) (a : α) (m : Nat)
    (h : tbl.take m = pre ++ a :: post) :
    pre.length < m ∧ tbl[pre.length]? = some a ∧ tbl.take pre.length = pre := by
  have hlen : (tbl.take m).length = pre.length + (post.length + 1) := by
    rw [h]; simp
  have hm : pre.length < m := by
    have := List.length_take_le m tbl
    omega
  have htbl : tbl = (pre ++ a :: post) ++ tbl.drop m := by
    rw [← h, List.take_append_drop]
  refine ⟨hm, ?_, ?_⟩
  · rw [htbl, List.append_assoc, List.getElem?_append_right (le_refl _)]
    simp
  · rw [htbl]
    simp

/-- The function `ili9881c_prepare_table` when the power supply came up, the
writes of instructions `1 .. k-1` are accepted and the write of instruction
`k` fails with `e`: result and final world. -/
theorem ili9881c_prepare_table_fails (env : Env) (ctx : ili9881c)
    (tbl : List ili9881c_instr) (w : World) (k : Nat) (e : Int)
    (hpower : env w.trace .regulator_enable = 0) (hk : 1 ≤ k) (hkn : k ≤ tbl.length)
    (hu : ∀ i ∈ tbl, i.isU8) (he : e < 0)
    (hacc : ∀ j instr, j < k - 1 → tbl[j]? = some instr →
      0 ≤ env (w.trace ++ prepare_preamble ++ writes ((tbl.take j).map ili9881c_frame))
        (.mipi_dsi_dcs_write_buffer (ili9881c_frame instr)))
    (hfail : ∀ instr, tbl[k - 1]? = some instr →
      env (w.trace ++ prepare_preamble ++ writes ((tbl.take (k - 1)).map ili9881c_frame))
        (.mipi_dsi_dcs_write_buffer (ili9881c_frame instr)) = e) :
    ili9881c_prepare_table env ctx tbl w =
      (e, w.afterReset.logged (writes ((tbl.take k).map ili9881c_frame))) := by
  obtain ⟨bad, hb, hsplit, htake⟩ := take_map_frames_split_c tbl k hk hkn
  have hloop := ili9881c_loop_fails env ctx (tbl.take (k - 1)) bad (tbl.drop k) w.afterReset e
    (by
      intro i hi
      apply hu i
      rw [← htake] at hi
      exact List.mem_of_mem_take hi)
    (by
      intro pre a post hpre
      obtain ⟨h1, h2, h3⟩ := split_prefix_facts tbl pre post a (k - 1) hpre
      have := hacc pre.length a h1 h2
      rw [h3] at this
      exact this)
    (hfail bad hb) he
  rw [← hsplit, ← htake] at hloop
  rw [ili9881c_prepare_table_powered env ctx tbl w hpower, hloop]
  simp [Int.ne_of_lt he]

/-- The function `ili9881d_prepare_table` when the power supply came up, the
writes of instructions `1 .. k-1` are accepted and the write of instruction
`k` fails with `e`: result and final world. -/
theorem ili9881d_prepare_table_fails (env : Env) (ctx : ili9881d)
    (tbl : List ili9881d_instr) (w : World) (k : Nat) (e : Int)
    (hpower : env w.trace .regulator_enable = 0) (hk : 1 ≤ k) (hkn : k ≤ tbl.length)
    (hu : ∀ i ∈ tbl, i.isU8) (he : e < 0)
    (hacc : ∀ j instr, j < k - 1 → tbl[j]? = some instr →
      0 ≤ env (w.trace ++ prepare_preamble ++ writes ((tbl.take j).map ili9881d_frame))
        (.mipi_dsi_dcs_write_buffer (ili9881d_frame instr)))
    (hfail : ∀ instr, tbl[k - 1]? = some instr →
      env (w.trace ++ prepare_preamble ++ writes ((tbl.take (k - 1)).map ili9881d_frame))
        (.mipi_dsi_dcs_write_buffer (ili9881d_frame instr)) = e) :
    ili9881d_prepare_table env ctx tbl w =
      (e, w.afterReset.logged (writes ((tbl.take k).map ili9881d_frame))) := by
  obtain ⟨bad, hb, hsplit, htake⟩ := take_map_frames_split_d tbl k hk hkn
  have hloop := ili9881d_loop_fails env ctx (tbl.take (k - 1)) bad (tbl.drop k) w.afterReset e
    (by
      intro i hi
      apply hu i
      rw [← htake] at hi
      exact List.mem_of_mem_take hi)
    (by
      intro pre a post hpre
      obtain ⟨h1, h2, h3⟩ := split_prefix_facts tbl pre post a (k - 1) hpre
      have := hacc pre.length a h1 h2
      rw [h3] at this
      exact this)
    (hfail bad hb) he
  rw [← hsplit, ← htake] at hloop
  rw [ili9881d_prepare_table_powered env ctx tbl w hpower, hloop]
  simp [Int.ne_of_lt he]

/-- C5: for every table of length `n` and every `k` with `1 ≤ k ≤ n`, if the
power supply came up, the channel accepts the writes of instructions
`1 .. k-1` and fails the write of instruction `k` with the error `e`, then
`prepare` returns `e`; the calls it made are the preamble followed by the
frames of instructions `1 .. k` and nothing else, so instruction `k` was
attempted once, and no later instruction, page-0 switch, tear-on or exit-sleep
was attempted: `prepare` made exactly `k` channel calls. -/
theorem prepare_stops_at_first_failed_write (env : Env) (w : World) (k : Nat) (e : Int)
    (hpower : env w.trace Action.regulator_enable = 0) (hk : 1 ≤ k) (he : e < 0) :
    (∀ (ctx : ili9881c) (tbl : List ili9881c_instr), k ≤ tbl.length → (∀ i ∈ tbl, i.isU8) →
      (∀ j instr, j < k - 1 → tbl[j]? = some instr →
        0 ≤ env (w.trace ++ prepare_preamble ++ writes ((tbl.take j).map ili9881c_frame))
          (Action.mipi_dsi_dcs_write_buffer (ili9881c_frame instr))) →
      (∀ instr, tbl[k - 1]? = some instr →
        env (w.trace ++ prepare_preamble ++ writes ((tbl.take (k - 1)).map ili9881c_frame))
          (Action.mipi_dsi_dcs_write_buffer (ili9881c_frame instr)) = e) →
      (ili9881c_prepare_table env ctx tbl w).1 = e ∧
      (ili9881c_prepare_table env ctx tbl w).2.trace =
        w.trace ++ prepare_preamble ++ writes ((tbl.take k).map ili9881c_frame) ∧
      (((ili9881c_prepare_table env ctx tbl w).2.trace).drop w.trace.length).countP
        Action.isChannel = k) ∧
    (∀ (ctx : ili9881d) (tbl : List ili9881d_instr), k ≤ tbl.length → (∀ i ∈ tbl, i.isU8) →
      (∀ j instr, j < k - 1 → tbl[j]? = some instr →
        0 ≤ env (w.trace ++ prepare_preamble ++ writes ((tbl.take j).map ili9881d_frame))
          (Action.mipi_dsi_dcs_write_buffer (ili9881d_frame instr))) →
      (∀ instr, tbl[k - 1]? = some instr →
        env (w.trace ++ prepare_preamble ++ writes ((tbl.take (k - 1)).map ili9881d_frame))
          (Action.mipi_dsi_dcs_write_buffer (ili9881d_frame instr)) = e) →
      (ili9881d_prepare_table env ctx tbl w).1 = e ∧
      (ili9881d_prepare_table env ctx tbl w).2.trace =
        w.trace ++ prepare_preamble ++ writes ((tbl.take k).map ili9881d_frame) ∧
      (((ili9881d_prepare_table env ctx tbl w).2.trace).drop w.trace.length).countP
        Action.isChannel = k) := by
  constructor
  · intro ctx tbl hkn hu hacc hfail
    have h := ili9881c_prepare_table_fails env ctx tbl w k e hpower hk hkn hu he hacc hfail
    rw [h]
    refine ⟨rfl, rfl, ?_⟩
    show ((w.trace ++ prepare_preamble ++ writes ((tbl.take k).map ili9881c_frame)).drop
      w.trace.length).countP Action.isChannel = k
    rw [List.append_assoc, List.drop_left, List.countP_append, countP_isChannel_writes]
    simp [prepare_preamble, Action.isChannel, List.length_take, hkn]
  · intro ctx tbl hkn hu hacc hfail
    have h := ili9881d_prepare_table_fails env ctx tbl w k e hpower hk hkn hu he hacc hfail
    rw [h]
    refine ⟨rfl, rfl, ?_⟩
    show ((w.trace ++ prepare_preamble ++ writes ((tbl.take k).map ili9881d_frame)).drop
      w.trace.length).countP Action.isChannel = k
    rw [List.append_assoc, List.drop_left, List.countP_append, countP_isChannel_writes]
    simp [prepare_preamble, Action.isChannel, List.length_take, hkn]

/-- Witness of C5: with the 50-instruction table and a channel that fails its
fifth write with `-5`, `prepare` returns `-5` and the channel saw the frames
of instructions 1 to 4 and the failed fifth, and nothing else. -/
theorem prepare_stops_at_first_failed_write_witness :
    table50.length = 50 ∧
    (ili9881c_prepare_table (envFailAt 4 (-5)) ⟨true⟩ table50 world0).1 = -5 ∧
    (ili9881c_prepare_table (envFailAt 4 (-5)) ⟨true⟩ table50 world0).2.trace =
      prepare_preamble ++
        [Action.mipi_dsi_dcs_write_buffer [0xFF, 0x98, 0x81, 3],
         Action.mipi_dsi_dcs_write_buffer [0x01, 0x00],
         Action.mipi_dsi_dcs_write_buffer [0x01, 0x00],
         Action.mipi_dsi_dcs_write_buffer [0x02, 0x00],
         Action.mipi_dsi_dcs_write_buffer [0x03, 0x73]] := by
  have h := (prepare_stops_at_first_failed_write (envFailAt 4 (-5)) world0 5 (-5)
    rfl (by decide) (by decide)).1 ⟨true⟩ table50 (by decide)
    (fun i hi => ili9881c_init_isU8 i (List.mem_of_mem_take hi))
    (by
      intro j instr hj hget
      have hj4 : j < 4 := hj
      interval_cases j <;> simp [table50, ili9881c_init] at hget <;> subst hget <;> decide)
    (by
      intro instr hget
      simp [table50, ili9881c_init] at hget
      subst hget
      decide)
  exact ⟨by decide, h.1, h.2.1⟩

/-! ## Failure propagation in the encoder -/

/-- C6: `switch_page` and `send_cmd_data`, in both drivers, return a
negative result of the channel write unchanged and turn every non-negative
result (a byte count included) into `0`; in either case the trace grows by
that one write only, so the write is not attempted a second time.  The bytes
written are the `u8` arguments, hence taken modulo 256. -/
theorem encoder_propagates_channel_result (env : Env) (w : World) (page cmd data : Nat) :
    (∀ ctx : ili9881c,
      (∀ r, env w.trace (Action.mipi_dsi_dcs_write_buffer [0xFF, 0x98, 0x81, page % 256]) = r →
        (r < 0 → (ili9881c_switch_page env ctx page w).1 = r) ∧
        (0 ≤ r → (ili9881c_switch_page env ctx page w).1 = 0)) ∧
      (ili9881c_switch_page env ctx page w).2.trace =
        w.trace ++ [Action.mipi_dsi_dcs_write_buffer [0xFF, 0x98, 0x81, page % 256]] ∧
      (∀ r, env w.trace (Action.mipi_dsi_dcs_write_buffer [cmd % 256, data % 256]) = r →
        (r < 0 → (ili9881c_send_cmd_data env ctx cmd data w).1 = r) ∧
        (0 ≤ r → (ili9881c_send_cmd_data env ctx cmd data w).1 = 0)) ∧
      (ili9881c_send_cmd_data env ctx cmd data w).2.trace =
        w.trace ++ [Action.mipi_dsi_dcs_write_buffer [cmd % 256, data % 256]]) ∧
    (∀ ctx : ili9881d,
      (∀ r, env w.trace (Action.mipi_dsi_dcs_write_buffer [0xFF, 0x98, 0x81, page % 256]) = r →
        (r < 0 → (ili9881d_switch_page env ctx page w).1 = r) ∧
        (0 ≤ r → (ili9881d_switch_page env ctx page w).1 = 0)) ∧
      (ili9881d_switch_page env ctx page w).2.trace =
        w.trace ++ [Action.mipi_dsi_dcs_write_buffer [0xFF, 0x98, 0x81, page % 256]] ∧
      (∀ r, env w.trace (Action.mipi_dsi_dcs_write_buffer [cmd % 256, data % 256]) = r →
        (r < 0 → (ili9881d_send_cmd_data env ctx cmd data w).1 = r) ∧
        (0 ≤ r → (ili9881d_send_cmd_data env ctx cmd data w).1 = 0)) ∧
      (ili9881d_send_cmd_data env ctx cmd data w).2.trace =
        w.trace ++ [Action.mipi_dsi_dcs_write_buffer [cmd % 256, data % 256]]) := by
  constructor
  · intro ctx
    rw [ili9881c_switch_page_eq, ili9881c_send_cmd_data_eq]
    refine ⟨?_, rfl, ?_, rfl⟩
    · intro r hr
      rw [hr]
      exact ⟨fun h => by simp [h], fun h => by simp [not_lt.mpr h]⟩
    · intro r hr
      rw [hr]
      exact ⟨fun h => by simp [h], fun h => by simp [not_lt.mpr h]⟩
  · intro ctx
    rw [ili9881d_switch_page_eq, ili9881d_send_cmd_data_eq]
    refine ⟨?_, rfl, ?_, rfl⟩
    · intro r hr
      rw [hr]
      exact ⟨fun h => by simp [h], fun h => by simp [not_lt.mpr h]⟩
    · intro r hr
      rw [hr]
      exact ⟨fun h => by simp [h], fun h => by simp [not_lt.mpr h]⟩

/-- Witness of C6: a channel that fails with `-5` makes `switch_page` return
`-5`, and a channel that reports the byte count `2` makes `send_cmd_data`
return `0`. -/
theorem encoder_propagates_channel_result_witness :
    (ili9881c_switch_page (envFailAt 0 (-5)) ⟨true⟩ 1 world0).1 = -5 ∧
    (ili9881d_send_cmd_data (fun _ _ => 2) ⟨true⟩ 0x22 0x0A world0).1 = 0 :=
  ⟨((encoder_propagates_channel_result (envFailAt 0 (-5)) world0 1 0 0).1 ⟨true⟩).1 (-5) rfl
      |>.1 (by decide),
   ((encoder_propagates_channel_result (fun _ _ => 2) world0 0 0x22 0x0A).2 ⟨true⟩).2.2.1 2 rfl
      |>.2 (by decide)⟩

/-! ## The lifecycle: enable -/

theorem ili9881c_enable_eq (env : Env) (ctx : ili9881c) (w : World) :
    (ili9881c_enable env ctx w).1 = 0 ∧
    (ili9881c_enable env ctx w).2.trace =
      w.trace ++ [Action.msleep 120, Action.mipi_dsi_dcs_set_display_on] ++
        (if ctx.backlight then [Action.backlight_enable] else []) := by
  refine ⟨rfl, ?_⟩
  cases hb : ctx.backlight <;>
    simp [ili9881c_enable, msleep, mipi_dsi_dcs_set_display_on, backlight_enable, call,
      World.effect, hb]

theorem ili9881d_enable_eq (env : Env) (ctx : ili9881d) (w : World) :
    (ili9881d_enable env ctx w).1 = 0 ∧
    (ili9881d_enable env ctx w).2.trace =
      w.trace ++ [Action.msleep 120, Action.mipi_dsi_dcs_set_display_on] ++
        (if ctx.backlight then [Action.backlight_enable] else []) := by
  refine ⟨rfl, ?_⟩
  cases hb : ctx.backlight <;>
    simp [ili9881d_enable, msleep, mipi_dsi_dcs_set_display_on, backlight_enable, call,
      World.effect, hb]

/-- C10: in every run of `enable`, of either driver and whatever the calls
return, the calls made are, in order: a sleep of 120 ms, the display-on
command, and then the backlight enable when the context has a backlight (no
further call when it has none).  The sleep is the first call, so no channel
write precedes it. -/
theorem enable_trace (env : Env) (w : World) :
    (∀ ctx : ili9881c,
      (ili9881c_enable env ctx w).2.trace =
        w.trace ++ [Action.msleep 120, Action.mipi_dsi_dcs_set_display_on] ++
          (if ctx.backlight then [Action.backlight_enable] else [])) ∧
    (∀ ctx : ili9881d,
      (ili9881d_enable env ctx w).2.trace =
        w.trace ++ [Action.msleep 120, Action.mipi_dsi_dcs_set_display_on] ++
          (if ctx.backlight then [Action.backlight_enable] else [])) :=
  ⟨fun ctx => (ili9881c_enable_eq env ctx w).2, fun ctx => (ili9881d_enable_eq env ctx w).2⟩

/-! ## What the ili9881c operations do to power, reset and backlight -/

theorem ili9881c_loop_cons_any (env : Env) (ctx : ili9881c) (instr : ili9881c_instr)
    (rest : List ili9881c_instr) (w : World) :
    ∃ buf, ili9881c_prepare_loop env ctx (instr :: rest) w =
      if env w.trace (.mipi_dsi_dcs_write_buffer buf) < 0
      then (env w.trace (.mipi_dsi_dcs_write_buffer buf),
            w.logged [.mipi_dsi_dcs_write_buffer buf])
      else ili9881c_prepare_loop env ctx rest (w.logged [.mipi_dsi_dcs_write_buffer buf]) := by
  cases instr with
  | ILI9881C_SWITCH_PAGE page =>
    refine ⟨[0xff, 0x98, 0x81, page % 256], ?_⟩
    simp only [ili9881c_prepare_loop, ili9881c_switch_page_eq, World.logged]
    split
    · rename_i h
      simp [h, Int.ne_of_lt h]
    · simp
  | ILI9881C_COMMAND cmd data =>
    refine ⟨[cmd % 256, data % 256], ?_⟩
    simp only [ili9881c_prepare_loop, ili9881c_send_cmd_data_eq, World.logged]
    split
    · rename_i h
      simp [h, Int.ne_of_lt h]
    · simp

theorem ili9881c_loop_shape (env : Env) (ctx : ili9881c) (tbl : List ili9881c_instr)
    (w : World) :
    ∃ calls, (ili9881c_prepare_loop env ctx tbl w).2 = w.logged calls ∧
      ∀ a ∈ calls, a.isChannel = true := by
  induction tbl generalizing w with
  | nil => exact ⟨[], by simp [ili9881c_prepare_loop, World.logged], by simp⟩
  | cons x xs ih =>
    obtain ⟨buf, hbuf⟩ := ili9881c_loop_cons_any env ctx x xs w
    rw [hbuf]
    split
    · exact ⟨[.mipi_dsi_dcs_write_buffer buf], rfl, by simp [Action.isChannel]⟩
    · obtain ⟨calls, hc, hall⟩ := ih (w.logged [.mipi_dsi_dcs_write_buffer buf])
      refine ⟨.mipi_dsi_dcs_write_buffer buf :: calls, ?_, ?_⟩
      · rw [hc]; simp [World.logged]
      · intro a ha
        rcases List.mem_cons.mp ha with h | h
        · rw [h]; rfl
        · exact hall a h

/-- Whatever the channel does, a `prepare` whose power supply came up only
adds channel calls after the preamble: it ends in the world after the reset
pulse with those calls logged. -/
theorem ili9881c_prepare_table_shape (env : Env) (ctx : ili9881c)
    (tbl : List ili9881c_instr) (w : World) (hp : env w.trace .regulator_enable = 0) :
    ∃ calls, (ili9881c_prepare_table env ctx tbl w).2 = w.afterReset.logged calls ∧
      ∀ a ∈ calls, a.isChannel = true := by
  obtain ⟨c1, h1, a1⟩ := ili9881c_loop_shape env ctx tbl w.afterReset
  have hlog : ∀ (v : World) (xs ys : List Action), (v.logged xs).logged ys = v.logged (xs ++ ys) := by
    intro v xs ys; simp [World.logged]
  have hsw : ∀ v : World, (ili9881c_switch_page env ctx 0 v).2 =
      v.logged [.mipi_dsi_dcs_write_buffer [0xff, 0x98, 0x81, 0 % 256]] := by
    intro v; rw [ili9881c_switch_page_eq]; rfl
  have hte : ∀ v : World, (mipi_dsi_dcs_set_tear_on env .MIPI_DSI_DCS_TEAR_MODE_VBLANK v).2 =
      v.logged [.mipi_dsi_dcs_set_tear_on .MIPI_DSI_DCS_TEAR_MODE_VBLANK] := by
    intro v; rfl
  have hex : ∀ v : World, (mipi_dsi_dcs_exit_sleep_mode env v).2 =
      v.logged [.mipi_dsi_dcs_exit_sleep_mode] := by
    intro v; rfl
  rw [ili9881c_prepare_table_powered env ctx tbl w hp]
  split
  · exact ⟨c1, h1, a1⟩
  · split
    · refine ⟨c1 ++ [_], by rw [hsw, h1, hlog], ?_⟩
      intro a ha
      rcases List.mem_append.mp ha with h | h
      · exact a1 a h
      · rw [List.mem_singleton.mp h]; rfl
    · split
      · refine ⟨c1 ++ ([_] ++ [_]), by rw [hte, hsw, h1, hlog, hlog], ?_⟩
        intro a ha
        simp only [List.mem_append, List.mem_singleton] at ha
        rcases ha with h | h | h
        · exact a1 a h
        · rw [h]; rfl
        · rw [h]; rfl
      · have hfin : ∃ calls, (mipi_dsi_dcs_exit_sleep_mode env
              (mipi_dsi_dcs_set_tear_on env .MIPI_DSI_DCS_TEAR_MODE_VBLANK
                (ili9881c_switch_page env ctx 0
                  (ili9881c_prepare_loop env ctx tbl w.afterReset).2).2).2).2 =
              w.afterReset.logged calls ∧ ∀ a ∈ calls, a.isChannel = true := by
          refine ⟨c1 ++ ([_] ++ ([_] ++ [_])), by rw [hex, hte, hsw, h1, hlog, hlog, hlog], ?_⟩
          intro a ha
          simp only [List.mem_append, List.mem_singleton] at ha
          rcases ha with h | h | h | h
          · exact a1 a h
          · rw [h]; rfl
          · rw [h]; rfl
          · rw [h]; rfl
        split
        · exact hfin
        · exact hfin

theorem ili9881c_enable_frame (env : Env) (ctx : ili9881c) (w : World) :
    (ili9881c_enable env ctx w).2.power = w.power ∧
    (ili9881c_enable env ctx w).2.reset = w.reset := by
  cases hb : ctx.backlight
  · simp [ili9881c_enable, msleep, mipi_dsi_dcs_set_display_on, backlight_enable, call,
      World.effect, hb]
  · simp only [ili9881c_enable, msleep, mipi_dsi_dcs_set_display_on, backlight_enable, call,
      World.effect, hb, if_true]
    split <;> exact ⟨rfl, rfl⟩

theorem ili9881c_disable_eq (env : Env) (ctx : ili9881c) (w : World) :
    (ili9881c_disable env ctx w).1 =
      env (w.trace ++ (if ctx.backlight then [Action.backlight_disable] else []))
        Action.mipi_dsi_dcs_set_display_off ∧
    (ili9881c_disable env ctx w).2.trace =
      w.trace ++ (if ctx.backlight then [Action.backlight_disable] else []) ++
        [Action.mipi_dsi_dcs_set_display_off] ∧
    (ili9881c_disable env ctx w).2.power = w.power ∧
    (ili9881c_disable env ctx w).2.reset = w.reset := by
  cases hb : ctx.backlight
  · simp [ili9881c_disable, mipi_dsi_dcs_set_display_off, backlight_disable, call,
      World.effect, hb]
  · simp only [ili9881c_disable, mipi_dsi_dcs_set_display_off, backlight_disable, call,
      World.effect, hb, if_true]
    split <;> simp

theorem ili9881c_unprepare_eq (env : Env) (ctx : ili9881c) (w : World) :
    (ili9881c_unprepare env ctx w).1 = 0 ∧
    (ili9881c_unprepare env ctx w).2.trace =
      w.trace ++ [Action.mipi_dsi_dcs_enter_sleep_mode, Action.regulator_disable,
        Action.gpiod_set_value 1] ∧
    (ili9881c_unprepare env ctx w).2.reset = 1 ∧
    (env (w.trace ++ [Action.mipi_dsi_dcs_enter_sleep_mode]) Action.regulator_disable = 0 →
      (ili9881c_unprepare env ctx w).2.power = w.power - 1) := by
  refine ⟨rfl, ?_, rfl, ?_⟩
  · simp [ili9881c_unprepare, mipi_dsi_dcs_enter_sleep_mode, regulator_disable,
      gpiod_set_value, call, World.effect]
  · intro h
    simp [ili9881c_unprepare, mipi_dsi_dcs_enter_sleep_mode, regulator_disable,
      gpiod_set_value, call, World.effect, h]

theorem ili9881c_probe_state (p : ProbeEnv) (w0 w : World) (ctx : ili9881c) (r : Int)
    (h : ili9881c_dsi_probe p w0 = (r, some ctx, w)) : w.power = 0 ∧ w.reset = 0 := by
  unfold ili9881c_dsi_probe at h
  split at h
  · simp at h
  · split at h
    · simp at h
    · split at h
      · simp at h
      · split at h
        · simp at h
        · split at h
          · simp at h
          · simp only [Prod.mk.injEq] at h
            rw [← h.2.2]
            exact ⟨rfl, rfl⟩

/-- The round trip on a channel where everything succeeds: the four results
are `0`, no enable is left on the power supply beyond those held before, and
the reset line ends asserted. -/
theorem ili9881c_round_trip_ok (env : Env) (ctx : ili9881c) (w : World)
    (hok : AllSucceed env) :
    (ili9881c_round_trip env ctx w).1 = [0, 0, 0, 0] ∧
    (ili9881c_round_trip env ctx w).2.power = w.power ∧
    (ili9881c_round_trip env ctx w).2.reset = 1 := by
  have hprep := ili9881c_prepare_table_ok env ctx ili9881c_init w ili9881c_init_isU8 hok
  have hp1 : (ili9881c_prepare env ctx w).1 = 0 := by unfold ili9881c_prepare; rw [hprep]
  have hp2 : (ili9881c_prepare env ctx w).2.power = w.power + 1 := by
    unfold ili9881c_prepare; rw [hprep]; rfl
  have hen := ili9881c_enable_frame env ctx (ili9881c_prepare env ctx w).2
  have hdis := ili9881c_disable_eq env ctx
    (ili9881c_enable env ctx (ili9881c_prepare env ctx w).2).2
  have hun := ili9881c_unprepare_eq env ctx
    (ili9881c_disable env ctx (ili9881c_enable env ctx (ili9881c_prepare env ctx w).2).2).2
  have hd1 : (ili9881c_disable env ctx
      (ili9881c_enable env ctx (ili9881c_prepare env ctx w).2).2).1 = 0 := by
    rw [hdis.1]; exact hok _ .mipi_dsi_dcs_set_display_off
  refine ⟨?_, ?_, hun.2.2.1⟩
  · simp only [ili9881c_round_trip, hp1, hd1, hun.1, (ili9881c_enable_eq env ctx _).1]
  · show (ili9881c_unprepare env ctx (ili9881c_disable env ctx
      (ili9881c_enable env ctx (ili9881c_prepare env ctx w).2).2).2).2.power = w.power
    rw [hun.2.2.2 (hok _ .regulator_disable), hdis.2.2.1, hen.1, hp2]
    omega

/-! ## What the ili9881d operations do to power, reset and backlight -/

theorem ili9881d_loop_cons_any (env : Env) (ctx : ili9881d) (instr : ili9881d_instr)
    (rest : List ili9881d_instr) (w : World) :
    ∃ buf, ili9881d_prepare_loop env ctx (instr :: rest) w =
      if env w.trace (.mipi_dsi_dcs_write_buffer buf) < 0
      then (env w.trace (.mipi_dsi_dcs_write_buffer buf),
            w.logged [.mipi_dsi_dcs_write_buffer buf])
      else ili9881d_prepare_loop env ctx rest (w.logged [.mipi_dsi_dcs_write_buffer buf]) := by
  cases instr with
  | ILI9881D_SWITCH_PAGE page =>
    refine ⟨[0xff, 0x98, 0x81, page % 256], ?_⟩
    simp only [ili9881d_prepare_loop, ili9881d_switch_page_eq, World.logged]
    split
    · rename_i h
      simp [h, Int.ne_of_lt h]
    · simp
  | ILI9881D_COMMAND cmd data =>
    refine ⟨[cmd % 256, data % 256], ?_⟩
    simp only [ili9881d_prepare_loop, ili9881d_send_cmd_data_eq, World.logged]
    split
    · rename_i h
      simp [h, Int.ne_of_lt h]
    · simp

theorem ili9881d_loop_shape (env : Env) (ctx : ili9881d) (tbl : List ili9881d_instr)
    (w : World) :
    ∃ calls, (ili9881d_prepare_loop env ctx tbl w).2 = w.logged calls ∧
      ∀ a ∈ calls, a.isChannel = true := by
  induction tbl generalizing w with
  | nil => exact ⟨[], by simp [ili9881d_prepare_loop, World.logged], by simp⟩
  | cons x xs ih =>
    obtain ⟨buf, hbuf⟩ := ili9881d_loop_cons_any env ctx x xs w
    rw [hbuf]
    split
    · exact ⟨[.mipi_dsi_dcs_write_buffer buf], rfl, by simp [Action.isChannel]⟩
    · obtain ⟨calls, hc, hall⟩ := ih (w.logged [.mipi_dsi_dcs_write_buffer buf])
      refine ⟨.mipi_dsi_dcs_write_buffer buf :: calls, ?_, ?_⟩
      · rw [hc]; simp [World.logged]
      · intro a ha
        rcases List.mem_cons.mp ha with h | h
        · rw [h]; rfl
        · exact hall a h

/-- Whatever the channel does, a `prepare` whose power supply came up only
adds channel calls after the preamble: it ends in the world after the reset
pulse with those calls logged. -/
theorem ili9881d_prepare_table_shape (env : Env) (ctx : ili9881d)
    (tbl : List ili9881d_instr) (w : World) (hp : env w.trace .regulator_enable = 0) :
    ∃ calls, (ili9881d_prepare_table env ctx tbl w).2 = w.afterReset.logged calls ∧
      ∀ a ∈ calls, a.isChannel = true := by
  obtain ⟨c1, h1, a1⟩ := ili9881d_loop_shape env ctx tbl w.afterReset
  have hlog : ∀ (v : World) (xs ys : List Action), (v.logged xs).logged ys = v.logged (xs ++ ys) := by
    intro v xs ys; simp [World.logged]
  have hsw : ∀ v : World, (ili9881d_switch_page env ctx 0 v).2 =
      v.logged [.mipi_dsi_dcs_write_buffer [0xff, 0x98, 0x81, 0 % 256]] := by
    intro v; rw [ili9881d_switch_page_eq]; rfl
  have hte : ∀ v : World, (mipi_dsi_dcs_set_tear_on env .MIPI_DSI_DCS_TEAR_MODE_VBLANK v).2 =
      v.logged [.mipi_dsi_dcs_set_tear_on .MIPI_DSI_DCS_TEAR_MODE_VBLANK] := by
    intro v; rfl
  have hex : ∀ v : World, (mipi_dsi_dcs_exit_sleep_mode env v).2 =
      v.logged [.mipi_dsi_dcs_exit_sleep_mode] := by
    intro v; rfl
  rw [ili9881d_prepare_table_powered env ctx tbl w hp]
  split
  · exact ⟨c1, h1, a1⟩
  · split
    · refine ⟨c1 ++ [_], by rw [hsw, h1, hlog], ?_⟩
      intro a ha
      rcases List.mem_append.mp ha with h | h
      · exact a1 a h
      · rw [List.mem_singleton.mp h]; rfl
    · split
      · refine ⟨c1 ++ ([_] ++ [_]), by rw [hte, hsw, h1, hlog, hlog], ?_⟩
        intro a ha
        simp only [List.mem_append, List.mem_singleton] at ha
        rcases ha with h | h | h
        · exact a1 a h
        · rw [h]; rfl
        · rw [h]; rfl
      · have hfin : ∃ calls, (mipi_dsi_dcs_exit_sleep_mode env
              (mipi_dsi_dcs_set_tear_on env .MIPI_DSI_DCS_TEAR_MODE_VBLANK
                (ili9881d_switch_page env ctx 0
                  (ili9881d_prepare_loop env ctx tbl w.afterReset).2).2).2).2 =
              w.afterReset.logged calls ∧ ∀ a ∈ calls, a.isChannel = true := by
          refine ⟨c1 ++ ([_] ++ ([_] ++ [_])), by rw [hex, hte, hsw, h1, hlog, hlog, hlog], ?_⟩
          intro a ha
          simp only [List.mem_append, List.mem_singleton] at ha
          rcases ha with h | h | h | h
          · exact a1 a h
          · rw [h]; rfl
          · rw [h]; rfl
          · rw [h]; rfl
        split
        · exact hfin
        · exact hfin

theorem ili9881d_enable_frame (env : Env) (ctx : ili9881d) (w : World) :
    (ili9881d_enable env ctx w).2.power = w.power ∧
    (ili9881d_enable env ctx w).2.reset = w.reset := by
  cases hb : ctx.backlight
  · simp [ili9881d_enable, msleep, mipi_dsi_dcs_set_display_on, backlight_enable, call,
      World.effect, hb]
  · simp only [ili9881d_enable, msleep, mipi_dsi_dcs_set_display_on, backlight_enable, call,
      World.effect, hb, if_true]
    split <;> exact ⟨rfl, rfl⟩

theorem ili9881d_disable_eq (env : Env) (ctx : ili9881d) (w : World) :
    (ili9881d_disable env ctx w).1 =
      env (w.trace ++ (if ctx.backlight then [Action.backlight_disable] else []))
        Action.mipi_dsi_dcs_set_display_off ∧
    (ili9881d_disable env ctx w).2.trace =
      w.trace ++ (if ctx.backlight then [Action.backlight_disable] else []) ++
        [Action.mipi_dsi_dcs_set_display_off] ∧
    (ili9881d_disable env ctx w).2.power = w.power ∧
    (ili9881d_disable env ctx w).2.reset = w.reset := by
  cases hb : ctx.backlight
  · simp [ili9881d_disable, mipi_dsi_dcs_set_display_off, backlight_disable, call,
      World.effect, hb]
  · simp only [ili9881d_disable, mipi_dsi_dcs_set_display_off, backlight_disable, call,
      World.effect, hb, if_true]
    split <;> simp

theorem ili9881d_unprepare_eq (env : Env) (ctx : ili9881d) (w : World) :
    (ili9881d_unprepare env ctx w).1 = 0 ∧
    (ili9881d_unprepare env ctx w).2.trace =
      w.trace ++ [Action.mipi_dsi_dcs_enter_sleep_mode, Action.regulator_disable,
        Action.gpiod_set_value 1] ∧
    (ili9881d_unprepare env ctx w).2.reset = 1 ∧
    (env (w.trace ++ [Action.mipi_dsi_dcs_enter_sleep_mode]) Action.regulator_disable = 0 →
      (ili9881d_unprepare env ctx w).2.power = w.power - 1) := by
  refine ⟨rfl, ?_, rfl, ?_⟩
  · simp [ili9881d_unprepare, mipi_dsi_dcs_enter_sleep_mode, regulator_disable,
      gpiod_set_value, call, World.effect]
  · intro h
    simp [ili9881d_unprepare, mipi_dsi_dcs_enter_sleep_mode, regulator_disable,
      gpiod_set_value, call, World.effect, h]

theorem ili9881d_probe_state (p : ProbeEnv) (w0 w : World) (ctx : ili9881d) (r : Int)
    (h : ili9881d_dsi_probe p w0 = (r, some ctx, w)) : w.power = 0 ∧ w.reset = 0 := by
  unfold ili9881d_dsi_probe at h
  split at h
  · simp at h
  · split at h
    · simp at h
    · split at h
      · simp at h
      · split at h
        · simp at h
        · split at h
          · simp at h
          · simp only [Prod.mk.injEq] at h
            rw [← h.2.2]
            exact ⟨rfl, rfl⟩

/-- The round trip on a channel where everything succeeds: the four results
are `0`, no enable is left on the power supply beyond those held before, and
the reset line ends asserted. -/
theorem ili9881d_round_trip_ok (env : Env) (ctx : ili9881d) (w : World)
    (hok : AllSucceed env) :
    (ili9881d_round_trip env ctx w).1 = [0, 0, 0, 0] ∧
    (ili9881d_round_trip env ctx w).2.power = w.power ∧
    (ili9881d_round_trip env ctx w).2.reset = 1 := by
  have hprep := ili9881d_prepare_table_ok env ctx ili9881d_init w ili9881d_init_isU8 hok
  have hp1 : (ili9881d_prepare env ctx w).1 = 0 := by unfold ili9881d_prepare; rw [hprep]
  have hp2 : (ili9881d_prepare env ctx w).2.power = w.power + 1 := by
    unfold ili9881d_prepare; rw [hprep]; rfl
  have hen := ili9881d_enable_frame env ctx (ili9881d_prepare env ctx w).2
  have hdis := ili9881d_disable_eq env ctx
    (ili9881d_enable env ctx (ili9881d_prepare env ctx w).2).2
  have hun := ili9881d_unprepare_eq env ctx
    (ili9881d_disable env ctx (ili9881d_enable env ctx (ili9881d_prepare env ctx w).2).2).2
  have hd1 : (ili9881d_disable env ctx
      (ili9881d_enable env ctx (ili9881d_prepare env ctx w).2).2).1 = 0 := by
    rw [hdis.1]; exact hok _ .mipi_dsi_dcs_set_display_off
  refine ⟨?_, ?_, hun.2.2.1⟩
  · simp only [ili9881d_round_trip, hp1, hd1, hun.1, (ili9881d_enable_eq env ctx _).1]
  · show (ili9881d_unprepare env ctx (ili9881d_disable env ctx
      (ili9881d_enable env ctx (ili9881d_prepare env ctx w).2).2).2).2.power = w.power
    rw [hun.2.2.2 (hok _ .regulator_disable), hdis.2.2.1, hen.1, hp2]
    omega

/-! ## Failure of a bus write inside prepare -/

/-- The attach of `probeOk` from `world0`: it succeeds, the context has a
backlight, the power supply holds no enable and the reset line is at `0`. -/
theorem probeOk_attach :
    ili9881c_dsi_probe probeOk world0 = (0, some ⟨true⟩, world0) ∧
    ili9881d_dsi_probe probeOk world0 = (0, some ⟨true⟩, world0) := by
  constructor <;> rfl

theorem ili9881c_init_length : ili9881c_init.length = 201 := rfl

theorem ili9881d_init_length : ili9881d_init.length = 194 := rfl

theorem envFailAt_first_write_c :
    ili9881c_prepare (envFailAt 0 (-5)) ⟨true⟩ world0 =
      (-5, world0.afterReset.logged [Action.mipi_dsi_dcs_write_buffer [0xFF, 0x98, 0x81, 3]]) := by
  have h := ili9881c_prepare_table_fails (envFailAt 0 (-5)) ⟨true⟩ ili9881c_init world0 1 (-5)
    rfl (by decide) (by rw [ili9881c_init_length]; decide) ili9881c_init_isU8 (by decide)
    (by intro j instr hj; omega)
    (by
      intro instr hget
      have h0 : ili9881c_init[1 - 1]? = some (ili9881c_instr.ILI9881C_SWITCH_PAGE 3) := rfl
      rw [h0] at hget
      cases hget
      decide)
  exact h

/-- C7, refuted as stated: attached with `probeOk` (power disabled, reset line
at `0`), `ili9881c_prepare` on a channel whose first write fails with `-5`
returns `-5`, and the power supply is then enabled: the state after the
failed transition is not the state before it. -/
theorem prepare_failure_changes_power_state :
    (ili9881c_dsi_probe probeOk world0).2.2 = world0 ∧
    (ili9881c_prepare (envFailAt 0 (-5)) ⟨true⟩ world0).1 = -5 ∧
    world0.power = 0 ∧
    (ili9881c_prepare (envFailAt 0 (-5)) ⟨true⟩ world0).2.power = 1 ∧
    ¬ ((ili9881c_prepare (envFailAt 0 (-5)) ⟨true⟩ world0).2.power = world0.power ∧
       (ili9881c_prepare (envFailAt 0 (-5)) ⟨true⟩ world0).2.reset = world0.reset) := by
  rw [envFailAt_first_write_c]
  refine ⟨rfl, rfl, rfl, rfl, ?_⟩
  intro h
  exact absurd h.1 (by decide)

/-! ## Prepare as a run of bus writes that stops at the first failure -/

theorem failedCall_iff (a : Action) (r : Int) : failedCall a r = true ↔ ¬ succeeded a r := by
  cases a <;> simp [failedCall, succeeded]

theorem failedCall_ne_zero (a : Action) (r : Int) (h : failedCall a r = true) : r ≠ 0 := by
  cases a <;> simp [failedCall] at h <;> omega

theorem runCalls_shape (env : Env) (calls : List Action) (w : World) :
    ∃ made, (runCalls env calls w).2 = w.logged made := by
  induction calls generalizing w with
  | nil => exact ⟨[], by simp [runCalls, World.logged]⟩
  | cons a rest ih =>
    simp only [runCalls]
    split
    · exact ⟨[a], rfl⟩
    · obtain ⟨made, hm⟩ := ih (w.logged [a])
      exact ⟨a :: made, by rw [hm]; simp [World.logged]⟩

theorem runCalls_append (env : Env) (xs ys : List Action) (w : World) :
    runCalls env (xs ++ ys) w =
      if (runCalls env xs w).1 ≠ 0 then runCalls env xs w
      else runCalls env ys (runCalls env xs w).2 := by
  induction xs generalizing w with
  | nil => simp [runCalls]
  | cons a rest ih =>
    simp only [List.cons_append, runCalls]
    split
    · rename_i h
      simp [failedCall_ne_zero _ _ h]
    · exact ih _

/-- In a run of bus writes, a write that fails is the last call made, and
its result is the result of the run. -/
theorem runCalls_failure_returned (env : Env) (calls : List Action) (w : World)
    (pre post : List Action) (c : Action)
    (htrace : (runCalls env calls w).2.trace = w.trace ++ pre ++ c :: post)
    (hfail : ¬ succeeded c (env (w.trace ++ pre) c)) :
    post = [] ∧ (runCalls env calls w).1 = env (w.trace ++ pre) c := by
  induction calls generalizing w pre with
  | nil =>
    simp only [runCalls] at htrace
    have hlen := congrArg List.length htrace
    simp at hlen
  | cons a rest ih =>
    simp only [runCalls] at htrace ⊢
    by_cases hf : failedCall a (env w.trace a) = true
    · rw [if_pos hf] at htrace ⊢
      have h1 : [a] = pre ++ c :: post := by
        have : w.trace ++ [a] = w.trace ++ (pre ++ c :: post) := by
          rw [← List.append_assoc]; exact htrace
        exact List.append_cancel_left this
      cases pre with
      | nil =>
        simp only [List.nil_append, List.cons.injEq] at h1
        obtain ⟨hac, hpost⟩ := h1
        subst hac
        exact ⟨hpost.symm, by simp⟩
      | cons p pre2 =>
        simp only [List.cons_append, List.cons.injEq] at h1
        have := h1.2
        simp at this
    · rw [if_neg hf] at htrace ⊢
      obtain ⟨made, hm⟩ := runCalls_shape env rest (w.logged [a])
      have h1 : a :: made = pre ++ c :: post := by
        rw [hm] at htrace
        have : w.trace ++ (a :: made) = w.trace ++ (pre ++ c :: post) := by
          rw [← List.append_assoc (w.trace) pre]
          simpa [World.logged] using htrace
        exact List.append_cancel_left this
      cases pre with
      | nil =>
        simp only [List.nil_append, List.cons.injEq] at h1
        obtain ⟨hac, _⟩ := h1
        subst hac
        simp only [List.append_nil] at hfail
        exact absurd ((failedCall_iff _ _).mpr hfail) hf
      | cons p pre2 =>
        simp only [List.cons_append, List.cons.injEq] at h1
        obtain ⟨hap, _⟩ := h1
        subst hap
        have hw : (w.logged [a]).trace ++ pre2 = w.trace ++ a :: pre2 := by
          simp [World.logged]
        have ht : (runCalls env rest (w.logged [a])).2.trace =
            (w.logged [a]).trace ++ pre2 ++ c :: post := by
          rw [htrace]; simp [World.logged]
        have hf2 : ¬ succeeded c (env ((w.logged [a]).trace ++ pre2) c) := by
          rw [hw]; exact hfail
        have hres := ih (w.logged [a]) pre2 ht hf2
        rw [hw] at hres
        exact hres

/-- A run of bus writes with a non-zero result ended on a failed write, whose
result is the result of the run. -/
theorem runCalls_nonzero (env : Env) (calls : List Action) (w : World)
    (hne : (runCalls env calls w).1 ≠ 0) :
    ∃ pre c, (runCalls env calls w).2.trace = w.trace ++ pre ++ [c] ∧ c ∈ calls ∧
      ¬ succeeded c (env (w.trace ++ pre) c) ∧
      (runCalls env calls w).1 = env (w.trace ++ pre) c := by
  induction calls generalizing w with
  | nil => simp [runCalls] at hne
  | cons a rest ih =>
    simp only [runCalls] at hne ⊢
    by_cases hf : failedCall a (env w.trace a) = true
    · rw [if_pos hf]
      exact ⟨[], a, by simp [World.logged], by simp,
        by simpa using (failedCall_iff _ _).mp hf, by simp⟩
    · rw [if_neg hf] at hne ⊢
      obtain ⟨pre, c, h1, hmem, h2, h3⟩ := ih (w.logged [a]) hne
      have hw : (w.logged [a]).trace ++ pre = w.trace ++ (a :: pre) := by
        simp [World.logged]
      refine ⟨a :: pre, c, ?_, List.mem_cons_of_mem _ hmem, ?_, ?_⟩
      · rw [h1]; simp [World.logged]
      · rw [← hw]; exact h2
      · rw [← hw]; exact h3

theorem ili9881c_loop_eq_runCalls (env : Env) (ctx : ili9881c) (tbl : List ili9881c_instr)
    (w : World) (hu : ∀ i ∈ tbl, i.isU8) :
    ili9881c_prepare_loop env ctx tbl w = runCalls env (writes (tbl.map ili9881c_frame)) w := by
  induction tbl generalizing w with
  | nil => rfl
  | cons x xs ih =>
    have hx : x.isU8 := hu x (List.mem_cons_self _ _)
    rw [ili9881c_loop_cons env ctx x xs w hx]
    simp only [List.map_cons, writes, runCalls, failedCall, decide_eq_true_eq]
    split
    · rfl
    · exact ih _ (fun i hi => hu i (List.mem_cons_of_mem _ hi))

/-- Once the power supply came up, `ili9881c_prepare_table` is the run of the
table frames followed by the epilogue, from the world after the reset pulse,
that stops at the first failed write. -/
theorem ili9881c_prepare_table_eq_runCalls (env : Env) (ctx : ili9881c)
    (tbl : List ili9881c_instr) (w : World) (hu : ∀ i ∈ tbl, i.isU8)
    (hp : env w.trace .regulator_enable = 0) :
    ili9881c_prepare_table env ctx tbl w =
      runCalls env (writes (tbl.map ili9881c_frame) ++ prepare_epilogue) w.afterReset := by
  have hsw : ∀ v : World, ili9881c_switch_page env ctx 0 v =
      (if env v.trace (.mipi_dsi_dcs_write_buffer [0xff, 0x98, 0x81, 0x00]) < 0
        then env v.trace (.mipi_dsi_dcs_write_buffer [0xff, 0x98, 0x81, 0x00]) else 0,
       v.logged [.mipi_dsi_dcs_write_buffer [0xff, 0x98, 0x81, 0x00]]) := by
    intro v; rw [ili9881c_switch_page_eq]; rfl
  have hte : ∀ v : World, mipi_dsi_dcs_set_tear_on env .MIPI_DSI_DCS_TEAR_MODE_VBLANK v =
      (env v.trace (.mipi_dsi_dcs_set_tear_on .MIPI_DSI_DCS_TEAR_MODE_VBLANK),
       v.logged [.mipi_dsi_dcs_set_tear_on .MIPI_DSI_DCS_TEAR_MODE_VBLANK]) := fun _ => rfl
  have hex : ∀ v : World, mipi_dsi_dcs_exit_sleep_mode env v =
      (env v.trace .mipi_dsi_dcs_exit_sleep_mode,
       v.logged [.mipi_dsi_dcs_exit_sleep_mode]) := fun _ => rfl
  rw [ili9881c_prepare_table_powered env ctx tbl w hp, runCalls_append,
    ← ili9881c_loop_eq_runCalls env ctx tbl w.afterReset hu]
  split
  · rfl
  · simp only [hsw, hte, hex, prepare_epilogue, runCalls, failedCall, decide_eq_true_eq]
    by_cases h1 : env (ili9881c_prepare_loop env ctx tbl w.afterReset).2.trace
        (.mipi_dsi_dcs_write_buffer [0xff, 0x98, 0x81, 0x00]) < 0
    · simp [h1, Int.ne_of_lt h1]
    · simp only [h1, if_false, ne_eq, not_true_eq_false]

theorem ili9881d_loop_eq_runCalls (env : Env) (ctx : ili9881d) (tbl : List ili9881d_instr)
    (w : World) (hu : ∀ i ∈ tbl, i.isU8) :
    ili9881d_prepare_loop env ctx tbl w = runCalls env (writes (tbl.map ili9881d_frame)) w := by
  induction tbl generalizing w with
  | nil => rfl
  | cons x xs ih =>
    have hx : x.isU8 := hu x (List.mem_cons_self _ _)
    rw [ili9881d_loop_cons env ctx x xs w hx]
    simp only [List.map_cons, writes, runCalls, failedCall, decide_eq_true_eq]
    split
    · rfl
    · exact ih _ (fun i hi => hu i (List.mem_cons_of_mem _ hi))

/-- Once the power supply came up, `ili9881d_prepare_table` is the run of the
table frames followed by the epilogue, from the world after the reset pulse,
that stops at the first failed write. -/
theorem ili9881d_prepare_table_eq_runCalls (env : Env) (ctx : ili9881d)
    (tbl : List ili9881d_instr) (w : World) (hu : ∀ i ∈ tbl, i.isU8)
    (hp : env w.trace .regulator_enable = 0) :
    ili9881d_prepare_table env ctx tbl w =
      runCalls env (writes (tbl.map ili9881d_frame) ++ prepare_epilogue) w.afterReset := by
  have hsw : ∀ v : World, ili9881d_switch_page env ctx 0 v =
      (if env v.trace (.mipi_dsi_dcs_write_buffer [0xff, 0x98, 0x81, 0x00]) < 0
        then env v.trace (.mipi_dsi_dcs_write_buffer [0xff, 0x98, 0x81, 0x00]) else 0,
       v.logged [.mipi_dsi_dcs_write_buffer [0xff, 0x98, 0x81, 0x00]]) := by
    intro v; rw [ili9881d_switch_page_eq]; rfl
  have hte : ∀ v : World, mipi_dsi_dcs_set_tear_on env .MIPI_DSI_DCS_TEAR_MODE_VBLANK v =
      (env v.trace (.mipi_dsi_dcs_set_tear_on .MIPI_DSI_DCS_TEAR_MODE_VBLANK),
       v.logged [.mipi_dsi_dcs_set_tear_on .MIPI_DSI_DCS_TEAR_MODE_VBLANK]) := fun _ => rfl
  have hex : ∀ v : World, mipi_dsi_dcs_exit_sleep_mode env v =
      (env v.trace .mipi_dsi_dcs_exit_sleep_mode,
       v.logged [.mipi_dsi_dcs_exit_sleep_mode]) := fun _ => rfl
  rw [ili9881d_prepare_table_powered env ctx tbl w hp, runCalls_append,
    ← ili9881d_loop_eq_runCalls env ctx tbl w.afterReset hu]
  split
  · rfl
  · simp only [hsw, hte, hex, prepare_epilogue, runCalls, failedCall, decide_eq_true_eq]
    by_cases h1 : env (ili9881d_prepare_loop env ctx tbl w.afterReset).2.trace
        (.mipi_dsi_dcs_write_buffer [0xff, 0x98, 0x81, 0x00]) < 0
    · simp [h1, Int.ne_of_lt h1]
    · simp only [h1, if_false, ne_eq, not_true_eq_false]

theorem epilogue_isChannel : ∀ c ∈ prepare_epilogue, c.isChannel = true := by decide

theorem frames_isChannel (fs : List (List Nat)) (c : Action) (hc : c ∈ writes fs) :
    c.isChannel = true := by
  simp only [writes, List.mem_map] at hc
  obtain ⟨f, _, rfl⟩ := hc
  rfl

/-- C7, amended: a failed bus write in `prepare` is returned at once and
nothing is unwound.  In every run of `prepare`, of either driver, in which the
power supply came up: if any call made after the preamble (a table frame, the
page-0 frame, tear-on or exit-sleep) fails, it is the last call of the run and
`prepare` returns exactly its result, a non-zero error, with one more enable
held on the power supply than before the call, the reset line deasserted and
no power disable made; and whenever `prepare` returns a non-zero result, the
run ended on such a failed bus write, whose result it is. -/
theorem prepare_failure_leaves_power_on (env : Env) (w : World)
    (hpower : env w.trace Action.regulator_enable = 0) :
    (∀ (ctx : ili9881c) (pre post : List Action) (c : Action),
      (ili9881c_prepare env ctx w).2.trace = w.trace ++ prepare_preamble ++ pre ++ c :: post →
      ¬ succeeded c (env (w.trace ++ prepare_preamble ++ pre) c) →
      post = [] ∧
      (ili9881c_prepare env ctx w).1 = env (w.trace ++ prepare_preamble ++ pre) c ∧
      (ili9881c_prepare env ctx w).1 ≠ 0 ∧
      (ili9881c_prepare env ctx w).2.power = w.power + 1 ∧
      (ili9881c_prepare env ctx w).2.reset = 0 ∧
      Action.regulator_disable ∉ ((ili9881c_prepare env ctx w).2.trace).drop w.trace.length) ∧
    (∀ ctx : ili9881c, (ili9881c_prepare env ctx w).1 ≠ 0 →
      ∃ pre c,
        (ili9881c_prepare env ctx w).2.trace = w.trace ++ prepare_preamble ++ pre ++ [c] ∧
        c.isChannel = true ∧
        ¬ succeeded c (env (w.trace ++ prepare_preamble ++ pre) c) ∧
        (ili9881c_prepare env ctx w).1 = env (w.trace ++ prepare_preamble ++ pre) c) ∧
    (∀ (ctx : ili9881d) (pre post : List Action) (c : Action),
      (ili9881d_prepare env ctx w).2.trace = w.trace ++ prepare_preamble ++ pre ++ c :: post →
      ¬ succeeded c (env (w.trace ++ prepare_preamble ++ pre) c) →
      post = [] ∧
      (ili9881d_prepare env ctx w).1 = env (w.trace ++ prepare_preamble ++ pre) c ∧
      (ili9881d_prepare env ctx w).1 ≠ 0 ∧
      (ili9881d_prepare env ctx w).2.power = w.power + 1 ∧
      (ili9881d_prepare env ctx w).2.reset = 0 ∧
      Action.regulator_disable ∉ ((ili9881d_prepare env ctx w).2.trace).drop w.trace.length) ∧
    (∀ ctx : ili9881d, (ili9881d_prepare env ctx w).1 ≠ 0 →
      ∃ pre c,
        (ili9881d_prepare env ctx w).2.trace = w.trace ++ prepare_preamble ++ pre ++ [c] ∧
        c.isChannel = true ∧
        ¬ succeeded c (env (w.trace ++ prepare_preamble ++ pre) c) ∧
        (ili9881d_prepare env ctx w).1 = env (w.trace ++ prepare_preamble ++ pre) c) := by
  refine ⟨?_, ?_, ?_, ?_⟩
  · intro ctx pre post c htrace hfail
    have hrun := ili9881c_prepare_table_eq_runCalls env ctx ili9881c_init w
      ili9881c_init_isU8 hpower
    have hres := runCalls_failure_returned env
      (writes (ili9881c_init.map ili9881c_frame) ++ prepare_epilogue) w.afterReset pre post c
      (by rw [← hrun]; exact htrace) hfail
    have hval : (ili9881c_prepare env ctx w).1 = env (w.trace ++ prepare_preamble ++ pre) c := by
      show (ili9881c_prepare_table env ctx ili9881c_init w).1 = _
      rw [hrun]; exact hres.2
    obtain ⟨calls, hc, hall⟩ := ili9881c_prepare_table_shape env ctx ili9881c_init w hpower
    have h1 : (ili9881c_prepare env ctx w).2 = w.afterReset.logged calls := hc
    refine ⟨hres.1, hval, ?_, by rw [h1]; rfl, by rw [h1]; rfl, ?_⟩
    · rw [hval]
      exact failedCall_ne_zero c _ ((failedCall_iff _ _).mpr hfail)
    · rw [h1]
      show Action.regulator_disable ∉ ((w.trace ++ prepare_preamble) ++ calls).drop w.trace.length
      rw [List.append_assoc, List.drop_left]
      intro hmem
      rcases List.mem_append.mp hmem with h | h
      · revert h; decide
      · have := hall _ h
        simp [Action.isChannel] at this
  · intro ctx hne
    have hrun := ili9881c_prepare_table_eq_runCalls env ctx ili9881c_init w
      ili9881c_init_isU8 hpower
    have hne2 : (runCalls env (writes (ili9881c_init.map ili9881c_frame) ++ prepare_epilogue)
        w.afterReset).1 ≠ 0 := by rw [← hrun]; exact hne
    obtain ⟨pre, c, h1, hmem, h2, h3⟩ := runCalls_nonzero env _ _ hne2
    refine ⟨pre, c, ?_, ?_, h2, ?_⟩
    · show (ili9881c_prepare_table env ctx ili9881c_init w).2.trace = _
      rw [hrun]; exact h1
    · rcases List.mem_append.mp hmem with h | h
      · exact frames_isChannel _ c h
      · exact epilogue_isChannel c h
    · show (ili9881c_prepare_table env ctx ili9881c_init w).1 = _
      rw [hrun]; exact h3
  · intro ctx pre post c htrace hfail
    have hrun := ili9881d_prepare_table_eq_runCalls env ctx ili9881d_init w
      ili9881d_init_isU8 hpower
    have hres := runCalls_failure_returned env
      (writes (ili9881d_init.map ili9881d_frame) ++ prepare_epilogue) w.afterReset pre post c
      (by rw [← hrun]; exact htrace) hfail
    have hval : (ili9881d_prepare env ctx w).1 = env (w.trace ++ prepare_preamble ++ pre) c := by
      show (ili9881d_prepare_table env ctx ili9881d_init w).1 = _
      rw [hrun]; exact hres.2
    obtain ⟨calls, hc, hall⟩ := ili9881d_prepare_table_shape env ctx ili9881d_init w hpower
    have h1 : (ili9881d_prepare env ctx w).2 = w.afterReset.logged calls := hc
    refine ⟨hres.1, hval, ?_, by rw [h1]; rfl, by rw [h1]; rfl, ?_⟩
    · rw [hval]
      exact failedCall_ne_zero c _ ((failedCall_iff _ _).mpr hfail)
    · rw [h1]
      show Action.regulator_disable ∉ ((w.trace ++ prepare_preamble) ++ calls).drop w.trace.length
      rw [List.append_assoc, List.drop_left]
      intro hmem
      rcases List.mem_append.mp hmem with h | h
      · revert h; decide
      · have := hall _ h
        simp [Action.isChannel] at this
  · intro ctx hne
    have hrun := ili9881d_prepare_table_eq_runCalls env ctx ili9881d_init w
      ili9881d_init_isU8 hpower
    have hne2 : (runCalls env (writes (ili9881d_init.map ili9881d_frame) ++ prepare_epilogue)
        w.afterReset).1 ≠ 0 := by rw [← hrun]; exact hne
    obtain ⟨pre, c, h1, hmem, h2, h3⟩ := runCalls_nonzero env _ _ hne2
    refine ⟨pre, c, ?_, ?_, h2, ?_⟩
    · show (ili9881d_prepare_table env ctx ili9881d_init w).2.trace = _
      rw [hrun]; exact h1
    · rcases List.mem_append.mp hmem with h | h
      · exact frames_isChannel _ c h
      · exact epilogue_isChannel c h
    · show (ili9881d_prepare_table env ctx ili9881d_init w).1 = _
      rw [hrun]; exact h3

/-- Witness of the amended C7: after attach, on a channel that accepts the 201
table frames and the page-0 frame and fails the tear-on command with `-5`,
`ili9881c_prepare` returns `-5` with tear-on as its last call, one enable left
on the power supply and the reset line at `0`. -/
theorem prepare_failure_leaves_power_on_witness :
    (ili9881c_prepare (envFailAt 202 (-5)) ⟨true⟩ world0).2.trace =
      world0.trace ++ prepare_preamble ++
        (writes (ili9881c_init.map ili9881c_frame) ++
          [Action.mipi_dsi_dcs_write_buffer [0xFF, 0x98, 0x81, 0x00]]) ++
        [Action.mipi_dsi_dcs_set_tear_on .MIPI_DSI_DCS_TEAR_MODE_VBLANK] ∧
    (ili9881c_prepare (envFailAt 202 (-5)) ⟨true⟩ world0).1 = -5 ∧
    (ili9881c_prepare (envFailAt 202 (-5)) ⟨true⟩ world0).2.power = 0 + 1 ∧
    (ili9881c_prepare (envFailAt 202 (-5)) ⟨true⟩ world0).2.reset = 0 := by
  have htrace : (ili9881c_prepare (envFailAt 202 (-5)) ⟨true⟩ world0).2.trace =
      world0.trace ++ prepare_preamble ++
        (writes (ili9881c_init.map ili9881c_frame) ++
          [Action.mipi_dsi_dcs_write_buffer [0xFF, 0x98, 0x81, 0x00]]) ++
        Action.mipi_dsi_dcs_set_tear_on .MIPI_DSI_DCS_TEAR_MODE_VBLANK :: [] := rfl
  have henv : envFailAt 202 (-5) (world0.trace ++ prepare_preamble ++
        (writes (ili9881c_init.map ili9881c_frame) ++
          [Action.mipi_dsi_dcs_write_buffer [0xFF, 0x98, 0x81, 0x00]]))
      (Action.mipi_dsi_dcs_set_tear_on .MIPI_DSI_DCS_TEAR_MODE_VBLANK) = -5 := rfl
  have h := (prepare_failure_leaves_power_on (envFailAt 202 (-5)) world0 rfl).1 ⟨true⟩
    (writes (ili9881c_init.map ili9881c_frame) ++
      [Action.mipi_dsi_dcs_write_buffer [0xFF, 0x98, 0x81, 0x00]]) []
    (Action.mipi_dsi_dcs_set_tear_on .MIPI_DSI_DCS_TEAR_MODE_VBLANK) htrace
    (by rw [henv]; simp [succeeded])
  exact ⟨htrace, by rw [h.2.1, henv], h.2.2.2.1, h.2.2.2.2.1⟩

/-! ## Calls out of lifecycle order -/

/-- C8, refuted as stated: right after attach with `probeOk`, with no
`prepare` run, `ili9881c_enable` returns `0` rather than an error, writes the
display-on command on the channel and lights the backlight; `ili9881c_disable`
writes display-off; `ili9881c_unprepare` returns `0`, writes enter-sleep and
drives the reset line from `0` to `1`. -/
theorem lifecycle_calls_from_unpowered_not_rejected :
    (ili9881c_dsi_probe probeOk world0).2.2 = world0 ∧
    (ili9881c_enable envOk ⟨true⟩ world0).1 = 0 ∧
    (ili9881c_enable envOk ⟨true⟩ world0).2.trace =
      [Action.msleep 120, Action.mipi_dsi_dcs_set_display_on, Action.backlight_enable] ∧
    (ili9881c_enable envOk ⟨true⟩ world0).2.backlight ≠ world0.backlight ∧
    (ili9881c_disable envOk ⟨true⟩ world0).1 = 0 ∧
    (ili9881c_disable envOk ⟨true⟩ world0).2.trace =
      [Action.backlight_disable, Action.mipi_dsi_dcs_set_display_off] ∧
    (ili9881c_unprepare envOk ⟨true⟩ world0).1 = 0 ∧
    (ili9881c_unprepare envOk ⟨true⟩ world0).2.trace =
      [Action.mipi_dsi_dcs_enter_sleep_mode, Action.regulator_disable,
       Action.gpiod_set_value 1] ∧
    (ili9881c_unprepare envOk ⟨true⟩ world0).2.reset ≠ world0.reset := by
  decide

/-- C8, amended: the drivers keep no lifecycle state and reject nothing.  In
every state, the one right after attach included, and in both drivers:
`enable` returns `0` after a 120 ms sleep, the display-on command and the
backlight enable (when there is a backlight); `disable` returns the result of
the display-off command, which it writes after the backlight disable (when
there is a backlight); `unprepare` returns `0` after the enter-sleep command,
the power disable and driving the reset line to `1`. -/
theorem lifecycle_calls_run_in_any_state (env : Env) (w : World) :
    (∀ ctx : ili9881c,
      ((ili9881c_enable env ctx w).1 = 0 ∧
        (ili9881c_enable env ctx w).2.trace =
          w.trace ++ [Action.msleep 120, Action.mipi_dsi_dcs_set_display_on] ++
            (if ctx.backlight then [Action.backlight_enable] else [])) ∧
      ((ili9881c_disable env ctx w).1 =
          env (w.trace ++ (if ctx.backlight then [Action.backlight_disable] else []))
            Action.mipi_dsi_dcs_set_display_off ∧
        (ili9881c_disable env ctx w).2.trace =
          w.trace ++ (if ctx.backlight then [Action.backlight_disable] else []) ++
            [Action.mipi_dsi_dcs_set_display_off]) ∧
      ((ili9881c_unprepare env ctx w).1 = 0 ∧
        (ili9881c_unprepare env ctx w).2.trace =
          w.trace ++ [Action.mipi_dsi_dcs_enter_sleep_mode, Action.regulator_disable,
            Action.gpiod_set_value 1] ∧
        (ili9881c_unprepare env ctx w).2.reset = 1)) ∧
    (∀ ctx : ili9881d,
      ((ili9881d_enable env ctx w).1 = 0 ∧
        (ili9881d_enable env ctx w).2.trace =
          w.trace ++ [Action.msleep 120, Action.mipi_dsi_dcs_set_display_on] ++
            (if ctx.backlight then [Action.backlight_enable] else [])) ∧
      ((ili9881d_disable env ctx w).1 =
          env (w.trace ++ (if ctx.backlight then [Action.backlight_disable] else []))
            Action.mipi_dsi_dcs_set_display_off ∧
        (ili9881d_disable env ctx w).2.trace =
          w.trace ++ (if ctx.backlight then [Action.backlight_disable] else []) ++
            [Action.mipi_dsi_dcs_set_display_off]) ∧
      ((ili9881d_unprepare env ctx w).1 = 0 ∧
        (ili9881d_unprepare env ctx w).2.trace =
          w.trace ++ [Action.mipi_dsi_dcs_enter_sleep_mode, Action.regulator_disable,
            Action.gpiod_set_value 1] ∧
        (ili9881d_unprepare env ctx w).2.reset = 1)) := by
  constructor
  · intro ctx
    have hd := ili9881c_disable_eq env ctx w
    have hu := ili9881c_unprepare_eq env ctx w
    exact ⟨ili9881c_enable_eq env ctx w, ⟨hd.1, hd.2.1⟩, ⟨hu.1, hu.2.1, hu.2.2.1⟩⟩
  · intro ctx
    have hd := ili9881d_disable_eq env ctx w
    have hu := ili9881d_unprepare_eq env ctx w
    exact ⟨ili9881d_enable_eq env ctx w, ⟨hd.1, hd.2.1⟩, ⟨hu.1, hu.2.1, hu.2.2.1⟩⟩

/-! ## The round trip -/

/-- C9, refuted as stated: attached with `probeOk` and run on a channel where
everything succeeds, the round trip of the ili9881c driver returns four times
`0` and ends with the reset line at `1`, while attach left it at `0`: the final
power/reset state is not the initial one. -/
theorem round_trip_reset_differs_from_initial :
    (ili9881c_dsi_probe probeOk world0).2.2 = world0 ∧
    (ili9881c_round_trip envOk ⟨true⟩ world0).1 = [0, 0, 0, 0] ∧
    (ili9881c_round_trip envOk ⟨true⟩ world0).2.reset = 1 ∧
    world0.reset = 0 ∧
    ¬ ((ili9881c_round_trip envOk ⟨true⟩ world0).2.power = world0.power ∧
       (ili9881c_round_trip envOk ⟨true⟩ world0).2.reset = world0.reset) := by
  have h := ili9881c_round_trip_ok envOk ⟨true⟩ world0 envOk_allSucceed
  refine ⟨rfl, h.1, h.2.2, rfl, ?_⟩
  intro hc
  rw [h.2.2] at hc
  exact absurd hc.2 (by decide)

/-- C9, amended: started from the state a successful attach leaves (no
enable held on the power supply, reset line driven to `0` by
`GPIOD_OUT_LOW`) and with every operation succeeding, the round trip
`prepare`, `enable`, `disable`, `unprepare` returns four times `0` and ends
with the power supply disabled and the reset line asserted (`1`).  The final
power state equals the initial one; the final reset-line state does not: the
line is asserted at the end and was deasserted after attach. -/
theorem round_trip_ends_unpowered_reset_asserted (env : Env) (p : ProbeEnv) (w0 : World)
    (hok : AllSucceed env) :
    (∀ (ctx : ili9881c) (w : World), ili9881c_dsi_probe p w0 = (0, some ctx, w) →
      (ili9881c_round_trip env ctx w).1 = [0, 0, 0, 0] ∧
      (ili9881c_round_trip env ctx w).2.power = 0 ∧
      ¬ (ili9881c_round_trip env ctx w).2.powerEnabled ∧
      (ili9881c_round_trip env ctx w).2.reset = 1 ∧
      (ili9881c_round_trip env ctx w).2.resetAsserted ∧
      (ili9881c_round_trip env ctx w).2.power = w.power ∧
      w.reset = 0 ∧ ¬ w.resetAsserted) ∧
    (∀ (ctx : ili9881d) (w : World), ili9881d_dsi_probe p w0 = (0, some ctx, w) →
      (ili9881d_round_trip env ctx w).1 = [0, 0, 0, 0] ∧
      (ili9881d_round_trip env ctx w).2.power = 0 ∧
      ¬ (ili9881d_round_trip env ctx w).2.powerEnabled ∧
      (ili9881d_round_trip env ctx w).2.reset = 1 ∧
      (ili9881d_round_trip env ctx w).2.resetAsserted ∧
      (ili9881d_round_trip env ctx w).2.power = w.power ∧
      w.reset = 0 ∧ ¬ w.resetAsserted) := by
  constructor
  · intro ctx w hprobe
    obtain ⟨hw1, hw2⟩ := ili9881c_probe_state p w0 w ctx 0 hprobe
    obtain ⟨h1, h2, h3⟩ := ili9881c_round_trip_ok env ctx w hok
    refine ⟨h1, by rw [h2, hw1], ?_, h3, ?_, h2, hw2, ?_⟩
    · simp [World.powerEnabled, h2, hw1]
    · simp [World.resetAsserted, h3]
    · simp [World.resetAsserted, hw2]
  · intro ctx w hprobe
    obtain ⟨hw1, hw2⟩ := ili9881d_probe_state p w0 w ctx 0 hprobe
    obtain ⟨h1, h2, h3⟩ := ili9881d_round_trip_ok env ctx w hok
    refine ⟨h1, by rw [h2, hw1], ?_, h3, ?_, h2, hw2, ?_⟩
    · simp [World.powerEnabled, h2, hw1]
    · simp [World.resetAsserted, h3]
    · simp [World.resetAsserted, hw2]

/-- Witness of the amended C9: the ili9881d driver attached with `probeOk`,
from a world in which the supply held three enables and the reset line was
asserted, on a channel where everything succeeds. -/
theorem round_trip_ends_unpowered_reset_asserted_witness :
    (ili9881d_round_trip envOk ⟨true⟩ world0).1 = [0, 0, 0, 0] ∧
    (ili9881d_round_trip envOk ⟨true⟩ world0).2.power = 0 ∧
    (ili9881d_round_trip envOk ⟨true⟩ world0).2.reset = 1 :=
  have h := (round_trip_ends_unpowered_reset_asserted envOk probeOk
    { trace := [], power := 3, reset := 1, backlight := false } envOk_allSucceed).2
    ⟨true⟩ world0 rfl
  ⟨h.1, h.2.1, h.2.2.2.1⟩

/-! ## A `ili9881c_prepare` that returns `0` -/

/-- A loop that ran to its end left one frame per instruction. -/
theorem ili9881c_loop_zero (env : Env) (ctx : ili9881c) (tbl : List ili9881c_instr)
    (w : World) (hu : ∀ i ∈ tbl, i.isU8) (hz : (ili9881c_prepare_loop env ctx tbl w).1 = 0) :
    ili9881c_prepare_loop env ctx tbl w = (0, w.logged (writes (tbl.map ili9881c_frame))) := by
  induction tbl generalizing w with
  | nil => simp [ili9881c_prepare_loop, World.logged, writes]
  | cons x xs ih =>
    have hx : x.isU8 := hu x (List.mem_cons_self _ _)
    rw [ili9881c_loop_cons env ctx x xs w hx] at hz ⊢
    by_cases hneg : env w.trace (.mipi_dsi_dcs_write_buffer (ili9881c_frame x)) < 0
    · rw [if_pos hneg] at hz
      exact absurd hz (Int.ne_of_lt hneg)
    · rw [if_neg hneg] at hz ⊢
      rw [ih _ (fun i hi => hu i (List.mem_cons_of_mem _ hi)) hz]
      simp [World.logged, writes]

/-- A `prepare` that returns `0` found the power supply coming up. -/
theorem ili9881c_prepare_table_zero_powered (env : Env) (ctx : ili9881c)
    (tbl : List ili9881c_instr) (w : World)
    (hz : (ili9881c_prepare_table env ctx tbl w).1 = 0) :
    env w.trace .regulator_enable = 0 := by
  by_contra hne
  have hr : (regulator_enable env w).1 ≠ 0 := hne
  unfold ili9881c_prepare_table at hz
  simp only [hr, ne_eq, not_false_eq_true, if_true] at hz

/-- A `prepare` that returns `0` made the calls of the fully successful run:
preamble, table frames, epilogue. -/
theorem ili9881c_prepare_table_zero (env : Env) (ctx : ili9881c)
    (tbl : List ili9881c_instr) (w : World) (hu : ∀ i ∈ tbl, i.isU8)
    (hz : (ili9881c_prepare_table env ctx tbl w).1 = 0) :
    ili9881c_prepare_table env ctx tbl w =
      (0, w.afterReset.logged (writes (tbl.map ili9881c_frame) ++ prepare_epilogue)) := by
  have hp := ili9881c_prepare_table_zero_powered env ctx tbl w hz
  rw [ili9881c_prepare_table_powered env ctx tbl w hp] at hz ⊢
  by_cases h1 : (ili9881c_prepare_loop env ctx tbl w.afterReset).1 ≠ 0
  · rw [if_pos h1] at hz
    exact absurd hz h1
  · rw [if_neg h1] at hz ⊢
    have hloop := ili9881c_loop_zero env ctx tbl w.afterReset hu (not_not.mp h1)
    by_cases h2 : (ili9881c_switch_page env ctx 0
        (ili9881c_prepare_loop env ctx tbl w.afterReset).2).1 ≠ 0
    · rw [if_pos h2] at hz
      exact absurd hz h2
    · rw [if_neg h2] at hz ⊢
      by_cases h3 : (mipi_dsi_dcs_set_tear_on env .MIPI_DSI_DCS_TEAR_MODE_VBLANK
          (ili9881c_switch_page env ctx 0
            (ili9881c_prepare_loop env ctx tbl w.afterReset).2).2).1 ≠ 0
      · rw [if_pos h3] at hz
        exact absurd hz h3
      · rw [if_neg h3] at hz ⊢
        by_cases h4 : (mipi_dsi_dcs_exit_sleep_mode env
            (mipi_dsi_dcs_set_tear_on env .MIPI_DSI_DCS_TEAR_MODE_VBLANK
              (ili9881c_switch_page env ctx 0
                (ili9881c_prepare_loop env ctx tbl w.afterReset).2).2).2).1 ≠ 0
        · rw [if_pos h4] at hz
          exact absurd hz h4
        · rw [if_neg h4, hloop, ili9881c_switch_page_eq]
          simp [mipi_dsi_dcs_set_tear_on, mipi_dsi_dcs_exit_sleep_mode, call, World.effect,
            World.logged, prepare_epilogue]

/-! ## A `ili9881d_prepare` that returns `0` -/

/-- A loop that ran to its end left one frame per instruction. -/
theorem ili9881d_loop_zero (env : Env) (ctx : ili9881d) (tbl : List ili9881d_instr)
    (w : World) (hu : ∀ i ∈ tbl, i.isU8) (hz : (ili9881d_prepare_loop env ctx tbl w).1 = 0) :
    ili9881d_prepare_loop env ctx tbl w = (0, w.logged (writes (tbl.map ili9881d_frame))) := by
  induction tbl generalizing w with
  | nil => simp [ili9881d_prepare_loop, World.logged, writes]
  | cons x xs ih =>
    have hx : x.isU8 := hu x (List.mem_cons_self _ _)
    rw [ili9881d_loop_cons env ctx x xs w hx] at hz ⊢
    by_cases hneg : env w.trace (.mipi_dsi_dcs_write_buffer (ili9881d_frame x)) < 0
    · rw [if_pos hneg] at hz
      exact absurd hz (Int.ne_of_lt hneg)
    · rw [if_neg hneg] at hz ⊢
      rw [ih _ (fun i hi => hu i (List.mem_cons_of_mem _ hi)) hz]
      simp [World.logged, writes]

/-- A `prepare` that returns `0` found the power supply coming up. -/
theorem ili9881d_prepare_table_zero_powered (env : Env) (ctx : ili9881d)
    (tbl : List ili9881d_instr) (w : World)
    (hz : (ili9881d_prepare_table env ctx tbl w).1 = 0) :
    env w.trace .regulator_enable = 0 := by
  by_contra hne
  have hr : (regulator_enable env w).1 ≠ 0 := hne
  unfold ili9881d_prepare_table at hz
  simp only [hr, ne_eq, not_false_eq_true, if_true] at hz

/-- A `prepare` that returns `0` made the calls of the fully successful run:
preamble, table frames, epilogue. -/
theorem ili9881d_prepare_table_zero (env : Env) (ctx : ili9881d)
    (tbl : List ili9881d_instr) (w : World) (hu : ∀ i ∈ tbl, i.isU8)
    (hz : (ili9881d_prepare_table env ctx tbl w).1 = 0) :
    ili9881d_prepare_table env ctx tbl w =
      (0, w.afterReset.logged (writes (tbl.map ili9881d_frame) ++ prepare_epilogue)) := by
  have hp := ili9881d_prepare_table_zero_powered env ctx tbl w hz
  rw [ili9881d_prepare_table_powered env ctx tbl w hp] at hz ⊢
  by_cases h1 : (ili9881d_prepare_loop env ctx tbl w.afterReset).1 ≠ 0
  · rw [if_pos h1] at hz
    exact absurd hz h1
  · rw [if_neg h1] at hz ⊢
    have hloop := ili9881d_loop_zero env ctx tbl w.afterReset hu (not_not.mp h1)
    by_cases h2 : (ili9881d_switch_page env ctx 0
        (ili9881d_prepare_loop env ctx tbl w.afterReset).2).1 ≠ 0
    · rw [if_pos h2] at hz
      exact absurd hz h2
    · rw [if_neg h2] at hz ⊢
      by_cases h3 : (mipi_dsi_dcs_set_tear_on env .MIPI_DSI_DCS_TEAR_MODE_VBLANK
          (ili9881d_switch_page env ctx 0
            (ili9881d_prepare_loop env ctx tbl w.afterReset).2).2).1 ≠ 0
      · rw [if_pos h3] at hz
        exact absurd hz h3
      · rw [if_neg h3] at hz ⊢
        by_cases h4 : (mipi_dsi_dcs_exit_sleep_mode env
            (mipi_dsi_dcs_set_tear_on env .MIPI_DSI_DCS_TEAR_MODE_VBLANK
              (ili9881d_switch_page env ctx 0
                (ili9881d_prepare_loop env ctx tbl w.afterReset).2).2).2).1 ≠ 0
        · rw [if_pos h4] at hz
          exact absurd hz h4
        · rw [if_neg h4, hloop, ili9881d_switch_page_eq]
          simp [mipi_dsi_dcs_set_tear_on, mipi_dsi_dcs_exit_sleep_mode, call, World.effect,
            World.logged, prepare_epilogue]

/-! ## Results that are dropped: enable and unprepare -/

/-- C11, evaluated on the code: on a channel whose next command fails with
`-5`, the display-on command of `enable` fails and `enable` returns `0`, and the
enter-sleep command of `unprepare` fails and `unprepare` returns `0`, in both
drivers; the failure does not reach the caller. -/
theorem enable_unprepare_drop_channel_failure :
    envFailAt 0 (-5) [Action.msleep 120] Action.mipi_dsi_dcs_set_display_on = -5 ∧
    (ili9881c_enable (envFailAt 0 (-5)) ⟨true⟩ world0).1 = 0 ∧
    (ili9881d_enable (envFailAt 0 (-5)) ⟨true⟩ world0).1 = 0 ∧
    (ili9881c_enable (envFailAt 0 (-5)) ⟨true⟩ world0).2.trace =
      [Action.msleep 120, Action.mipi_dsi_dcs_set_display_on, Action.backlight_enable] ∧
    envFailAt 0 (-5) [] Action.mipi_dsi_dcs_enter_sleep_mode = -5 ∧
    (ili9881c_unprepare (envFailAt 0 (-5)) ⟨true⟩ world0).1 = 0 ∧
    (ili9881d_unprepare (envFailAt 0 (-5)) ⟨true⟩ world0).1 = 0 ∧
    (ili9881c_unprepare (envFailAt 0 (-5)) ⟨true⟩ world0).2.trace =
      [Action.mipi_dsi_dcs_enter_sleep_mode, Action.regulator_disable,
       Action.gpiod_set_value 1] := by
  decide

/-! ## The lifecycle: disable and unprepare -/

/-- C12: in every run of `disable`, of either driver and whatever the calls
return, the calls made are, in order, the backlight disable (when the context
has a backlight) and the display-off command, and `disable` returns exactly
what the display-off command returned, so `0` exactly when that command
returned `0`. -/
theorem disable_trace_and_result (env : Env) (w : World) :
    (∀ ctx : ili9881c,
      (ili9881c_disable env ctx w).2.trace =
        w.trace ++ (if ctx.backlight then [Action.backlight_disable] else []) ++
          [Action.mipi_dsi_dcs_set_display_off] ∧
      (ili9881c_disable env ctx w).1 =
        env (w.trace ++ (if ctx.backlight then [Action.backlight_disable] else []))
          Action.mipi_dsi_dcs_set_display_off ∧
      ((ili9881c_disable env ctx w).1 = 0 ↔
        env (w.trace ++ (if ctx.backlight then [Action.backlight_disable] else []))
          Action.mipi_dsi_dcs_set_display_off = 0)) ∧
    (∀ ctx : ili9881d,
      (ili9881d_disable env ctx w).2.trace =
        w.trace ++ (if ctx.backlight then [Action.backlight_disable] else []) ++
          [Action.mipi_dsi_dcs_set_display_off] ∧
      (ili9881d_disable env ctx w).1 =
        env (w.trace ++ (if ctx.backlight then [Action.backlight_disable] else []))
          Action.mipi_dsi_dcs_set_display_off ∧
      ((ili9881d_disable env ctx w).1 = 0 ↔
        env (w.trace ++ (if ctx.backlight then [Action.backlight_disable] else []))
          Action.mipi_dsi_dcs_set_display_off = 0)) := by
  constructor
  · intro ctx
    have h := ili9881c_disable_eq env ctx w
    exact ⟨h.2.1, h.1, by rw [h.1]⟩
  · intro ctx
    have h := ili9881d_disable_eq env ctx w
    exact ⟨h.2.1, h.1, by rw [h.1]⟩

/-- C13: in every run of `unprepare`, of either driver and whatever the calls
return, the calls made are exactly, in order: the enter-sleep command, the
power disable, and driving the reset line to `1`.  None of them is a buffer
write, so no table frame and no page-select frame is sent. -/
theorem unprepare_trace (env : Env) (w : World) :
    (∀ ctx : ili9881c,
      (ili9881c_unprepare env ctx w).2.trace =
        w.trace ++ [Action.mipi_dsi_dcs_enter_sleep_mode, Action.regulator_disable,
          Action.gpiod_set_value 1]) ∧
    (∀ ctx : ili9881d,
      (ili9881d_unprepare env ctx w).2.trace =
        w.trace ++ [Action.mipi_dsi_dcs_enter_sleep_mode, Action.regulator_disable,
          Action.gpiod_set_value 1]) ∧
    (∀ a ∈ [Action.mipi_dsi_dcs_enter_sleep_mode, Action.regulator_disable,
          Action.gpiod_set_value 1],
      a.isPageSelect = false ∧ ∀ buf, a ≠ Action.mipi_dsi_dcs_write_buffer buf) := by
  refine ⟨fun ctx => (ili9881c_unprepare_eq env ctx w).2.1,
    fun ctx => (ili9881d_unprepare_eq env ctx w).2.1, ?_⟩
  intro a ha
  simp only [List.mem_cons, List.mem_singleton, List.not_mem_nil, or_false] at ha
  rcases ha with h | h | h <;> subst h <;> exact ⟨rfl, fun buf hb => by cases hb⟩

/-! ## The addressed page after prepare and enable -/

/-- C14: when `prepare` returns `0` and `enable` follows, the calls made are
the preamble, the table frames, the page-0 frame `ff 98 81 00`, and then tear-on,
exit-sleep, the 120 ms sleep, display-on and the backlight enable (when there
is a backlight).  Nothing after the page-0 frame is a page-select frame, so it
is the last page-select frame written and tear-on, exit-sleep and display-on
are all written after it with no page-select frame in between. -/
theorem prepare_enable_ends_on_page_zero (env : Env) (w : World) :
    (∀ ctx : ili9881c, (ili9881c_prepare env ctx w).1 = 0 →
      (ili9881c_enable env ctx (ili9881c_prepare env ctx w).2).2.trace =
        w.trace ++ prepare_preamble ++ writes (ili9881c_init.map ili9881c_frame) ++
          [Action.mipi_dsi_dcs_write_buffer [0xFF, 0x98, 0x81, 0x00]] ++
          ([Action.mipi_dsi_dcs_set_tear_on .MIPI_DSI_DCS_TEAR_MODE_VBLANK,
            Action.mipi_dsi_dcs_exit_sleep_mode, Action.msleep 120,
            Action.mipi_dsi_dcs_set_display_on] ++
            (if ctx.backlight then [Action.backlight_enable] else []))) ∧
    (∀ ctx : ili9881d, (ili9881d_prepare env ctx w).1 = 0 →
      (ili9881d_enable env ctx (ili9881d_prepare env ctx w).2).2.trace =
        w.trace ++ prepare_preamble ++ writes (ili9881d_init.map ili9881d_frame) ++
          [Action.mipi_dsi_dcs_write_buffer [0xFF, 0x98, 0x81, 0x00]] ++
          ([Action.mipi_dsi_dcs_set_tear_on .MIPI_DSI_DCS_TEAR_MODE_VBLANK,
            Action.mipi_dsi_dcs_exit_sleep_mode, Action.msleep 120,
            Action.mipi_dsi_dcs_set_display_on] ++
            (if ctx.backlight then [Action.backlight_enable] else []))) ∧
    (Action.mipi_dsi_dcs_write_buffer [0xFF, 0x98, 0x81, 0x00]).isPageSelect = true ∧
    (∀ (bl : Bool), ∀ a ∈ [Action.mipi_dsi_dcs_set_tear_on .MIPI_DSI_DCS_TEAR_MODE_VBLANK,
            Action.mipi_dsi_dcs_exit_sleep_mode, Action.msleep 120,
            Action.mipi_dsi_dcs_set_display_on] ++
            (if bl then [Action.backlight_enable] else []),
      a.isPageSelect = false) := by
  refine ⟨?_, ?_, by decide, by decide⟩
  · intro ctx hz
    have h := ili9881c_prepare_table_zero env ctx ili9881c_init w ili9881c_init_isU8 hz
    rw [(ili9881c_enable_eq env ctx _).2]
    unfold ili9881c_prepare
    rw [h]
    simp [World.logged, World.afterReset, prepare_epilogue]
  · intro ctx hz
    have h := ili9881d_prepare_table_zero env ctx ili9881d_init w ili9881d_init_isU8 hz
    rw [(ili9881d_enable_eq env ctx _).2]
    unfold ili9881d_prepare
    rw [h]
    simp [World.logged, World.afterReset, prepare_epilogue]

/-- Witness of C14: the ili9881c driver from the state after attach, on a
channel where everything succeeds: `prepare` returns `0` and the last five
calls of `prepare` then `enable` are tear-on, exit-sleep, the sleep,
display-on and the backlight enable, right after the page-0 frame. -/
theorem prepare_enable_ends_on_page_zero_witness :
    (ili9881c_prepare envOk ⟨true⟩ world0).1 = 0 ∧
    ((ili9881c_enable envOk ⟨true⟩ (ili9881c_prepare envOk ⟨true⟩ world0).2).2.trace).drop
        (6 + 201) =
      [Action.mipi_dsi_dcs_write_buffer [0xFF, 0x98, 0x81, 0x00],
       Action.mipi_dsi_dcs_set_tear_on .MIPI_DSI_DCS_TEAR_MODE_VBLANK,
       Action.mipi_dsi_dcs_exit_sleep_mode, Action.msleep 120,
       Action.mipi_dsi_dcs_set_display_on, Action.backlight_enable] := by
  have hz : (ili9881c_prepare envOk ⟨true⟩ world0).1 = 0 := by
    unfold ili9881c_prepare
    rw [ili9881c_prepare_table_ok envOk ⟨true⟩ ili9881c_init world0 ili9881c_init_isU8
      envOk_allSucceed]
  have h := (prepare_enable_ends_on_page_zero envOk world0).1 ⟨true⟩ hz
  refine ⟨hz, ?_⟩
  rw [h]
  rfl

/-! ## Power failure at the start of prepare -/

/-- C19: if enabling the power supply fails at the start of `prepare`, with
the non-zero result `e`, then `prepare` returns `e` and the failed power enable
is the only call it made: no sleep, no reset-line write, no channel write;
power, reset and backlight are as before. -/
theorem prepare_power_failure_is_returned (env : Env) (w : World) (e : Int)
    (hfail : env w.trace Action.regulator_enable = e) (he : e ≠ 0) :
    (∀ ctx : ili9881c,
      (ili9881c_prepare env ctx w).1 = e ∧
      (ili9881c_prepare env ctx w).2 = w.logged [Action.regulator_enable]) ∧
    (∀ ctx : ili9881d,
      (ili9881d_prepare env ctx w).1 = e ∧
      (ili9881d_prepare env ctx w).2 = w.logged [Action.regulator_enable]) := by
  have hr : (regulator_enable env w).1 ≠ 0 := by
    show env w.trace Action.regulator_enable ≠ 0
    rw [hfail]; exact he
  have hw : (regulator_enable env w).2 = w.logged [Action.regulator_enable] := by
    simp [regulator_enable, call, World.effect, World.logged, hfail, he]
  constructor
  · intro ctx
    unfold ili9881c_prepare ili9881c_prepare_table
    simp only [hr, ne_eq, not_false_eq_true, if_true, hw]
    exact ⟨hfail, trivial⟩
  · intro ctx
    unfold ili9881d_prepare ili9881d_prepare_table
    simp only [hr, ne_eq, not_false_eq_true, if_true, hw]
    exact ⟨hfail, trivial⟩

/-- Witness of C19: the power enable fails with `-22` and every other call
would return `0`; `ili9881d_prepare` returns `-22` after that one call. -/
theorem prepare_power_failure_is_returned_witness :
    (ili9881d_prepare (fun _ a => if a = Action.regulator_enable then -22 else 0)
        ⟨true⟩ world0).1 = -22 ∧
    (ili9881d_prepare (fun _ a => if a = Action.regulator_enable then -22 else 0)
        ⟨true⟩ world0).2.trace = [Action.regulator_enable] :=
  have h := (prepare_power_failure_is_returned
    (fun _ a => if a = Action.regulator_enable then -22 else 0) world0 (-22) rfl
    (by decide)).2 ⟨true⟩
  ⟨h.1, by rw [h.2]; rfl⟩

/-! ## The mode query -/

/-- C15: `get_modes`, with the mode duplication succeeding, is a repeatable
query.  Called twice in a row, in any state of the collaborators, it returns
`1` both times, appends to the connector's probed modes the same mode both
times (the driver's `bananapi_default_mode` with its name set and its type
`DRIVER | PREFERRED`), leaves the physical size at 62 mm by 110 mm both times,
and hands the collaborators back untouched: no power, reset, backlight or
channel call is made. -/
theorem get_modes_repeatable (connector : drm_connector) (w : World) :
    (∀ ctx : ili9881c,
      ili9881c_get_modes true ctx connector w =
        (1, { probed_modes := connector.probed_modes ++
                [{ ili9881c_bananapi_default_mode with
                    name := "720x1280"
                    type := DRM_MODE_TYPE_DRIVER ||| DRM_MODE_TYPE_PREFERRED }],
              width_mm := 62, height_mm := 110 }, w) ∧
      ili9881c_get_modes true ctx (ili9881c_get_modes true ctx connector w).2.1
          (ili9881c_get_modes true ctx connector w).2.2 =
        (1, { probed_modes := connector.probed_modes ++
                [{ ili9881c_bananapi_default_mode with
                    name := "720x1280"
                    type := DRM_MODE_TYPE_DRIVER ||| DRM_MODE_TYPE_PREFERRED },
                 { ili9881c_bananapi_default_mode with
                    name := "720x1280"
                    type := DRM_MODE_TYPE_DRIVER ||| DRM_MODE_TYPE_PREFERRED }],
              width_mm := 62, height_mm := 110 }, w)) ∧
    (∀ ctx : ili9881d,
      ili9881d_get_modes true ctx connector w =
        (1, { probed_modes := connector.probed_modes ++
                [{ ili9881d_bananapi_default_mode with
                    name := "720x1280"
                    type := DRM_MODE_TYPE_DRIVER ||| DRM_MODE_TYPE_PREFERRED }],
              width_mm := 62, height_mm := 110 }, w) ∧
      ili9881d_get_modes true ctx (ili9881d_get_modes true ctx connector w).2.1
          (ili9881d_get_modes true ctx connector w).2.2 =
        (1, { probed_modes := connector.probed_modes ++
                [{ ili9881d_bananapi_default_mode with
                    name := "720x1280"
                    type := DRM_MODE_TYPE_DRIVER ||| DRM_MODE_TYPE_PREFERRED },
                 { ili9881d_bananapi_default_mode with
                    name := "720x1280"
                    type := DRM_MODE_TYPE_DRIVER ||| DRM_MODE_TYPE_PREFERRED }],
              width_mm := 62, height_mm := 110 }, w)) := by
  constructor
  · intro ctx
    have hgen : ∀ (c : drm_connector) (v : World), ili9881c_get_modes true ctx c v =
        (1, { probed_modes := c.probed_modes ++
                [{ ili9881c_bananapi_default_mode with
                    name := "720x1280"
                    type := DRM_MODE_TYPE_DRIVER ||| DRM_MODE_TYPE_PREFERRED }],
              width_mm := 62, height_mm := 110 }, v) := fun _ _ => rfl
    refine ⟨hgen connector w, ?_⟩
    rw [hgen connector w, hgen]
    simp only [List.append_assoc, List.singleton_append]
  · intro ctx
    have hgen : ∀ (c : drm_connector) (v : World), ili9881d_get_modes true ctx c v =
        (1, { probed_modes := c.probed_modes ++
                [{ ili9881d_bananapi_default_mode with
                    name := "720x1280"
                    type := DRM_MODE_TYPE_DRIVER ||| DRM_MODE_TYPE_PREFERRED }],
              width_mm := 62, height_mm := 110 }, v) := fun _ _ => rfl
    refine ⟨hgen connector w, ?_⟩
    rw [hgen connector w, hgen]
    simp only [List.append_assoc, List.singleton_append]

/-! ## The optional backlight -/

/-- C16: a device tree without a backlight node gives, by a successful probe,
a context with no backlight handle.  With such a context, in both drivers and
whatever the calls return, `enable` makes the 120 ms sleep and the display-on
command and returns `0`, `disable` makes the display-off command and returns
its result, and no backlight call is made by either. -/
theorem backlight_absent_is_skipped (env : Env) (w : World) :
    ili9881c_dsi_probe probeNoBacklight world0 = (0, some ⟨false⟩, world0) ∧
    ili9881d_dsi_probe probeNoBacklight world0 = (0, some ⟨false⟩, world0) ∧
    (∀ ctx : ili9881c, ctx.backlight = false →
      (ili9881c_enable env ctx w).1 = 0 ∧
      (ili9881c_enable env ctx w).2.trace =
        w.trace ++ [Action.msleep 120, Action.mipi_dsi_dcs_set_display_on] ∧
      (ili9881c_disable env ctx w).1 = env w.trace Action.mipi_dsi_dcs_set_display_off ∧
      (ili9881c_disable env ctx w).2.trace =
        w.trace ++ [Action.mipi_dsi_dcs_set_display_off]) ∧
    (∀ ctx : ili9881d, ctx.backlight = false →
      (ili9881d_enable env ctx w).1 = 0 ∧
      (ili9881d_enable env ctx w).2.trace =
        w.trace ++ [Action.msleep 120, Action.mipi_dsi_dcs_set_display_on] ∧
      (ili9881d_disable env ctx w).1 = env w.trace Action.mipi_dsi_dcs_set_display_off ∧
      (ili9881d_disable env ctx w).2.trace =
        w.trace ++ [Action.mipi_dsi_dcs_set_display_off]) ∧
    Action.backlight_enable ∉ [Action.msleep 120, Action.mipi_dsi_dcs_set_display_on] ∧
    Action.backlight_disable ∉ [Action.mipi_dsi_dcs_set_display_off] := by
  refine ⟨rfl, rfl, ?_, ?_, by decide, by decide⟩
  · intro ctx hb
    have he := ili9881c_enable_eq env ctx w
    have hd := ili9881c_disable_eq env ctx w
    rw [hb] at he hd
    simp only [Bool.false_eq_true, if_false, List.append_nil] at he hd
    exact ⟨he.1, he.2, hd.1, hd.2.1⟩
  · intro ctx hb
    have he := ili9881d_enable_eq env ctx w
    have hd := ili9881d_disable_eq env ctx w
    rw [hb] at he hd
    simp only [Bool.false_eq_true, if_false, List.append_nil] at he hd
    exact ⟨he.1, he.2, hd.1, hd.2.1⟩

/-- Witness of C16: with no backlight handle and a display-off command that
fails with `-5`, `ili9881c_disable` returns `-5` after that one call. -/
theorem backlight_absent_is_skipped_witness :
    (ili9881c_disable (envFailAt 0 (-5)) ⟨false⟩ world0).1 = -5 ∧
    (ili9881c_disable (envFailAt 0 (-5)) ⟨false⟩ world0).2.trace =
      [Action.mipi_dsi_dcs_set_display_off] :=
  have h := (backlight_absent_is_skipped (envFailAt 0 (-5)) world0).2.2.1 ⟨false⟩ rfl
  ⟨h.2.2.1, h.2.2.2⟩

/-! ## The shipped tables and the validation contract -/

theorem ili9881c_validate_precedes (tbl : List ili9881c_instr)
    (hv : ili9881c_validate tbl = true) :
    tbl ≠ [] ∧ (∃ page, tbl.head? = some (.ILI9881C_SWITCH_PAGE page)) ∧
    ∀ (i : Nat) (instr : ili9881c_instr), tbl[i]? = some instr → instr.isSwitchPage = false →
      ∃ (j : Nat) (s : ili9881c_instr), j < i ∧ tbl[j]? = some s ∧ s.isSwitchPage = true := by
  cases tbl with
  | nil => simp [ili9881c_validate] at hv
  | cons x xs =>
    cases x with
    | ILI9881C_COMMAND cmd data => simp [ili9881c_validate] at hv
    | ILI9881C_SWITCH_PAGE page =>
      refine ⟨by simp, ⟨page, rfl⟩, ?_⟩
      intro i instr hi hns
      cases i with
      | zero =>
        simp at hi
        subst hi
        simp [ili9881c_instr.isSwitchPage] at hns
      | succ n => exact ⟨0, .ILI9881C_SWITCH_PAGE page, Nat.succ_pos n, by simp, rfl⟩

theorem ili9881d_validate_precedes (tbl : List ili9881d_instr)
    (hv : ili9881d_validate tbl = true) :
    tbl ≠ [] ∧ (∃ page, tbl.head? = some (.ILI9881D_SWITCH_PAGE page)) ∧
    ∀ (i : Nat) (instr : ili9881d_instr), tbl[i]? = some instr → instr.isSwitchPage = false →
      ∃ (j : Nat) (s : ili9881d_instr), j < i ∧ tbl[j]? = some s ∧ s.isSwitchPage = true := by
  cases tbl with
  | nil => simp [ili9881d_validate] at hv
  | cons x xs =>
    cases x with
    | ILI9881D_COMMAND cmd data => simp [ili9881d_validate] at hv
    | ILI9881D_SWITCH_PAGE page =>
      refine ⟨by simp, ⟨page, rfl⟩, ?_⟩
      intro i instr hi hns
      cases i with
      | zero =>
        simp at hi
        subst hi
        simp [ili9881d_instr.isSwitchPage] at hns
      | succ n => exact ⟨0, .ILI9881D_SWITCH_PAGE page, Nat.succ_pos n, by simp, rfl⟩

/-- C17: both shipped tables pass the validation contract: `ili9881c_init`
and `ili9881d_init` are non-empty and start with the page switch to page 3,
and so every register write in them has a page switch at an earlier
position. -/
theorem shipped_tables_validate :
    (ili9881c_validate ili9881c_init = true ∧
      ili9881c_init ≠ [] ∧
      ili9881c_init.head? = some (.ILI9881C_SWITCH_PAGE 3) ∧
      ∀ (i : Nat) (instr : ili9881c_instr), ili9881c_init[i]? = some instr → instr.isSwitchPage = false →
        ∃ (j : Nat) (s : ili9881c_instr), j < i ∧ ili9881c_init[j]? = some s ∧ s.isSwitchPage = true) ∧
    (ili9881d_validate ili9881d_init = true ∧
      ili9881d_init ≠ [] ∧
      ili9881d_init.head? = some (.ILI9881D_SWITCH_PAGE 3) ∧
      ∀ (i : Nat) (instr : ili9881d_instr), ili9881d_init[i]? = some instr → instr.isSwitchPage = false →
        ∃ (j : Nat) (s : ili9881d_instr), j < i ∧ ili9881d_init[j]? = some s ∧ s.isSwitchPage = true) := by
  have hc : ili9881c_validate ili9881c_init = true := rfl
  have hd : ili9881d_validate ili9881d_init = true := rfl
  have pc := ili9881c_validate_precedes ili9881c_init hc
  have pd := ili9881d_validate_precedes ili9881d_init hd
  exact ⟨⟨hc, pc.1, rfl, pc.2.2⟩, ⟨hd, pd.1, rfl, pd.2.2⟩⟩

/-! ## The two drivers as one engine -/

theorem prepare_loop_toD (env : Env) (ctx : ili9881c) (tbl : List ili9881c_instr)
    (w : World) :
    ili9881c_prepare_loop env ctx tbl w =
      ili9881d_prepare_loop env ctx.toD (tbl.map ili9881c_instr.toD) w := by
  induction tbl generalizing w with
  | nil => rfl
  | cons x xs ih =>
    cases x with
    | ILI9881C_SWITCH_PAGE page =>
      simp only [List.map_cons, ili9881c_instr.toD, ili9881c_prepare_loop,
        ili9881d_prepare_loop, ili9881c_switch_page_eq, ili9881d_switch_page_eq, ih]
    | ILI9881C_COMMAND cmd data =>
      simp only [List.map_cons, ili9881c_instr.toD, ili9881c_prepare_loop,
        ili9881d_prepare_loop, ili9881c_send_cmd_data_eq, ili9881d_send_cmd_data_eq, ih]

theorem toD_surjective (t : List ili9881d_instr) :
    ∃ s : List ili9881c_instr, s.map ili9881c_instr.toD = t := by
  induction t with
  | nil => exact ⟨[], rfl⟩
  | cons x xs ih =>
    obtain ⟨s, hs⟩ := ih
    cases x with
    | ILI9881D_SWITCH_PAGE page => exact ⟨.ILI9881C_SWITCH_PAGE page :: s, by simp [hs, ili9881c_instr.toD]⟩
    | ILI9881D_COMMAND cmd data => exact ⟨.ILI9881C_COMMAND cmd data :: s, by simp [hs, ili9881c_instr.toD]⟩

/-- C18: the two drivers are one engine with the table as its parameter.  For
every table, every environment (every behaviour of power supply, reset line,
backlight and channel) and every starting world, `prepare`, `enable`,
`disable` and `unprepare` of the ili9881c driver return the same value and
leave the same world, trace included, as those of the ili9881d driver run
over the same table with the same handles; every ili9881d table is such a
table. -/
theorem drivers_are_one_engine (env : Env) (w : World) (ctx : ili9881c) :
    (∀ tbl : List ili9881c_instr,
      ili9881c_prepare_table env ctx tbl w =
        ili9881d_prepare_table env ctx.toD (tbl.map ili9881c_instr.toD) w) ∧
    ili9881c_enable env ctx w = ili9881d_enable env ctx.toD w ∧
    ili9881c_disable env ctx w = ili9881d_disable env ctx.toD w ∧
    ili9881c_unprepare env ctx w = ili9881d_unprepare env ctx.toD w ∧
    (∀ t : List ili9881d_instr, ∃ s : List ili9881c_instr, s.map ili9881c_instr.toD = t) := by
  refine ⟨?_, rfl, rfl, rfl, toD_surjective⟩
  intro tbl
  unfold ili9881c_prepare_table ili9881d_prepare_table
  simp only [prepare_loop_toD, ili9881c_switch_page_eq, ili9881d_switch_page_eq]

/-! ## No unwind in prepare -/

theorem count_eq_zero_of_channel (calls : List Action) (a : Action)
    (hall : ∀ c ∈ calls, c.isChannel = true) (ha : a.isChannel = false) :
    calls.count a = 0 := by
  rw [List.count_eq_zero]
  intro hmem
  have := hall a hmem
  rw [ha] at this
  cases this

theorem writes_isChannel (fs : List (List Nat)) : ∀ c ∈ writes fs, c.isChannel = true := by
  intro c hc
  simp only [writes, List.mem_map] at hc
  obtain ⟨f, _, rfl⟩ := hc
  rfl

/-- The calls of failed prepare, successful prepare, unprepare: two power
enables, one power disable. -/
theorem retry_counts (calls frames : List Action)
    (h1 : ∀ c ∈ calls, c.isChannel = true) (h2 : ∀ c ∈ frames, c.isChannel = true) :
    (prepare_preamble ++ calls ++ (prepare_preamble ++ (frames ++ prepare_epilogue)) ++
        [Action.mipi_dsi_dcs_enter_sleep_mode, Action.regulator_disable,
          Action.gpiod_set_value 1]).count Action.regulator_enable = 2 ∧
    (prepare_preamble ++ calls ++ (prepare_preamble ++ (frames ++ prepare_epilogue)) ++
        [Action.mipi_dsi_dcs_enter_sleep_mode, Action.regulator_disable,
          Action.gpiod_set_value 1]).count Action.regulator_disable = 1 := by
  have c1 := count_eq_zero_of_channel calls .regulator_enable h1 rfl
  have c2 := count_eq_zero_of_channel calls .regulator_disable h1 rfl
  have f1 := count_eq_zero_of_channel frames .regulator_enable h2 rfl
  have f2 := count_eq_zero_of_channel frames .regulator_disable h2 rfl
  have p1 : prepare_preamble.count Action.regulator_enable = 1 := by decide
  have p2 : prepare_preamble.count Action.regulator_disable = 0 := by decide
  have e1 : prepare_epilogue.count Action.regulator_enable = 0 := by decide
  have e2 : prepare_epilogue.count Action.regulator_disable = 0 := by decide
  have u1 : [Action.mipi_dsi_dcs_enter_sleep_mode, Action.regulator_disable,
      Action.gpiod_set_value 1].count Action.regulator_enable = 0 := by decide
  have u2 : [Action.mipi_dsi_dcs_enter_sleep_mode, Action.regulator_disable,
      Action.gpiod_set_value 1].count Action.regulator_disable = 1 := by decide
  constructor
  · simp only [List.count_append, c1, f1, p1, e1, u1]
  · simp only [List.count_append, c2, f2, p2, e2, u2]

/-- The sequence failed `ili9881c_prepare`, successful `ili9881c_prepare`,
`ili9881c_unprepare`: the calls made and the enables left on the supply. -/
theorem ili9881c_retry_sequence (env : Env) (ctx : ili9881c) (w : World)
    (hpower : env w.trace .regulator_enable = 0)
    (hz : (ili9881c_prepare env ctx (ili9881c_prepare env ctx w).2).1 = 0) :
    (((ili9881c_unprepare env ctx
        (ili9881c_prepare env ctx (ili9881c_prepare env ctx w).2).2).2.trace).drop
          w.trace.length).count Action.regulator_enable = 2 ∧
    (((ili9881c_unprepare env ctx
        (ili9881c_prepare env ctx (ili9881c_prepare env ctx w).2).2).2.trace).drop
          w.trace.length).count Action.regulator_disable = 1 ∧
    (env ((ili9881c_prepare env ctx (ili9881c_prepare env ctx w).2).2.trace ++
          [Action.mipi_dsi_dcs_enter_sleep_mode]) Action.regulator_disable = 0 →
      (ili9881c_unprepare env ctx
        (ili9881c_prepare env ctx (ili9881c_prepare env ctx w).2).2).2.power = w.power + 1) := by
  obtain ⟨calls, hc, hall⟩ := ili9881c_prepare_table_shape env ctx ili9881c_init w hpower
  have h1 : (ili9881c_prepare env ctx w).2 = w.afterReset.logged calls := hc
  have h2 := ili9881c_prepare_table_zero env ctx ili9881c_init
    (ili9881c_prepare env ctx w).2 ili9881c_init_isU8 hz
  have h2w : (ili9881c_prepare env ctx (ili9881c_prepare env ctx w).2).2 =
      (w.afterReset.logged calls).afterReset.logged
        (writes (ili9881c_init.map ili9881c_frame) ++ prepare_epilogue) := by
    show (ili9881c_prepare_table env ctx ili9881c_init (ili9881c_prepare env ctx w).2).2 = _
    rw [h2, h1]
  have hu := ili9881c_unprepare_eq env ctx
    (ili9881c_prepare env ctx (ili9881c_prepare env ctx w).2).2
  have htr : (ili9881c_unprepare env ctx
      (ili9881c_prepare env ctx (ili9881c_prepare env ctx w).2).2).2.trace =
      w.trace ++ (prepare_preamble ++ calls ++
        (prepare_preamble ++ (writes (ili9881c_init.map ili9881c_frame) ++ prepare_epilogue)) ++
        [Action.mipi_dsi_dcs_enter_sleep_mode, Action.regulator_disable,
          Action.gpiod_set_value 1]) := by
    rw [hu.2.1, h2w]
    simp [World.logged, World.afterReset]
  have hcnt := retry_counts calls (writes (ili9881c_init.map ili9881c_frame)) hall
    (writes_isChannel _)
  refine ⟨?_, ?_, ?_⟩
  · rw [htr, List.drop_left]; exact hcnt.1
  · rw [htr, List.drop_left]; exact hcnt.2
  · intro hd
    rw [hu.2.2.2 hd, h2w]
    show w.power + 1 + 1 - 1 = w.power + 1
    omega

/-- The sequence failed `ili9881d_prepare`, successful `ili9881d_prepare`,
`ili9881d_unprepare`: the calls made and the enables left on the supply. -/
theorem ili9881d_retry_sequence (env : Env) (ctx : ili9881d) (w : World)
    (hpower : env w.trace .regulator_enable = 0)
    (hz : (ili9881d_prepare env ctx (ili9881d_prepare env ctx w).2).1 = 0) :
    (((ili9881d_unprepare env ctx
        (ili9881d_prepare env ctx (ili9881d_prepare env ctx w).2).2).2.trace).drop
          w.trace.length).count Action.regulator_enable = 2 ∧
    (((ili9881d_unprepare env ctx
        (ili9881d_prepare env ctx (ili9881d_prepare env ctx w).2).2).2.trace).drop
          w.trace.length).count Action.regulator_disable = 1 ∧
    (env ((ili9881d_prepare env ctx (ili9881d_prepare env ctx w).2).2.trace ++
          [Action.mipi_dsi_dcs_enter_sleep_mode]) Action.regulator_disable = 0 →
      (ili9881d_unprepare env ctx
        (ili9881d_prepare env ctx (ili9881d_prepare env ctx w).2).2).2.power = w.power + 1) := by
  obtain ⟨calls, hc, hall⟩ := ili9881d_prepare_table_shape env ctx ili9881d_init w hpower
  have h1 : (ili9881d_prepare env ctx w).2 = w.afterReset.logged calls := hc
  have h2 := ili9881d_prepare_table_zero env ctx ili9881d_init
    (ili9881d_prepare env ctx w).2 ili9881d_init_isU8 hz
  have h2w : (ili9881d_prepare env ctx (ili9881d_prepare env ctx w).2).2 =
      (w.afterReset.logged calls).afterReset.logged
        (writes (ili9881d_init.map ili9881d_frame) ++ prepare_epilogue) := by
    show (ili9881d_prepare_table env ctx ili9881d_init (ili9881d_prepare env ctx w).2).2 = _
    rw [h2, h1]
  have hu := ili9881d_unprepare_eq env ctx
    (ili9881d_prepare env ctx (ili9881d_prepare env ctx w).2).2
  have htr : (ili9881d_unprepare env ctx
      (ili9881d_prepare env ctx (ili9881d_prepare env ctx w).2).2).2.trace =
      w.trace ++ (prepare_preamble ++ calls ++
        (prepare_preamble ++ (writes (ili9881d_init.map ili9881d_frame) ++ prepare_epilogue)) ++
        [Action.mipi_dsi_dcs_enter_sleep_mode, Action.regulator_disable,
          Action.gpiod_set_value 1]) := by
    rw [hu.2.1, h2w]
    simp [World.logged, World.afterReset]
  have hcnt := retry_counts calls (writes (ili9881d_init.map ili9881d_frame)) hall
    (writes_isChannel _)
  refine ⟨?_, ?_, ?_⟩
  · rw [htr, List.drop_left]; exact hcnt.1
  · rw [htr, List.drop_left]; exact hcnt.2
  · intro hd
    rw [hu.2.2.2 hd, h2w]
    show w.power + 1 + 1 - 1 = w.power + 1
    omega

/-- C20: `prepare` has no failure unwind.  In every run in which the power
enable succeeds and `prepare` then returns an error (a later bus write
failed), `prepare` returns with the power supply enabled, holding one more
enable than before, and the reset line deasserted, and it issued no power
disable.  If the caller then runs `prepare` again, successfully, and
`unprepare`, the three calls together made two power enables and one power
disable, and when that disable succeeds the supply still holds one more
enable than before the first `prepare`. -/
theorem prepare_has_no_unwind (env : Env) (w : World)
    (hpower : env w.trace Action.regulator_enable = 0) :
    (∀ ctx : ili9881c, (ili9881c_prepare env ctx w).1 ≠ 0 →
      (ili9881c_prepare env ctx w).2.powerEnabled ∧
      (ili9881c_prepare env ctx w).2.power = w.power + 1 ∧
      ¬ (ili9881c_prepare env ctx w).2.resetAsserted ∧
      Action.regulator_disable ∉ ((ili9881c_prepare env ctx w).2.trace).drop w.trace.length ∧
      ((ili9881c_prepare env ctx (ili9881c_prepare env ctx w).2).1 = 0 →
        (((ili9881c_unprepare env ctx
            (ili9881c_prepare env ctx (ili9881c_prepare env ctx w).2).2).2.trace).drop
              w.trace.length).count Action.regulator_enable = 2 ∧
        (((ili9881c_unprepare env ctx
            (ili9881c_prepare env ctx (ili9881c_prepare env ctx w).2).2).2.trace).drop
              w.trace.length).count Action.regulator_disable = 1 ∧
        (env ((ili9881c_prepare env ctx (ili9881c_prepare env ctx w).2).2.trace ++
              [Action.mipi_dsi_dcs_enter_sleep_mode]) Action.regulator_disable = 0 →
          (ili9881c_unprepare env ctx
            (ili9881c_prepare env ctx (ili9881c_prepare env ctx w).2).2).2.power =
              w.power + 1))) ∧
    (∀ ctx : ili9881d, (ili9881d_prepare env ctx w).1 ≠ 0 →
      (ili9881d_prepare env ctx w).2.powerEnabled ∧
      (ili9881d_prepare env ctx w).2.power = w.power + 1 ∧
      ¬ (ili9881d_prepare env ctx w).2.resetAsserted ∧
      Action.regulator_disable ∉ ((ili9881d_prepare env ctx w).2.trace).drop w.trace.length ∧
      ((ili9881d_prepare env ctx (ili9881d_prepare env ctx w).2).1 = 0 →
        (((ili9881d_unprepare env ctx
            (ili9881d_prepare env ctx (ili9881d_prepare env ctx w).2).2).2.trace).drop
              w.trace.length).count Action.regulator_enable = 2 ∧
        (((ili9881d_unprepare env ctx
            (ili9881d_prepare env ctx (ili9881d_prepare env ctx w).2).2).2.trace).drop
              w.trace.length).count Action.regulator_disable = 1 ∧
        (env ((ili9881d_prepare env ctx (ili9881d_prepare env ctx w).2).2.trace ++
              [Action.mipi_dsi_dcs_enter_sleep_mode]) Action.regulator_disable = 0 →
          (ili9881d_unprepare env ctx
            (ili9881d_prepare env ctx (ili9881d_prepare env ctx w).2).2).2.power =
              w.power + 1))) := by
  constructor
  · intro ctx _
    obtain ⟨calls, hc, hall⟩ := ili9881c_prepare_table_shape env ctx ili9881c_init w hpower
    have h1 : (ili9881c_prepare env ctx w).2 = w.afterReset.logged calls := hc
    refine ⟨?_, ?_, ?_, ?_, ili9881c_retry_sequence env ctx w hpower⟩
    · rw [h1]; exact Nat.succ_pos _
    · rw [h1]; rfl
    · rw [h1]; exact fun h => h rfl
    · rw [h1]
      show Action.regulator_disable ∉ ((w.trace ++ prepare_preamble) ++ calls).drop w.trace.length
      rw [List.append_assoc, List.drop_left]
      intro hmem
      rcases List.mem_append.mp hmem with h | h
      · revert h; decide
      · have := hall _ h
        simp [Action.isChannel] at this
  · intro ctx _
    obtain ⟨calls, hc, hall⟩ := ili9881d_prepare_table_shape env ctx ili9881d_init w hpower
    have h1 : (ili9881d_prepare env ctx w).2 = w.afterReset.logged calls := hc
    refine ⟨?_, ?_, ?_, ?_, ili9881d_retry_sequence env ctx w hpower⟩
    · rw [h1]; exact Nat.succ_pos _
    · rw [h1]; rfl
    · rw [h1]; exact fun h => h rfl
    · rw [h1]
      show Action.regulator_disable ∉ ((w.trace ++ prepare_preamble) ++ calls).drop w.trace.length
      rw [List.append_assoc, List.drop_left]
      intro hmem
      rcases List.mem_append.mp hmem with h | h
      · revert h; decide
      · have := hall _ h
        simp [Action.isChannel] at this

/-- Witness of C20: after attach, on a channel whose very first command
fails with `-5` and which accepts everything after it, the first
`ili9881c_prepare` fails and leaves one enable on the supply; the second
succeeds; after `unprepare` two power enables and one power disable were made
and the supply still holds one enable. -/
theorem prepare_has_no_unwind_witness :
    (ili9881c_prepare (envFailAt 0 (-5)) ⟨true⟩ world0).1 = -5 ∧
    (ili9881c_prepare (envFailAt 0 (-5)) ⟨true⟩ world0).2.power = 0 + 1 ∧
    (ili9881c_prepare (envFailAt 0 (-5)) ⟨true⟩
      (ili9881c_prepare (envFailAt 0 (-5)) ⟨true⟩ world0).2).1 = 0 ∧
    (((ili9881c_unprepare (envFailAt 0 (-5)) ⟨true⟩
        (ili9881c_prepare (envFailAt 0 (-5)) ⟨true⟩
          (ili9881c_prepare (envFailAt 0 (-5)) ⟨true⟩ world0).2).2).2.trace).drop
            world0.trace.length).count Action.regulator_enable = 2 ∧
    (((ili9881c_unprepare (envFailAt 0 (-5)) ⟨true⟩
        (ili9881c_prepare (envFailAt 0 (-5)) ⟨true⟩
          (ili9881c_prepare (envFailAt 0 (-5)) ⟨true⟩ world0).2).2).2.trace).drop
            world0.trace.length).count Action.regulator_disable = 1 := by
  have hfail : (ili9881c_prepare (envFailAt 0 (-5)) ⟨true⟩ world0).1 = -5 := by
    rw [envFailAt_first_write_c]
  have hne : (ili9881c_prepare (envFailAt 0 (-5)) ⟨true⟩ world0).1 ≠ 0 := by
    rw [hfail]; decide
  have hz : (ili9881c_prepare (envFailAt 0 (-5)) ⟨true⟩
      (ili9881c_prepare (envFailAt 0 (-5)) ⟨true⟩ world0).2).1 = 0 := rfl
  have h := (prepare_has_no_unwind (envFailAt 0 (-5)) world0 rfl).1 ⟨true⟩ hne
  exact ⟨hfail, h.2.1, hz, (h.2.2.2.2 hz).1, (h.2.2.2.2 hz).2.1⟩

/-! ## The channel calls of a successful `ili9881c_prepare` -/

/-- The channel calls of an `ili9881c_prepare` that returns `0`: the table
frames, then the epilogue. -/
theorem ili9881c_prepare_channelCalls (env : Env) (ctx : ili9881c) (w : World)
    (hz : (ili9881c_prepare env ctx w).1 = 0) :
    channelCalls w (ili9881c_prepare env ctx w).2 =
      writes (ili9881c_init.map ili9881c_frame) ++ prepare_epilogue := by
  have h := ili9881c_prepare_table_zero env ctx ili9881c_init w ili9881c_init_isU8 hz
  have htr : (ili9881c_prepare env ctx w).2.trace =
      w.trace ++ (prepare_preamble ++
        (writes (ili9881c_init.map ili9881c_frame) ++ prepare_epilogue)) := by
    unfold ili9881c_prepare
    rw [h]
    simp [World.logged, World.afterReset]
  have hp : prepare_preamble.filter Action.isChannel = [] := by decide
  have he : prepare_epilogue.filter Action.isChannel = prepare_epilogue := by decide
  have hw : (writes (ili9881c_init.map ili9881c_frame)).filter Action.isChannel =
      writes (ili9881c_init.map ili9881c_frame) :=
    List.filter_eq_self.mpr (writes_isChannel _)
  unfold channelCalls
  rw [htr, List.drop_left, List.filter_append, List.filter_append, hp, he, hw]
  rfl

/-- No two-byte buffer write of a successful `ili9881c_prepare` is its first
channel call or comes at or after the page-0 frame. -/
theorem ili9881c_register_writes_between (i cmd data : Nat)
    (hi : (writes (ili9881c_init.map ili9881c_frame) ++ prepare_epilogue)[i]? =
      some (Action.mipi_dsi_dcs_write_buffer [cmd, data])) :
    0 < i ∧ i < ili9881c_init.length := by
  have hlen : (writes (ili9881c_init.map ili9881c_frame)).length = ili9881c_init.length := by
    simp [writes]
  rcases Nat.lt_or_ge i ili9881c_init.length with h | h
  · refine ⟨?_, h⟩
    rcases Nat.eq_zero_or_pos i with h0 | h0
    · subst h0
      have h3 : (writes (ili9881c_init.map ili9881c_frame) ++ prepare_epilogue)[0]? =
          some (pageFrame 3) := rfl
      rw [h3] at hi
      simp [pageFrame] at hi
    · exact h0
  · rw [List.getElem?_append_right (by rw [hlen]; exact h), hlen] at hi
    generalize i - ili9881c_init.length = j at hi
    rcases j with _ | _ | _ | j <;> simp [prepare_epilogue] at hi

/-! ## The channel calls of a successful `ili9881d_prepare` -/

/-- The channel calls of an `ili9881d_prepare` that returns `0`: the table
frames, then the epilogue. -/
theorem ili9881d_prepare_channelCalls (env : Env) (ctx : ili9881d) (w : World)
    (hz : (ili9881d_prepare env ctx w).1 = 0) :
    channelCalls w (ili9881d_prepare env ctx w).2 =
      writes (ili9881d_init.map ili9881d_frame) ++ prepare_epilogue := by
  have h := ili9881d_prepare_table_zero env ctx ili9881d_init w ili9881d_init_isU8 hz
  have htr : (ili9881d_prepare env ctx w).2.trace =
      w.trace ++ (prepare_preamble ++
        (writes (ili9881d_init.map ili9881d_frame) ++ prepare_epilogue)) := by
    unfold ili9881d_prepare
    rw [h]
    simp [World.logged, World.afterReset]
  have hp : prepare_preamble.filter Action.isChannel = [] := by decide
  have he : prepare_epilogue.filter Action.isChannel = prepare_epilogue := by decide
  have hw : (writes (ili9881d_init.map ili9881d_frame)).filter Action.isChannel =
      writes (ili9881d_init.map ili9881d_frame) :=
    List.filter_eq_self.mpr (writes_isChannel _)
  unfold channelCalls
  rw [htr, List.drop_left, List.filter_append, List.filter_append, hp, he, hw]
  rfl

/-- No two-byte buffer write of a successful `ili9881d_prepare` is its first
channel call or comes at or after the page-0 frame. -/
theorem ili9881d_register_writes_between (i cmd data : Nat)
    (hi : (writes (ili9881d_init.map ili9881d_frame) ++ prepare_epilogue)[i]? =
      some (Action.mipi_dsi_dcs_write_buffer [cmd, data])) :
    0 < i ∧ i < ili9881d_init.length := by
  have hlen : (writes (ili9881d_init.map ili9881d_frame)).length = ili9881d_init.length := by
    simp [writes]
  rcases Nat.lt_or_ge i ili9881d_init.length with h | h
  · refine ⟨?_, h⟩
    rcases Nat.eq_zero_or_pos i with h0 | h0
    · subst h0
      have h3 : (writes (ili9881d_init.map ili9881d_frame) ++ prepare_epilogue)[0]? =
          some (pageFrame 3) := rfl
      rw [h3] at hi
      simp [pageFrame] at hi
    · exact h0
  · rw [List.getElem?_append_right (by rw [hlen]; exact h), hlen] at hi
    generalize i - ili9881d_init.length = j at hi
    rcases j with _ | _ | _ | j <;> simp [prepare_epilogue] at hi

/-! ## Page order of the shipped tables -/

/-- C21: in every `prepare` of either driver that returns `0`, run with the
shipped table, the page-select frames among the channel calls are exactly the
four frames for pages 3, 4, 1, 0, in that order; the first channel call is the
page-3 frame and the call at position `table length` is the page-0 frame; every
two-byte register write sits strictly after the page-3 frame and before the
page-0 frame; and the channel calls number `table length + 3`, that is
201 + 3 for ili9881c and 194 + 3 for ili9881d. -/
theorem shipped_prepare_page_order (env : Env) (w : World) :
    (∀ ctx : ili9881c, (ili9881c_prepare env ctx w).1 = 0 →
      (channelCalls w (ili9881c_prepare env ctx w).2).filter Action.isPageSelect =
        [pageFrame 3, pageFrame 4, pageFrame 1, pageFrame 0] ∧
      (channelCalls w (ili9881c_prepare env ctx w).2)[0]? = some (pageFrame 3) ∧
      (channelCalls w (ili9881c_prepare env ctx w).2)[201]? = some (pageFrame 0) ∧
      (∀ i cmd data : Nat,
        (channelCalls w (ili9881c_prepare env ctx w).2)[i]? =
          some (Action.mipi_dsi_dcs_write_buffer [cmd, data]) → 0 < i ∧ i < 201) ∧
      (channelCalls w (ili9881c_prepare env ctx w).2).length = 201 + 3 ∧
      ili9881c_init.length = 201) ∧
    (∀ ctx : ili9881d, (ili9881d_prepare env ctx w).1 = 0 →
      (channelCalls w (ili9881d_prepare env ctx w).2).filter Action.isPageSelect =
        [pageFrame 3, pageFrame 4, pageFrame 1, pageFrame 0] ∧
      (channelCalls w (ili9881d_prepare env ctx w).2)[0]? = some (pageFrame 3) ∧
      (channelCalls w (ili9881d_prepare env ctx w).2)[194]? = some (pageFrame 0) ∧
      (∀ i cmd data : Nat,
        (channelCalls w (ili9881d_prepare env ctx w).2)[i]? =
          some (Action.mipi_dsi_dcs_write_buffer [cmd, data]) → 0 < i ∧ i < 194) ∧
      (channelCalls w (ili9881d_prepare env ctx w).2).length = 194 + 3 ∧
      ili9881d_init.length = 194) := by
  constructor
  · intro ctx hz
    rw [ili9881c_prepare_channelCalls env ctx w hz]
    refine ⟨rfl, rfl, rfl, ?_, rfl, rfl⟩
    intro i cmd data hi
    have h := ili9881c_register_writes_between i cmd data hi
    rw [ili9881c_init_length] at h
    exact h
  · intro ctx hz
    rw [ili9881d_prepare_channelCalls env ctx w hz]
    refine ⟨rfl, rfl, rfl, ?_, rfl, rfl⟩
    intro i cmd data hi
    have h := ili9881d_register_writes_between i cmd data hi
    rw [ili9881d_init_length] at h
    exact h

/-- Witness of C21: `ili9881d_prepare` after attach on a channel where
everything succeeds returns `0`, makes 197 channel calls, and its page-select
frames are those of pages 3, 4, 1, 0. -/
theorem shipped_prepare_page_order_witness :
    (ili9881d_prepare envOk ⟨true⟩ world0).1 = 0 ∧
    (channelCalls world0 (ili9881d_prepare envOk ⟨true⟩ world0).2).filter Action.isPageSelect =
      [pageFrame 3, pageFrame 4, pageFrame 1, pageFrame 0] ∧
    (channelCalls world0 (ili9881d_prepare envOk ⟨true⟩ world0).2).length = 197 := by
  have hz : (ili9881d_prepare envOk ⟨true⟩ world0).1 = 0 := by
    unfold ili9881d_prepare
    rw [ili9881d_prepare_table_ok envOk ⟨true⟩ ili9881d_init world0 ili9881d_init_isU8
      envOk_allSucceed]
  have h := (shipped_prepare_page_order envOk world0).2 ⟨true⟩ hz
  exact ⟨hz, h.1, h.2.2.2.2.1⟩

/-! ## Consistency of the fixed modes -/

/-- C22: both fixed modes are consistent in exact integer arithmetic.  The
horizontal and vertical timings are ordered,
`display ≤ sync_start ≤ sync_end ≤ total`, with the values 720/744/748/784 and
1280/1312/1316/1328 for ili9881c and 720/730/750/780 and 1280/1290/1300/1320
for ili9881d; and the declared `vrefresh` of 60 is the pixel clock (62469 kHz,
62000 kHz) times 1000 over `htotal * vtotal`, rounded to the nearest integer:
the exact quotient lies within one half of 60. -/
theorem fixed_modes_consistent :
    (ili9881c_bananapi_default_mode.hdisplay = 720 ∧
      ili9881c_bananapi_default_mode.hsync_start = 744 ∧
      ili9881c_bananapi_default_mode.hsync_end = 748 ∧
      ili9881c_bananapi_default_mode.htotal = 784 ∧
      ili9881c_bananapi_default_mode.vdisplay = 1280 ∧
      ili9881c_bananapi_default_mode.vsync_start = 1312 ∧
      ili9881c_bananapi_default_mode.vsync_end = 1316 ∧
      ili9881c_bananapi_default_mode.vtotal = 1328 ∧
      ili9881c_bananapi_default_mode.clock = 62469 ∧
      ili9881c_bananapi_default_mode.vrefresh = 60) ∧
    (ili9881c_bananapi_default_mode.hdisplay ≤ ili9881c_bananapi_default_mode.hsync_start ∧
      ili9881c_bananapi_default_mode.hsync_start ≤ ili9881c_bananapi_default_mode.hsync_end ∧
      ili9881c_bananapi_default_mode.hsync_end ≤ ili9881c_bananapi_default_mode.htotal ∧
      ili9881c_bananapi_default_mode.vdisplay ≤ ili9881c_bananapi_default_mode.vsync_start ∧
      ili9881c_bananapi_default_mode.vsync_start ≤ ili9881c_bananapi_default_mode.vsync_end ∧
      ili9881c_bananapi_default_mode.vsync_end ≤ ili9881c_bananapi_default_mode.vtotal) ∧
    (ili9881c_bananapi_default_mode.refreshFromTimings =
        ili9881c_bananapi_default_mode.vrefresh ∧
      2 * (ili9881c_bananapi_default_mode.vrefresh *
          (ili9881c_bananapi_default_mode.htotal * ili9881c_bananapi_default_mode.vtotal)) <
        2 * (ili9881c_bananapi_default_mode.clock * 1000) +
          ili9881c_bananapi_default_mode.htotal * ili9881c_bananapi_default_mode.vtotal ∧
      2 * (ili9881c_bananapi_default_mode.clock * 1000) <
        2 * (ili9881c_bananapi_default_mode.vrefresh *
          (ili9881c_bananapi_default_mode.htotal * ili9881c_bananapi_default_mode.vtotal)) +
          ili9881c_bananapi_default_mode.htotal * ili9881c_bananapi_default_mode.vtotal) ∧
    (ili9881d_bananapi_default_mode.hdisplay = 720 ∧
      ili9881d_bananapi_default_mode.hsync_start = 730 ∧
      ili9881d_bananapi_default_mode.hsync_end = 750 ∧
      ili9881d_bananapi_default_mode.htotal = 780 ∧
      ili9881d_bananapi_default_mode.vdisplay = 1280 ∧
      ili9881d_bananapi_default_mode.vsync_start = 1290 ∧
      ili9881d_bananapi_default_mode.vsync_end = 1300 ∧
      ili9881d_bananapi_default_mode.vtotal = 1320 ∧
      ili9881d_bananapi_default_mode.clock = 62000 ∧
      ili9881d_bananapi_default_mode.vrefresh = 60) ∧
    (ili9881d_bananapi_default_mode.hdisplay ≤ ili9881d_bananapi_default_mode.hsync_start ∧
      ili9881d_bananapi_default_mode.hsync_start ≤ ili9881d_bananapi_default_mode.hsync_end ∧
      ili9881d_bananapi_default_mode.hsync_end ≤ ili9881d_bananapi_default_mode.htotal ∧
      ili9881d_bananapi_default_mode.vdisplay ≤ ili9881d_bananapi_default_mode.vsync_start ∧
      ili9881d_bananapi_default_mode.vsync_start ≤ ili9881d_bananapi_default_mode.vsync_end ∧
      ili9881d_bananapi_default_mode.vsync_end ≤ ili9881d_bananapi_default_mode.vtotal) ∧
    (ili9881d_bananapi_default_mode.refreshFromTimings =
        ili9881d_bananapi_default_mode.vrefresh ∧
      2 * (ili9881d_bananapi_default_mode.vrefresh *
          (ili9881d_bananapi_default_mode.htotal * ili9881d_bananapi_default_mode.vtotal)) <
        2 * (ili9881d_bananapi_default_mode.clock * 1000) +
          ili9881d_bananapi_default_mode.htotal * ili9881d_bananapi_default_mode.vtotal ∧
      2 * (ili9881d_bananapi_default_mode.clock * 1000) <
        2 * (ili9881d_bananapi_default_mode.vrefresh *
          (ili9881d_bananapi_default_mode.htotal * ili9881d_bananapi_default_mode.vtotal)) +
          ili9881d_bananapi_default_mode.htotal * ili9881d_bananapi_default_mode.vtotal) := by
  decide

end Ili9881
